import Mathlib

/-! libfdata vector: segment table, offset resolution and cache coordination

A shallow embedding of `libfdata/libfdata_vector.c` and of the read test in
`tests/fdata_test_vector.c`.

Conventions of the embedding.

* `size64_t` values are natural numbers, `off64_t`, `int` and `time_t` values are
  integers; every C operation that can leave the range of its type is followed by an
  explicit reduction (`to_off64`, `to_size64`).  Signed overflow is modelled as
  two's complement wrap-around.
* A nullable pointer is an `Option`.  The vector and cache arguments themselves are
  taken to be non-NULL.
* A C function returning `1` or `-1` returns `Except libfdata_error _`; the error names
  the `libcerror_error_set` site that was reached.
* The segments array (libcdata) and the cache (libfcache) are external collaborators.
  Their operations are modelled on lists of optional entries.
-/

set_option autoImplicit false

/-! ## Machine integers -/

/-- Largest value of a C `int` (32 bit). -/
def INT_MAX : Int := 2147483647

/-- Largest value of an `off64_t`. -/
def INT64_MAX : Int := 9223372036854775807

/-- Largest value of an `ssize_t` on a 64 bit platform. -/
def SSIZE_MAX : Int := 9223372036854775807

/-- Conversion of an integer value to `off64_t`: reduction modulo 2^64 into
the signed range. -/
def to_off64 (x : Int) : Int :=
  (x + 9223372036854775808) % 18446744073709551616 - 9223372036854775808

/-- Conversion of an integer value to `size64_t` (`uint64_t`): reduction modulo 2^64. -/
def to_size64 (x : Int) : Int :=
  x % 18446744073709551616

/-! ## Errors -/

/-- The error sites of `libfdata_vector.c`, one constructor per distinct
`libcerror_error_set` message. -/
inductive libfdata_error where
  | invalid_vector
  | value_already_set
  | element_size_zero_or_less
  | element_size_out_of_bounds
  | value_offset_less_than_zero
  | number_of_segments_out_of_bounds
  | get_segment_failed
  | missing_segment_data_range
  | segment_index_out_of_bounds
  | element_index_exceeds_maximum
  | element_offset_out_of_bounds
  | empty_failed
  | resize_failed
  | get_entry_failed
  | range_get_failed
  | range_set_failed
  | set_entry_failed
  | append_failed
  | number_of_elements_out_of_bounds
  | missing_read_element_data
  | data_size_out_of_bounds
  | element_index_out_of_bounds
  | number_of_cache_entries_out_of_bounds
  | get_cache_entry_failed
  | read_failed
  | missing_cache_value
  | get_element_value_failed
  | set_cache_value_failed
  | missing_free_data_handle
  | missing_clone_data_handle
  | free_data_handle_failed
  | clone_data_handle_failed
  | free_segments_array_failed
  | create_destination_vector_failed
deriving DecidableEq, Repr

/-! ## Segment data ranges (libfdata_range) -/

/-- The fields of `libfdata_range_t`: one entry of the segment table. -/
structure libfdata_range where
  file_index : Int
  offset : Int
  size : Nat
  flags : Nat
deriving DecidableEq, Repr

/-- Modelled from the spec: `libfdata_range_set` (libfdata_range.c is not part of the
sources at hand).  A segment size "must be representable and non-negative": the call
fails when the size exceeds `INT64_MAX` and stores the four values otherwise. -/
def libfdata_range_set (file_index : Int) (offset : Int) (size : Nat) (flags : Nat) :
    Option libfdata_range :=
  if (size : Int) > INT64_MAX then none
  else some ⟨file_index, offset, size, flags⟩

/-- Modelled from the spec: `libfdata_range_get` returns the four stored values of a
data range and fails on a NULL range. -/
def libfdata_range_get (range : Option libfdata_range) :
    Option (Int × Int × Nat × Nat) :=
  match range with
  | none => none
  | some r => some (r.file_index, r.offset, r.size, r.flags)

/-! ## The segments array (libcdata_array) -/

/-- Modelled from the spec: `count()`, the number of entries of the array. -/
def libcdata_array_get_number_of_entries {α : Type} (array : List (Option α)) : Int :=
  (array.length : Int)

/-- Modelled from the spec: `get-by-index(index)`; fails (`none`) when the index is
outside the array, returns the possibly NULL entry otherwise. -/
def libcdata_array_get_entry_by_index {α : Type} (array : List (Option α))
    (entry_index : Int) : Option (Option α) :=
  if entry_index < 0 then none else array[entry_index.toNat]?

/-- Modelled from the spec: `set-by-index(index, value)`; fails when the index is
outside the array. -/
def libcdata_array_set_entry_by_index {α : Type} (array : List (Option α))
    (entry_index : Int) (entry : Option α) : Option (List (Option α)) :=
  if entry_index < 0 ∨ (array.length : Int) ≤ entry_index then none
  else some (array.set entry_index.toNat entry)

/-- Modelled from the spec: `append(value)` returns the index of the new last entry. -/
def libcdata_array_append_entry {α : Type} (array : List (Option α)) (entry : Option α) :
    Option (Int × List (Option α)) :=
  some ((array.length : Int), array ++ [entry])

/-- Modelled from the spec: `empty(destructor)` removes (and destroys) every entry. -/
def libcdata_array_empty {α : Type} (_array : List (Option α)) :
    Option (List (Option α)) :=
  some []

/-- Modelled from the spec: `resize(n, destructor)`; a negative number of entries is
refused, surplus entries are destroyed and new entries are NULL. -/
def libcdata_array_resize {α : Type} (array : List (Option α)) (number_of_entries : Int) :
    Option (List (Option α)) :=
  if number_of_entries < 0 then none
  else some (array.take number_of_entries.toNat
    ++ List.replicate (number_of_entries.toNat - array.length) none)

/-! ## The vector -/

/-- The data members of `libfdata_internal_vector_t`.  This is also what a callback
sees of the vector it is handed (`libfdata_vector_t *`). -/
structure libfdata_vector (H : Type) where
  element_size : Nat
  data_size : Nat
  timestamp : Int
  flags : Nat
  data_handle : Option H
  segments_array : List (Option libfdata_range)

/-- The loop of `libfdata_vector_get_element_index_at_offset` over the segments, from
segment `segment_index` on, with the running `segment_data_offset`.  On `break` it
yields the segment index and the cumulative start of that segment. -/
def libfdata_vector_get_element_index_at_offset_loop (value_offset : Int) :
    List (Option libfdata_range) → Int → Int → Except libfdata_error (Int × Int)
  | [], _, _ => .error .segment_index_out_of_bounds
  | none :: _, _, _ => .error .missing_segment_data_range
  | some segment_data_range :: rest, segment_index, segment_data_offset =>
    if value_offset < to_off64 (segment_data_offset + (segment_data_range.size : Int)) then
      .ok (segment_index, segment_data_offset)
    else
      libfdata_vector_get_element_index_at_offset_loop value_offset rest (segment_index + 1)
        (to_off64 (segment_data_offset + to_off64 (segment_data_range.size : Int)))

/-- Retrieves the element index for a specific offset: `(element_index, element_offset)`
on success. -/
def libfdata_vector_get_element_index_at_offset {H : Type} (vector : libfdata_vector H)
    (value_offset : Int) : Except libfdata_error (Int × Int) :=
  if vector.element_size = 0 then .error .element_size_out_of_bounds
  else if value_offset < 0 then .error .value_offset_less_than_zero
  else if libcdata_array_get_number_of_entries vector.segments_array ≤ 0 then
    .error .number_of_segments_out_of_bounds
  else
    match libfdata_vector_get_element_index_at_offset_loop value_offset
        vector.segments_array 0 0 with
    | .error e => .error e
    | .ok (_, segment_data_offset) =>
      let calculated_element_index : Int :=
        to_size64 (to_off64 (segment_data_offset + value_offset)) / (vector.element_size : Int)
      if calculated_element_index > INT_MAX then .error .element_index_exceeds_maximum
      else
        let value_offset1 : Int :=
          to_off64 (value_offset
            - to_off64 (to_size64 (calculated_element_index * (vector.element_size : Int))))
        if value_offset1 < 0 ∨ value_offset1 > SSIZE_MAX then
          .error .element_offset_out_of_bounds
        else .ok (calculated_element_index, value_offset1)

/-! ## The cache (libfcache) -/

/-- The fields of `libfcache_cache_value_t`: the identifier
`(file_index, offset, timestamp)`, the value, its free function and its flags. -/
structure libfcache_cache_value (V : Type) where
  file_index : Int
  offset : Int
  timestamp : Int
  value : V
  free_value : Option (V → Int)
  flags : Nat

/-- The cache: a fixed number of slots, each empty (NULL) or holding a cache value. -/
abbrev libfcache_cache (V : Type) : Type := List (Option (libfcache_cache_value V))

/-- Modelled from the spec: `capacity()`, the number of slots of the cache. -/
def libfcache_cache_get_number_of_entries {V : Type} (cache : libfcache_cache V) : Int :=
  (cache.length : Int)

/-- Modelled from the spec: `get-value-by-slot(slot)`; fails (`none`) outside the cache,
and yields the cache value of the slot or NULL for an empty slot. -/
def libfcache_cache_get_value_by_index {V : Type} (cache : libfcache_cache V)
    (cache_entry_index : Int) : Option (Option (libfcache_cache_value V)) :=
  if cache_entry_index < 0 then none else cache[cache_entry_index.toNat]?

/-- Modelled from the spec: `get-identity(value)`. -/
def libfcache_cache_value_get_identifier {V : Type} (cache_value : libfcache_cache_value V) :
    Int × Int × Int :=
  (cache_value.file_index, cache_value.offset, cache_value.timestamp)

/-- Modelled from the spec: the value held by a cache value; fails on a NULL cache
value. -/
def libfcache_cache_value_get_value {V : Type}
    (cache_value : Option (libfcache_cache_value V)) : Option V :=
  match cache_value with
  | none => none
  | some cv => some cv.value

/-- Modelled from the spec: `set-value-by-slot(slot, source_index, physical_offset,
generation_tag, value, destructor, ownership_flag)`; fails outside the cache and
overwrites the slot otherwise. -/
def libfcache_cache_set_value_by_index {V : Type} (cache : libfcache_cache V)
    (cache_entry_index : Int) (file_index : Int) (offset : Int) (timestamp : Int)
    (value : V) (free_value : Option (V → Int)) (flags : Nat) :
    Option (libfcache_cache V) :=
  if cache_entry_index < 0 ∨ (cache.length : Int) ≤ cache_entry_index then none
  else some (cache.set cache_entry_index.toNat
    (some ⟨file_index, offset, timestamp, value, free_value, flags⟩))

/-! ## Callbacks and the internal vector -/

/-- The type of `read_element_data` and `write_element_data`: the arguments are
`data_handle, file_io_handle, vector, cache, element_index, element_data_file_index,
element_data_offset, element_data_size, element_data_flags, read_flags`; the callback
yields its return value and the cache as it leaves it. -/
abbrev libfdata_vector_element_data_function (H V : Type) : Type :=
  Option H → Option H → libfdata_vector H → libfcache_cache V → Int → Int → Int → Nat →
    Nat → Nat → Int × libfcache_cache V

/-- One invocation of the read callback, with the arguments it was given. -/
structure libfdata_vector_read_call (H V : Type) where
  data_handle : Option H
  file_io_handle : Option H
  vector : libfdata_vector H
  cache : libfcache_cache V
  element_index : Int
  element_data_file_index : Int
  element_data_offset : Int
  element_data_size : Nat
  element_data_flags : Nat
  read_flags : Nat

/-- The vector with its four function pointers: `libfdata_internal_vector_t`. -/
structure libfdata_internal_vector (H V : Type) extends libfdata_vector H where
  free_data_handle : Option (H → Int)
  clone_data_handle : Option (H → Int × Option H)
  read_element_data : Option (libfdata_vector_element_data_function H V)
  write_element_data : Option (libfdata_vector_element_data_function H V)

/-- The flag `LIBFDATA_FLAG_DATA_HANDLE_MANAGED` of libfdata_definitions.h. -/
def LIBFDATA_FLAG_DATA_HANDLE_MANAGED : Nat := 0x01

/-- The flag `LIBFDATA_READ_FLAG_IGNORE_CACHE` of libfdata_definitions.h. -/
def LIBFDATA_READ_FLAG_IGNORE_CACHE : Nat := 0x01

/-- The macro `libfdata_vector_calculate_cache_entry_index`. -/
def libfdata_vector_calculate_cache_entry_index (element_index : Int)
    (number_of_cache_entries : Int) : Int :=
  Int.tmod element_index number_of_cache_entries

/-- Initializes the vector.  The destination `vector` is `none` for a NULL argument,
`some none` for a reference holding NULL and `some (some _)` for a reference that is
already set.  `timestamp` is the value of `libfcache_date_time_get_timestamp()`.
Allocation failures are not modelled. -/
def libfdata_vector_initialize {H V : Type}
    (vector : Option (Option (libfdata_internal_vector H V)))
    (element_size : Nat) (data_handle : Option H)
    (free_data_handle : Option (H → Int))
    (clone_data_handle : Option (H → Int × Option H))
    (read_element_data : Option (libfdata_vector_element_data_function H V))
    (write_element_data : Option (libfdata_vector_element_data_function H V))
    (flags : Nat) (timestamp : Int) :
    Except libfdata_error (libfdata_internal_vector H V) :=
  match vector with
  | none => .error .invalid_vector
  | some (some _) => .error .value_already_set
  | some none =>
    if element_size = 0 then .error .element_size_zero_or_less
    else
      .ok { element_size := element_size
            data_size := 0
            timestamp := timestamp
            flags := 0 ||| flags
            data_handle := data_handle
            segments_array := []
            free_data_handle := free_data_handle
            clone_data_handle := clone_data_handle
            read_element_data := read_element_data
            write_element_data := write_element_data }

/-! ## Segment functions -/

/-- Empties the segments. -/
def libfdata_vector_empty_segments {H : Type} (vector : libfdata_vector H) :
    Except libfdata_error (libfdata_vector H) :=
  match libcdata_array_empty vector.segments_array with
  | none => .error .empty_failed
  | some segments_array => .ok { vector with segments_array := segments_array }

/-- Resizes the segments. -/
def libfdata_vector_resize_segments {H : Type} (vector : libfdata_vector H)
    (number_of_segments : Int) : Except libfdata_error (libfdata_vector H) :=
  match libcdata_array_resize vector.segments_array number_of_segments with
  | none => .error .resize_failed
  | some segments_array => .ok { vector with segments_array := segments_array }

/-- Retrieves the number of segments of the vector. -/
def libfdata_vector_get_number_of_segments {H : Type} (vector : libfdata_vector H) :
    Except libfdata_error Int :=
  .ok (libcdata_array_get_number_of_entries vector.segments_array)

/-- Retrieves the file index, offset, size and flags of a specific segment. -/
def libfdata_vector_get_segment_by_index {H : Type} (vector : libfdata_vector H)
    (segment_index : Int) : Except libfdata_error (Int × Int × Nat × Nat) :=
  match libcdata_array_get_entry_by_index vector.segments_array segment_index with
  | none => .error .get_entry_failed
  | some segment_data_range =>
    match libfdata_range_get segment_data_range with
    | none => .error .range_get_failed
    | some values => .ok values

/-- Sets the offset and size of a specific segment.  The function has no error path
that restores the vector, so the vector as the call leaves it is returned together
with the result. -/
def libfdata_vector_set_segment_by_index {H : Type} (vector : libfdata_vector H)
    (segment_index : Int) (segment_file_index : Int) (segment_offset : Int)
    (segment_size : Nat) (segment_flags : Nat) :
    Except libfdata_error Unit × libfdata_vector H :=
  match libcdata_array_get_entry_by_index vector.segments_array segment_index with
  | none => (.error .get_entry_failed, vector)
  | some none =>
    -- a new, zeroed data range is created and put into the array
    match libcdata_array_set_entry_by_index vector.segments_array segment_index
        (some ⟨0, 0, 0, 0⟩) with
    | none => (.error .set_entry_failed, vector)
    | some segments_array =>
      match libfdata_range_set segment_file_index segment_offset segment_size
          segment_flags with
      | none => (.error .range_set_failed, { vector with segments_array := segments_array })
      | some segment_data_range =>
        (.ok (), { vector with
          segments_array := segments_array.set segment_index.toNat (some segment_data_range)
          data_size := (vector.data_size + segment_size) % 18446744073709551616 })
  | some (some previous) =>
    let data_size1 : Nat :=
      (to_size64 ((vector.data_size : Int) - (previous.size : Int))).toNat
    match libfdata_range_set segment_file_index segment_offset segment_size
        segment_flags with
    | none => (.error .range_set_failed, { vector with data_size := data_size1 })
    | some segment_data_range =>
      (.ok (), { vector with
        segments_array := vector.segments_array.set segment_index.toNat
          (some segment_data_range)
        data_size := (data_size1 + segment_size) % 18446744073709551616 })

/-- Appends a segment; yields the index of the new segment and the updated vector. -/
def libfdata_vector_append_segment {H : Type} (vector : libfdata_vector H)
    (segment_file_index : Int) (segment_offset : Int) (segment_size : Nat)
    (segment_flags : Nat) : Except libfdata_error (Int × libfdata_vector H) :=
  match libfdata_range_set segment_file_index segment_offset segment_size segment_flags with
  | none => .error .range_set_failed
  | some segment_data_range =>
    match libcdata_array_append_entry vector.segments_array (some segment_data_range) with
    | none => .error .append_failed
    | some (segment_index, segments_array) =>
      .ok (segment_index, { vector with
        segments_array := segments_array
        data_size := (vector.data_size + segment_size) % 18446744073709551616 })

/-! ## Vector element functions -/

/-- Retrieves the number of elements of the vector. -/
def libfdata_vector_get_number_of_elements {H : Type} (vector : libfdata_vector H) :
    Except libfdata_error Int :=
  if vector.element_size = 0 then .error .element_size_out_of_bounds
  else
    let safe_number_of_elements : Nat := vector.data_size / vector.element_size
    if (safe_number_of_elements : Int) > INT_MAX then
      .error .number_of_elements_out_of_bounds
    else .ok (safe_number_of_elements : Int)

/-- Retrieves the element size of the vector. -/
def libfdata_vector_get_element_size {H : Type} (vector : libfdata_vector H) :
    Except libfdata_error Nat :=
  .ok vector.element_size

/-- Retrieves the data size of the vector. -/
def libfdata_vector_get_data_size {H : Type} (vector : libfdata_vector H) :
    Except libfdata_error Nat :=
  .ok vector.data_size

/-- The outcome of `libfdata_vector_get_element_value_by_index`: the result (the element
value on success), the cache as the call leaves it, and the invocations of the read
callback the call made, in order. -/
structure libfdata_vector_get_element_value_result (H V : Type) where
  result : Except libfdata_error V
  cache : libfcache_cache V
  read_calls : List (libfdata_vector_read_call H V)

/-- The loop of `libfdata_vector_get_element_value_by_index` over the segments, from
segment `segment_index` on, with the running `element_data_offset`.  On `break` it
yields the segment index and the element data offset inside the source. -/
def libfdata_vector_get_element_value_by_index_loop :
    List (Option libfdata_range) → Int → Int → Except libfdata_error (Int × Int)
  | [], _, _ => .error .segment_index_out_of_bounds
  | none :: _, _, _ => .error .missing_segment_data_range
  | some segment_data_range :: rest, segment_index, element_data_offset =>
    if element_data_offset < to_off64 (segment_data_range.size : Int) then
      .ok (segment_index, to_off64 (element_data_offset + segment_data_range.offset))
    else
      libfdata_vector_get_element_value_by_index_loop rest (segment_index + 1)
        (to_off64 (element_data_offset - (segment_data_range.size : Int)))

/-- The cache lookup of `libfdata_vector_get_element_value_by_index` (the block guarded
by `LIBFDATA_READ_FLAG_IGNORE_CACHE`).  It yields the locals `result`, `cache_value`,
`cache_value_offset` and `cache_value_timestamp` as the block leaves them. -/
def libfdata_vector_get_element_value_by_index_lookup {H V : Type}
    (vector : libfdata_internal_vector H V) (cache : libfcache_cache V)
    (element_index : Int) (read_flags : Nat) (number_of_cache_entries : Int)
    (element_data_offset : Int) :
    Except libfdata_error (Int × Option (libfcache_cache_value V) × Int × Int) :=
  if read_flags &&& LIBFDATA_READ_FLAG_IGNORE_CACHE = 0 then
    match libfcache_cache_get_value_by_index cache
        (libfdata_vector_calculate_cache_entry_index element_index
          number_of_cache_entries) with
    | none => .error .get_cache_entry_failed
    | some cache_value =>
      let identifier : Int × Int :=
        match cache_value with
        | some cv =>
          ((libfcache_cache_value_get_identifier cv).2.1,
            (libfcache_cache_value_get_identifier cv).2.2)
        | none => (-1, 0)
      if element_data_offset = identifier.1 ∧ vector.timestamp = identifier.2 then
        .ok (1, cache_value, identifier.1, identifier.2)
      else .ok (0, cache_value, identifier.1, identifier.2)
  else .ok (0, none, -1, 0)

/-- The first part of `libfdata_vector_get_element_value_by_index` after the check of
the read callback: the checks of the element size, the data size and the element index,
and the walk over the segments.  It yields the local `element_data_offset` as the walk
leaves it. -/
def libfdata_vector_get_element_value_by_index_offset {H : Type}
    (vector : libfdata_vector H) (element_index : Int) : Except libfdata_error Int :=
  if vector.element_size = 0 then .error .element_size_out_of_bounds
  else if vector.data_size = 0 ∨ (vector.data_size : Int) > INT64_MAX then
    .error .data_size_out_of_bounds
  else if element_index < 0 then .error .element_index_out_of_bounds
  else if to_off64 (to_size64 (to_size64 element_index * (vector.element_size : Int)))
      > to_off64 (vector.data_size : Int) then
    .error .element_index_out_of_bounds
  else if libcdata_array_get_number_of_entries vector.segments_array ≤ 0 then
    .error .number_of_segments_out_of_bounds
  else
    match libfdata_vector_get_element_value_by_index_loop vector.segments_array 0
        (to_off64 (to_size64 (to_size64 element_index * (vector.element_size : Int)))) with
    | .error e => .error e
    | .ok (_, element_data_offset) => .ok element_data_offset

/-- Retrieves the value of a specific element. -/
def libfdata_vector_get_element_value_by_index {H V : Type}
    (vector : libfdata_internal_vector H V) (file_io_handle : Option H)
    (cache : libfcache_cache V) (element_index : Int) (read_flags : Nat) :
    libfdata_vector_get_element_value_result H V :=
  match vector.read_element_data with
  | none => ⟨.error .missing_read_element_data, cache, []⟩
  | some read_element_data =>
    match libfdata_vector_get_element_value_by_index_offset vector.tolibfdata_vector
        element_index with
    | .error e => ⟨.error e, cache, []⟩
    | .ok element_data_offset =>
      if libfcache_cache_get_number_of_entries cache ≤ 0 then
        ⟨.error .number_of_cache_entries_out_of_bounds, cache, []⟩
      else
        match libfdata_vector_get_element_value_by_index_lookup vector cache element_index
            read_flags (libfcache_cache_get_number_of_entries cache)
            element_data_offset with
        | .error e => ⟨.error e, cache, []⟩
        | .ok (result, cache_value, cache_value_offset, cache_value_timestamp) =>
          if result = 0 then
            let read_call : libfdata_vector_read_call H V :=
              ⟨vector.data_handle, file_io_handle, vector.tolibfdata_vector, cache,
                element_index, 0, element_data_offset, vector.element_size, 0, read_flags⟩
            let read_result := read_element_data vector.data_handle file_io_handle
              vector.tolibfdata_vector cache element_index 0 element_data_offset
              vector.element_size 0 read_flags
            if read_result.1 ≠ 1 then ⟨.error .read_failed, read_result.2, [read_call]⟩
            else
              match libfcache_cache_get_value_by_index read_result.2
                  (libfdata_vector_calculate_cache_entry_index element_index
                    (libfcache_cache_get_number_of_entries cache)) with
              | none => ⟨.error .get_cache_entry_failed, read_result.2, [read_call]⟩
              | some cache_value1 =>
                let identifier : Int × Int :=
                  match cache_value1 with
                  | some cv =>
                    ((libfcache_cache_value_get_identifier cv).2.1,
                      (libfcache_cache_value_get_identifier cv).2.2)
                  | none => (cache_value_offset, cache_value_timestamp)
                if element_data_offset ≠ identifier.1
                    ∨ vector.timestamp ≠ identifier.2 then
                  ⟨.error .missing_cache_value, read_result.2, [read_call]⟩
                else
                  match libfcache_cache_value_get_value cache_value1 with
                  | none => ⟨.error .get_element_value_failed, read_result.2, [read_call]⟩
                  | some element_value => ⟨.ok element_value, read_result.2, [read_call]⟩
          else
            match libfcache_cache_value_get_value cache_value with
            | none => ⟨.error .get_element_value_failed, cache, []⟩
            | some element_value => ⟨.ok element_value, cache, []⟩

/-- Retrieves the value of an element at a specific offset. -/
def libfdata_vector_get_element_value_at_offset {H V : Type}
    (vector : libfdata_internal_vector H V) (file_io_handle : Option H)
    (cache : libfcache_cache V) (value_offset : Int) (read_flags : Nat) :
    libfdata_vector_get_element_value_result H V :=
  match libfdata_vector_get_element_index_at_offset vector.tolibfdata_vector
      value_offset with
  | .error e => ⟨.error e, cache, []⟩
  | .ok (element_index, _) =>
    libfdata_vector_get_element_value_by_index vector file_io_handle cache element_index
      read_flags

/-- The loop of `libfdata_vector_set_element_value_by_index` over the segments. -/
def libfdata_vector_set_element_value_by_index_loop :
    List (Option libfdata_range) → Int → Int → Except libfdata_error (Int × Int)
  | [], _, _ => .error .segment_index_out_of_bounds
  | none :: _, _, _ => .error .missing_segment_data_range
  | some segment_data_range :: rest, segment_index, element_data_offset =>
    if element_data_offset < to_off64 (segment_data_range.size : Int) then
      .ok (segment_index, to_off64 (element_data_offset + segment_data_range.offset))
    else
      libfdata_vector_set_element_value_by_index_loop rest (segment_index + 1)
        (to_off64 (element_data_offset - (segment_data_range.size : Int)))

/-- The first part of `libfdata_vector_set_element_value_by_index`: the checks of the
element size, the data size and the element index, and the walk over the segments.  It
yields the local `element_data_offset` as the walk leaves it. -/
def libfdata_vector_set_element_value_by_index_offset {H : Type}
    (vector : libfdata_vector H) (element_index : Int) : Except libfdata_error Int :=
  if vector.element_size = 0 then .error .element_size_out_of_bounds
  else if vector.data_size = 0 ∨ (vector.data_size : Int) > INT64_MAX then
    .error .data_size_out_of_bounds
  else if element_index < 0 then .error .element_index_out_of_bounds
  else if to_off64 (to_size64 (to_size64 element_index * (vector.element_size : Int)))
      > to_off64 (vector.data_size : Int) then
    .error .element_index_out_of_bounds
  else if libcdata_array_get_number_of_entries vector.segments_array ≤ 0 then
    .error .number_of_segments_out_of_bounds
  else
    match libfdata_vector_set_element_value_by_index_loop vector.segments_array 0
        (to_off64 (to_size64 (to_size64 element_index * (vector.element_size : Int)))) with
    | .error e => .error e
    | .ok (_, element_data_offset) => .ok element_data_offset

/-- Sets the value of a specific element; yields the cache with the value stored. -/
def libfdata_vector_set_element_value_by_index {H V : Type} (vector : libfdata_vector H)
    (cache : libfcache_cache V) (element_index : Int) (element_value : V)
    (free_element_value : Option (V → Int)) (flags : Nat) :
    Except libfdata_error (libfcache_cache V) :=
  match libfdata_vector_set_element_value_by_index_offset vector element_index with
  | .error e => .error e
  | .ok element_data_offset =>
    if libfcache_cache_get_number_of_entries cache ≤ 0 then
      .error .number_of_cache_entries_out_of_bounds
    else
      match libfcache_cache_set_value_by_index cache
          (libfdata_vector_calculate_cache_entry_index element_index
            (libfcache_cache_get_number_of_entries cache))
          0 element_data_offset vector.timestamp element_value free_element_value
          flags with
      | none => .error .set_cache_value_failed
      | some cache1 => .ok cache1

/-! ## The read test (tests/fdata_test_vector.c) -/

/-- The flag `LIBFDATA_VECTOR_ELEMENT_VALUE_FLAG_MANAGED` of libfdata_definitions.h. -/
def LIBFDATA_VECTOR_ELEMENT_VALUE_FLAG_MANAGED : Nat := 0x01

/-- Frees the element data. -/
def fdata_test_vector_element_data_free {V : Type} (_element_data : V) : Int := 1

/-- Reads element data: the callback of the test.  The element data is a buffer that
encodes `element_data_offset / ELEMENT_DATA_SIZE`; the encoding is the parameter
`encode` (the test writes the number as a little-endian 32 bit value at the start of
the buffer). -/
def fdata_test_vector_read_element_data {H V : Type} (ELEMENT_DATA_SIZE : Nat)
    (encode : Int → V) : libfdata_vector_element_data_function H V :=
  fun _data_handle _file_io_handle vector cache element_index _element_data_file_index
      element_data_offset _element_data_size _element_data_flags _read_flags =>
    let test_element_index : Int := Int.tdiv element_data_offset (ELEMENT_DATA_SIZE : Int)
    match libfdata_vector_set_element_value_by_index vector cache element_index
        (encode test_element_index) (some fdata_test_vector_element_data_free)
        LIBFDATA_VECTOR_ELEMENT_VALUE_FLAG_MANAGED with
    | .error _ => (-1, cache)
    | .ok cache1 => (1, cache1)

/-- Modelled from the spec: `libfdata_cache_initialize` creates a cache with the given
number of empty slots; a number of zero or less is refused. -/
def libfdata_cache_initialize {V : Type} (maximum_cache_entries : Int) :
    Option (libfcache_cache V) :=
  if maximum_cache_entries ≤ 0 then none
  else some (List.replicate maximum_cache_entries.toNat none)

/-- The element loop of `fdata_test_vector_read`: `remaining` elements are still to be
requested, starting at `element_index`; `result` is the local of that name.  The loop
yields `-1` when a request fails (`goto on_error`), `0` when a value does not decode to
its index (`break`) and `result` when it runs to its end. -/
def fdata_test_vector_read_loop {H V : Type} (decode : V → Int)
    (vector : libfdata_internal_vector H V) :
    Nat → Int → libfcache_cache V → Int → Int
  | 0, _, _, result => result
  | remaining + 1, element_index, cache, _ =>
    match (libfdata_vector_get_element_value_by_index vector none cache element_index
        0).result with
    | .error _ => -1
    | .ok element_data =>
      if decode element_data = element_index then
        fdata_test_vector_read_loop decode vector remaining (element_index + 1)
          (libfdata_vector_get_element_value_by_index vector none cache element_index
            0).cache 1
      else 0

/-- Tests reading the vector, for an element size `ELEMENT_DATA_SIZE`, a number of
elements `MAXIMUM_NUMBER_OF_ELEMENTS` and a cache of `cache_entries` slots (512, 1024
and 4 in the test). -/
def fdata_test_vector_read {V : Type} (ELEMENT_DATA_SIZE : Nat)
    (MAXIMUM_NUMBER_OF_ELEMENTS : Nat) (cache_entries : Int) (timestamp : Int)
    (encode : Int → V) (decode : V → Int) : Int :=
  match libfdata_vector_initialize (some none) ELEMENT_DATA_SIZE (none : Option Unit)
      none none (some (fdata_test_vector_read_element_data ELEMENT_DATA_SIZE encode))
      none 0 timestamp with
  | .error _ => -1
  | .ok vector =>
    match libfdata_vector_append_segment vector.tolibfdata_vector 0 0
        (MAXIMUM_NUMBER_OF_ELEMENTS * ELEMENT_DATA_SIZE) 0 with
    | .error _ => -1
    | .ok (_, vector1) =>
      match libfdata_cache_initialize cache_entries with
      | none => -1
      | some cache =>
        fdata_test_vector_read_loop decode { vector with tolibfdata_vector := vector1 }
          MAXIMUM_NUMBER_OF_ELEMENTS 0 cache 0

/-! ## Auxiliary definitions of the statements -/

/-- The sum of the sizes of the segments of a segments array (a NULL entry counts for
nothing). -/
def libfdata_segments_size : List (Option libfdata_range) → Nat
  | [] => 0
  | none :: rest => libfdata_segments_size rest
  | some segment_data_range :: rest => segment_data_range.size + libfdata_segments_size rest

/-- A vector of two segments of one element of 512 bytes each (the state after two
`libfdata_vector_append_segment` calls on a fresh vector). -/
def two_segment_vector : libfdata_vector Unit :=
  ⟨512, 1024, 7, 0, none, [some ⟨0, 0, 512, 0⟩, some ⟨0, 512, 512, 0⟩]⟩

/-- A vector with elements of 100 bytes and segments of 10 and 200 bytes. -/
def short_first_segment_vector : libfdata_vector Unit :=
  ⟨100, 210, 7, 0, none, [some ⟨0, 0, 10, 0⟩, some ⟨0, 512, 200, 0⟩]⟩

/-- One call of a segment function of the vector, with its arguments. -/
inductive libfdata_vector_segment_call where
  | append_segment (segment_file_index : Int) (segment_offset : Int) (segment_size : Nat)
      (segment_flags : Nat)
  | set_segment_by_index (segment_index : Int) (segment_file_index : Int)
      (segment_offset : Int) (segment_size : Nat) (segment_flags : Nat)
  | empty_segments
  | resize_segments (number_of_segments : Int)
deriving DecidableEq, Repr

/-- Runs one segment call: the result of the call and the vector as the call leaves
it (a failed call of a function with an untouched vector on its error paths leaves the
vector as it was). -/
def libfdata_vector_segment_call.run {H : Type} (vector : libfdata_vector H) :
    libfdata_vector_segment_call → Except libfdata_error Unit × libfdata_vector H
  | .append_segment segment_file_index segment_offset segment_size segment_flags =>
    match libfdata_vector_append_segment vector segment_file_index segment_offset
        segment_size segment_flags with
    | .error e => (.error e, vector)
    | .ok (_, vector1) => (.ok (), vector1)
  | .set_segment_by_index segment_index segment_file_index segment_offset segment_size
      segment_flags =>
    libfdata_vector_set_segment_by_index vector segment_index segment_file_index
      segment_offset segment_size segment_flags
  | .empty_segments =>
    match libfdata_vector_empty_segments vector with
    | .error e => (.error e, vector)
    | .ok vector1 => (.ok (), vector1)
  | .resize_segments number_of_segments =>
    match libfdata_vector_resize_segments vector number_of_segments with
    | .error e => (.error e, vector)
    | .ok vector1 => (.ok (), vector1)

/-- The vector after a sequence of segment calls, successful or failed. -/
def libfdata_vector_run_segment_calls {H : Type} (vector : libfdata_vector H) :
    List libfdata_vector_segment_call → libfdata_vector H
  | [] => vector
  | call :: calls =>
    libfdata_vector_run_segment_calls (libfdata_vector_segment_call.run vector call).2 calls

/-- Whether every call of a sequence of segment calls is successful. -/
def libfdata_vector_segment_calls_succeed {H : Type} (vector : libfdata_vector H) :
    List libfdata_vector_segment_call → Bool
  | [] => true
  | call :: calls =>
    match (libfdata_vector_segment_call.run vector call).1 with
    | .error _ => false
    | .ok _ =>
      libfdata_vector_segment_calls_succeed
        (libfdata_vector_segment_call.run vector call).2 calls

/-- Whether a segment call is an append or a set of a segment. -/
def libfdata_vector_segment_call.is_append_or_set : libfdata_vector_segment_call → Bool
  | .append_segment _ _ _ _ => true
  | .set_segment_by_index _ _ _ _ _ => true
  | .empty_segments => false
  | .resize_segments _ => false

/-- The append call that adds a segment with the values of a data range. -/
def libfdata_vector_append_call (segment : libfdata_range) : libfdata_vector_segment_call :=
  .append_segment segment.file_index segment.offset segment.size segment.flags

/-- A vector as `libfdata_vector_initialize` leaves it: no segments and no data. -/
def libfdata_vector_fresh {H : Type} (element_size : Nat) (timestamp : Int) (flags : Nat)
    (data_handle : Option H) : libfdata_vector H :=
  ⟨element_size, 0, timestamp, 0 ||| flags, data_handle, []⟩

/-- A vector as initialized with element size 512, timestamp 7 and no callbacks. -/
def example_vector0 : libfdata_internal_vector Unit Int :=
  ⟨libfdata_vector_fresh 512 7 0 none, none, none, none, none⟩

/-- The vector `example_vector0` after appending a segment of 512 bytes at the physical
offset 0 and a segment of 1024 bytes at the physical offset 4096. -/
def example_vector : libfdata_internal_vector Unit Int :=
  ⟨libfdata_vector_run_segment_calls (libfdata_vector_fresh 512 7 0 none)
    [.append_segment 0 0 512 0, .append_segment 0 4096 1024 0], none, none, none, none⟩

/-- A read callback that populates the cache through
`libfdata_vector_set_element_value_by_index` at the element index it is asked for, with
the value `produce element_index element_data_offset`.  The callback of the read test,
`fdata_test_vector_read_element_data`, is of this form. -/
def libfdata_vector_populating_read_element_data {H V : Type} (produce : Int → Int → V)
    (free_element_value : Option (V → Int)) (value_flags : Nat) :
    libfdata_vector_element_data_function H V :=
  fun _data_handle _file_io_handle vector cache element_index _element_data_file_index
      element_data_offset _element_data_size _element_data_flags _read_flags =>
    match libfdata_vector_set_element_value_by_index vector cache element_index
        (produce element_index element_data_offset) free_element_value value_flags with
    | .error _ => (-1, cache)
    | .ok cache1 => (1, cache1)

/-- The arguments `libfdata_vector_get_element_value_by_index` hands to the read callback
for an element index and a resolved element data offset. -/
def libfdata_vector_read_call_of {H V : Type} (vector : libfdata_internal_vector H V)
    (file_io_handle : Option H) (cache : libfcache_cache V) (element_index : Int)
    (element_data_offset : Int) (read_flags : Nat) : libfdata_vector_read_call H V :=
  ⟨vector.data_handle, file_io_handle, vector.tolibfdata_vector, cache, element_index, 0,
    element_data_offset, vector.element_size, 0, read_flags⟩

/-- A vector with elements of 2^33 bytes and one segment of one element, with the
callback of the read test. -/
def large_element_vector : libfdata_internal_vector Unit Int :=
  ⟨libfdata_vector_run_segment_calls (libfdata_vector_fresh 8589934592 7 0 none)
    [.append_segment 0 0 8589934592 0], none, none,
    some (fdata_test_vector_read_element_data 8589934592 (fun n => n)), none⟩

/-- A vector with elements of 512 bytes and one segment of two elements in source 0,
with the callback of the read test. -/
def one_segment_vector : libfdata_internal_vector Unit Int :=
  ⟨libfdata_vector_run_segment_calls (libfdata_vector_fresh 512 7 0 none)
    [.append_segment 0 0 1024 0], none, none,
    some (fdata_test_vector_read_element_data 512 (fun n => n)), none⟩

/-- A vector with elements of 512 bytes and two segments of one element that both start
at the physical offset 0 of source 0, with a callback that stores the element index. -/
def aliased_segments_vector : libfdata_internal_vector Unit Int :=
  ⟨libfdata_vector_run_segment_calls (libfdata_vector_fresh 512 7 0 none)
    [.append_segment 0 0 512 0, .append_segment 0 0 512 0], none, none,
    some (libfdata_vector_populating_read_element_data (fun element_index _ => element_index)
      none 0), none⟩

/-- A vector with elements of 512 bytes and one segment of one element at the physical
offset 4096 of source 3, with segment flags 1. -/
def source_three_vector : libfdata_internal_vector Unit Int :=
  ⟨libfdata_vector_run_segment_calls (libfdata_vector_fresh 512 7 0 none)
    [.append_segment 3 4096 512 1], none, none,
    some (fdata_test_vector_read_element_data 512 (fun n => n)), none⟩

/-- The block of `libfdata_vector_get_element_value_by_index` that is run on a miss
(`result == 0`), up to the return: the read callback `read_element_data` is invoked, the
slot is read again and its identifier is compared.  `cache_value_offset` and
`cache_value_timestamp` are the locals as the cache lookup left them.  The lemma
`get_element_value_by_index_eq_read_block` relates the block to the function. -/
def libfdata_vector_get_element_value_by_index_read_block {H V : Type}
    (vector : libfdata_internal_vector H V)
    (read_element_data : libfdata_vector_element_data_function H V)
    (file_io_handle : Option H) (cache : libfcache_cache V) (element_index : Int)
    (read_flags : Nat) (element_data_offset : Int) (cache_value_offset : Int)
    (cache_value_timestamp : Int) : libfdata_vector_get_element_value_result H V :=
  let read_call : libfdata_vector_read_call H V :=
    ⟨vector.data_handle, file_io_handle, vector.tolibfdata_vector, cache,
      element_index, 0, element_data_offset, vector.element_size, 0, read_flags⟩
  let read_result := read_element_data vector.data_handle file_io_handle
    vector.tolibfdata_vector cache element_index 0 element_data_offset
    vector.element_size 0 read_flags
  if read_result.1 ≠ 1 then ⟨.error .read_failed, read_result.2, [read_call]⟩
  else
    match libfcache_cache_get_value_by_index read_result.2
        (libfdata_vector_calculate_cache_entry_index element_index
          (libfcache_cache_get_number_of_entries cache)) with
    | none => ⟨.error .get_cache_entry_failed, read_result.2, [read_call]⟩
    | some cache_value1 =>
      let identifier : Int × Int :=
        match cache_value1 with
        | some cv =>
          ((libfcache_cache_value_get_identifier cv).2.1,
            (libfcache_cache_value_get_identifier cv).2.2)
        | none => (cache_value_offset, cache_value_timestamp)
      if element_data_offset ≠ identifier.1
          ∨ vector.timestamp ≠ identifier.2 then
        ⟨.error .missing_cache_value, read_result.2, [read_call]⟩
      else
        match libfcache_cache_value_get_value cache_value1 with
        | none => ⟨.error .get_element_value_failed, read_result.2, [read_call]⟩
        | some element_value => ⟨.ok element_value, read_result.2, [read_call]⟩

/-! ## Freeing and cloning the vector -/

/-- The releases and handle callbacks `libfdata_vector_free` and `libfdata_vector_clone`
perform, in the order of the calls: `libcdata_array_free` on a segments array, the
`free_data_handle` callback on a data handle, the `clone_data_handle` callback on a data
handle, and `memory_free` of the internal vector. -/
inductive libfdata_vector_effect (H : Type) where
  | array_free (segments_array : List (Option libfdata_range))
  | free_data_handle (data_handle : H)
  | clone_data_handle (source_data_handle : H)
  | memory_free

/-- Modelled from the spec: `free(destructor)` of the segments array destroys every
entry and the array. -/
def libcdata_array_free {α : Type} (_array : List (Option α)) : Option Unit :=
  some ()

/-- The outcome of `libfdata_vector_free` and of `libfdata_vector_clone`: the result,
the reference `*vector` (or `*destination_vector`) as the call leaves it, and the
releases and callbacks of the call in order. -/
structure libfdata_vector_handle_result (H V : Type) where
  result : Except libfdata_error Unit
  vector : Option (Option (libfdata_internal_vector H V))
  effects : List (libfdata_vector_effect H)

/-- Frees the vector.  The argument `vector` is `none` for a NULL argument, `some none`
for a reference holding NULL and `some (some _)` for a reference to a vector. -/
def libfdata_vector_free {H V : Type}
    (vector : Option (Option (libfdata_internal_vector H V))) :
    libfdata_vector_handle_result H V :=
  match vector with
  | none => ⟨.error .invalid_vector, none, []⟩
  | some none => ⟨.ok (), some none, []⟩
  | some (some internal_vector) =>
    let result1 : Except libfdata_error Unit :=
      match libcdata_array_free internal_vector.segments_array with
      | none => .error .free_segments_array_failed
      | some _ => .ok ()
    let effects1 : List (libfdata_vector_effect H) :=
      [.array_free internal_vector.segments_array]
    if internal_vector.flags &&& LIBFDATA_FLAG_DATA_HANDLE_MANAGED ≠ 0 then
      match internal_vector.data_handle with
      | none => ⟨result1, some none, effects1 ++ [.memory_free]⟩
      | some data_handle =>
        match internal_vector.free_data_handle with
        | none =>
          ⟨.error .missing_free_data_handle, some none, effects1 ++ [.memory_free]⟩
        | some free_data_handle =>
          if free_data_handle data_handle ≠ 1 then
            ⟨.error .free_data_handle_failed, some none,
              effects1 ++ [.free_data_handle data_handle, .memory_free]⟩
          else
            ⟨result1, some none, effects1 ++ [.free_data_handle data_handle, .memory_free]⟩
    else ⟨result1, some none, effects1 ++ [.memory_free]⟩

/-- Clones (duplicates) the vector.  `destination_vector` is `none` for a NULL argument,
`some none` for a reference holding NULL and `some (some _)` for a reference that is
already set; `source_vector` is `none` for a NULL source.  `timestamp` is the value of
`libfcache_date_time_get_timestamp()` at the initialization of the destination. -/
def libfdata_vector_clone {H V : Type}
    (destination_vector : Option (Option (libfdata_internal_vector H V)))
    (source_vector : Option (libfdata_internal_vector H V)) (timestamp : Int) :
    libfdata_vector_handle_result H V :=
  match destination_vector with
  | none => ⟨.error .invalid_vector, none, []⟩
  | some (some destination) => ⟨.error .value_already_set, some (some destination), []⟩
  | some none =>
    match source_vector with
    | none => ⟨.ok (), some none, []⟩
    | some internal_source_vector =>
      match internal_source_vector.data_handle with
      | none =>
        match libfdata_vector_initialize (some none) internal_source_vector.element_size
            none internal_source_vector.free_data_handle
            internal_source_vector.clone_data_handle
            internal_source_vector.read_element_data
            internal_source_vector.write_element_data LIBFDATA_FLAG_DATA_HANDLE_MANAGED
            timestamp with
        | .error _ => ⟨.error .create_destination_vector_failed, some none, []⟩
        | .ok destination => ⟨.ok (), some (some destination), []⟩
      | some data_handle =>
        match internal_source_vector.free_data_handle with
        | none => ⟨.error .missing_free_data_handle, some none, []⟩
        | some _free_data_handle =>
          match internal_source_vector.clone_data_handle with
          | none => ⟨.error .missing_clone_data_handle, some none, []⟩
          | some clone_data_handle =>
            let cloned := clone_data_handle data_handle
            -- on_error: a destination data handle that is not NULL is freed
            let on_error : List (libfdata_vector_effect H) :=
              match cloned.2 with
              | none => []
              | some destination_data_handle => [.free_data_handle destination_data_handle]
            if cloned.1 ≠ 1 then
              ⟨.error .clone_data_handle_failed, some none,
                [.clone_data_handle data_handle] ++ on_error⟩
            else
              match libfdata_vector_initialize (some none)
                  internal_source_vector.element_size cloned.2
                  internal_source_vector.free_data_handle
                  internal_source_vector.clone_data_handle
                  internal_source_vector.read_element_data
                  internal_source_vector.write_element_data
                  LIBFDATA_FLAG_DATA_HANDLE_MANAGED timestamp with
              | .error _ =>
                ⟨.error .create_destination_vector_failed, some none,
                  [.clone_data_handle data_handle] ++ on_error⟩
              | .ok destination =>
                ⟨.ok (), some (some destination), [.clone_data_handle data_handle]⟩

/-- The data handles the `free_data_handle` callback is invoked on among the effects of
a call, in order. -/
def libfdata_vector_free_data_handle_calls {H : Type} :
    List (libfdata_vector_effect H) → List H
  | [] => []
  | .free_data_handle data_handle :: rest =>
    data_handle :: libfdata_vector_free_data_handle_calls rest
  | _ :: rest => libfdata_vector_free_data_handle_calls rest

/-- The invocations of the `clone_data_handle` callback among the effects of a call. -/
def libfdata_vector_clone_data_handle_calls {H : Type} :
    List (libfdata_vector_effect H) → List H
  | [] => []
  | .clone_data_handle data_handle :: rest =>
    data_handle :: libfdata_vector_clone_data_handle_calls rest
  | _ :: rest => libfdata_vector_clone_data_handle_calls rest

/-- Tests initializing the vector (tests/fdata_test_vector.c): the vector is initialized
with the element size `ELEMENT_DATA_SIZE`, no data handle, no callbacks and no flags; a
vector that was created is freed again.  The test yields 1 when the result of the
initialization is the expected one, 0 when it is not and -1 when the free fails. -/
def fdata_test_vector_initialize (ELEMENT_DATA_SIZE : Nat)
    (vector : Option (Option (libfdata_internal_vector Unit Unit))) (expected_result : Int)
    (timestamp : Int) : Int :=
  match libfdata_vector_initialize vector ELEMENT_DATA_SIZE none none none none none 0
      timestamp with
  | .error _ => if (-1 : Int) ≠ expected_result then 0 else 1
  | .ok created =>
    match (libfdata_vector_free (some (some created))).result with
    | .error _ => -1
    | .ok _ => if (1 : Int) ≠ expected_result then 0 else 1

/-- A vector that owns a data handle but has no `free_data_handle` callback: the vector
`libfdata_vector_initialize` creates for element size 512, a data handle, no callbacks
and the flag `LIBFDATA_FLAG_DATA_HANDLE_MANAGED` at timestamp 7. -/
def managed_handle_vector : libfdata_internal_vector Unit Unit :=
  ⟨⟨512, 0, 7, 1, some (), []⟩, none, none, none, none⟩

/-- A vector with the flag `LIBFDATA_FLAG_DATA_HANDLE_MANAGED`, no data handle and no
callbacks. -/
def managed_null_handle_vector : libfdata_internal_vector Unit Unit :=
  ⟨⟨512, 0, 7, 1, none, []⟩, none, none, none, none⟩

/-- A vector that owns data handle 5 and has a `free_data_handle` callback. -/
def managed_handle_free_vector : libfdata_internal_vector Int Unit :=
  ⟨⟨512, 0, 7, 1, some 5, []⟩, some (fun _ => 1), none, none, none⟩

/-- A vector of two elements with data handle 5, a `free_data_handle` callback and a
`clone_data_handle` callback that yields the handle plus one. -/
def cloneable_vector : libfdata_internal_vector Int Unit :=
  ⟨⟨512, 1024, 7, 0, some 5, [some ⟨0, 0, 1024, 0⟩]⟩, some (fun _ => 1),
    some (fun data_handle => (1, some (data_handle + 1))), none, none⟩

/-- A vector with two segments of 2^63 - 1 bytes each: its data size is 2^64 - 2. -/
def full_data_size_vector : libfdata_vector Unit :=
  ⟨1, 18446744073709551614, 7, 0, none,
    [some ⟨0, 0, 9223372036854775807, 0⟩, some ⟨0, 0, 9223372036854775807, 0⟩]⟩

/-- A vector with elements of 2^62 bytes and three segments of one element each (the
state after three `libfdata_vector_append_segment` calls on a fresh vector): its data
size, 3 * 2^62, exceeds `INT64_MAX`.  It has the callback of the read test. -/
def oversized_vector : libfdata_internal_vector Unit Int :=
  ⟨⟨4611686018427387904, 13835058055282163712, 7, 0, none,
    [some ⟨0, 0, 4611686018427387904, 0⟩, some ⟨0, 4096, 4611686018427387904, 0⟩,
      some ⟨0, 8192, 4611686018427387904, 0⟩]⟩, none, none,
    some (fdata_test_vector_read_element_data 4611686018427387904 (fun n => n)), none⟩

/-- A vector with elements of 512 bytes and segments of 512, 0 and 512 bytes at the
physical offsets 0, 2048 and 4096, with the callback of the read test. -/
def zero_sized_segment_vector : libfdata_internal_vector Unit Int :=
  ⟨⟨512, 1024, 7, 0, none,
    [some ⟨0, 0, 512, 0⟩, some ⟨0, 2048, 0, 0⟩, some ⟨0, 4096, 512, 0⟩]⟩, none, none,
    some (fdata_test_vector_read_element_data 512 (fun n => n)), none⟩

/-- A vector with elements of 2^62 bytes and segments of 2^62, 2^62, 2^63 - 1 and
2^63 - 1 bytes (the state after four `libfdata_vector_append_segment` calls on a fresh
vector): the sizes sum to 2^64 + 2^63 - 2, the data size is 2^63 - 2. -/
def wrapping_segments_vector : libfdata_vector Unit :=
  ⟨4611686018427387904, 9223372036854775806, 7, 0, none,
    [some ⟨0, 0, 4611686018427387904, 0⟩, some ⟨0, 0, 4611686018427387904, 0⟩,
      some ⟨0, 0, 9223372036854775807, 0⟩, some ⟨0, 0, 9223372036854775807, 0⟩]⟩

/-- A vector with elements of 512 bytes and one segment of 1000 bytes (the state after
one `libfdata_vector_append_segment` call on a fresh vector), with the callback of the
read test: one whole element and a part of a second one. -/
def partial_element_vector : libfdata_internal_vector Unit Int :=
  ⟨⟨512, 1000, 7, 0, none, [some ⟨0, 0, 1000, 0⟩]⟩, none, none,
    some (fdata_test_vector_read_element_data 512 (fun n => n)), none⟩

/-! ## Lemmas on the machine integers -/

theorem to_off64_of_range (x : Int) (h1 : -9223372036854775808 ≤ x)
    (h2 : x ≤ 9223372036854775807) : to_off64 x = x := by
  unfold to_off64; omega

theorem to_off64_bounds (x : Int) :
    -9223372036854775808 ≤ to_off64 x ∧ to_off64 x ≤ 9223372036854775807 := by
  unfold to_off64; omega

theorem to_size64_of_range (x : Int) (h1 : 0 ≤ x) (h2 : x < 18446744073709551616) :
    to_size64 x = x := by
  unfold to_size64; omega

/-! ## Lemmas on `libfdata_vector_get_element_index_at_offset` -/

theorem get_element_index_at_offset_loop_past_end (value_offset : Int)
    (segments : List (Option libfdata_range)) :
    ∀ (segment_index segment_data_offset : Int),
      -9223372036854775808 ≤ segment_data_offset →
      segment_data_offset + (libfdata_segments_size segments : Int) ≤ value_offset →
      ∃ e, libfdata_vector_get_element_index_at_offset_loop value_offset segments
        segment_index segment_data_offset = .error e := by
  induction segments with
  | nil =>
    intro segment_index segment_data_offset _ _
    exact ⟨_, rfl⟩
  | cons entry rest ih =>
    intro segment_index segment_data_offset hlow hsum
    cases entry with
    | none => exact ⟨_, rfl⟩
    | some r =>
      simp only [libfdata_segments_size, Nat.cast_add] at hsum
      have hnot : ¬ value_offset < to_off64 (segment_data_offset + (r.size : Int)) := by
        unfold to_off64; omega
      simp only [libfdata_vector_get_element_index_at_offset_loop, hnot, if_false]
      apply ih
      · exact (to_off64_bounds _).1
      · unfold to_off64; omega

/-- C5: `libfdata_vector_get_element_index_at_offset` fails (an error carries neither
an element index nor an element offset) for every negative offset, for every vector
without segments, and for every offset greater than or equal to the sum of the segment
sizes. -/
theorem get_element_index_at_offset_fails_out_of_bounds {H : Type}
    (vector : libfdata_vector H) (value_offset : Int)
    (h : value_offset < 0 ∨ vector.segments_array = []
      ∨ (libfdata_segments_size vector.segments_array : Int) ≤ value_offset) :
    ∃ e, libfdata_vector_get_element_index_at_offset vector value_offset = .error e := by
  unfold libfdata_vector_get_element_index_at_offset
  by_cases hes : vector.element_size = 0
  · rw [if_pos hes]; exact ⟨_, rfl⟩
  rw [if_neg hes]
  by_cases hneg : value_offset < 0
  · rw [if_pos hneg]; exact ⟨_, rfl⟩
  rw [if_neg hneg]
  by_cases hnum : libcdata_array_get_number_of_entries vector.segments_array ≤ 0
  · rw [if_pos hnum]; exact ⟨_, rfl⟩
  rw [if_neg hnum]
  rcases h with h | h | h
  · exact absurd h hneg
  · exfalso
    apply hnum
    simp [libcdata_array_get_number_of_entries, h]
  · obtain ⟨e, he⟩ := get_element_index_at_offset_loop_past_end value_offset
      vector.segments_array 0 0 (by omega) (by omega)
    rw [he]; exact ⟨_, rfl⟩

/-- Witness of C5: the three failing cases on a vector of two segments of 512 bytes and
on a vector without segments. -/
theorem get_element_index_at_offset_fails_out_of_bounds_witness :
    (∃ e, libfdata_vector_get_element_index_at_offset
        (⟨512, 1024, 7, 0, none, [some ⟨0, 0, 512, 0⟩, some ⟨0, 512, 512, 0⟩]⟩ :
          libfdata_vector Unit) (-1) = .error e)
    ∧ (∃ e, libfdata_vector_get_element_index_at_offset
        (⟨512, 0, 7, 0, none, []⟩ : libfdata_vector Unit) 0 = .error e)
    ∧ (∃ e, libfdata_vector_get_element_index_at_offset
        (⟨512, 1024, 7, 0, none, [some ⟨0, 0, 512, 0⟩, some ⟨0, 512, 512, 0⟩]⟩ :
          libfdata_vector Unit) 1024 = .error e) :=
  ⟨get_element_index_at_offset_fails_out_of_bounds _ _ (Or.inl (by decide)),
    get_element_index_at_offset_fails_out_of_bounds _ _ (Or.inr (Or.inl rfl)),
    get_element_index_at_offset_fails_out_of_bounds _ _
      (Or.inr (Or.inr (by decide)))⟩

theorem get_element_index_at_offset_loop_select (value_offset : Int)
    (segments : List (Option libfdata_range)) :
    ∀ (k : Nat) (r : libfdata_range) (segment_index segment_data_offset : Int),
      segments[k]? = some (some r) →
      (∀ j, j < k → segments[j]? ≠ some none) →
      0 ≤ segment_data_offset →
      segment_data_offset + (libfdata_segments_size (segments.take k) : Int) ≤ value_offset →
      value_offset
        < segment_data_offset + (libfdata_segments_size (segments.take k) : Int) + r.size →
      segment_data_offset + (libfdata_segments_size (segments.take k) : Int) + r.size
        ≤ INT64_MAX →
      libfdata_vector_get_element_index_at_offset_loop value_offset segments
        segment_index segment_data_offset
        = .ok (segment_index + k,
            segment_data_offset + (libfdata_segments_size (segments.take k) : Int)) := by
  induction segments with
  | nil => intro k r _ _ hk; simp at hk
  | cons entry rest ih =>
    intro k r segment_index segment_data_offset hk hnonnull hlow hstart hend hmax
    unfold INT64_MAX at hmax
    cases k with
    | zero =>
      simp only [List.getElem?_cons_zero, Option.some.injEq] at hk
      subst hk
      simp only [List.take_zero, libfdata_segments_size, Nat.cast_zero, add_zero] at *
      have hcond : value_offset < to_off64 (segment_data_offset + (r.size : Int)) := by
        rw [to_off64_of_range _ (by omega) (by omega)]; exact hend
      simp [libfdata_vector_get_element_index_at_offset_loop, hcond]
    | succ k =>
      cases entry with
      | none => exact absurd (by simp) (hnonnull 0 (by omega))
      | some r0 =>
        simp only [List.getElem?_cons_succ] at hk
        simp only [List.take_succ_cons, libfdata_segments_size, Nat.cast_add] at hstart hend hmax
        have hcond : ¬ value_offset < to_off64 (segment_data_offset + (r0.size : Int)) := by
          rw [to_off64_of_range _ (by omega) (by omega)]; omega
        have hnext : to_off64 (segment_data_offset + to_off64 (r0.size : Int))
            = segment_data_offset + (r0.size : Int) := by
          rw [to_off64_of_range (r0.size : Int) (by omega) (by omega),
            to_off64_of_range _ (by omega) (by omega)]
        simp only [libfdata_vector_get_element_index_at_offset_loop, hcond, if_false, hnext]
        rw [ih k r (segment_index + 1) (segment_data_offset + (r0.size : Int)) hk
          (fun j hj => by
            have := hnonnull (j + 1) (by omega)
            simpa using this)
          (by omega) (by omega) (by omega) (by unfold INT64_MAX; omega)]
        simp only [List.take_succ_cons, libfdata_segments_size, Nat.cast_add, Nat.cast_succ]
        congr 2 <;> omega

/-- C3: on the vector of two segments of 512 bytes with element size 512 (built by
`libfdata_vector_initialize` and two `libfdata_vector_append_segment` calls), element
index 1 is valid (the vector has 2 elements), but
`libfdata_vector_get_element_index_at_offset` fails for the byte offset `1 * 512`
instead of returning element index 1 with element offset 0. -/
theorem get_element_index_at_offset_second_segment_fails :
    (∃ vector0 : libfdata_internal_vector Unit Unit, ∃ vector1 : libfdata_vector Unit,
      libfdata_vector_initialize (some none) 512 none none none none none 0 7
        = .ok vector0
      ∧ libfdata_vector_append_segment vector0.tolibfdata_vector 0 0 512 0
        = .ok (0, vector1)
      ∧ libfdata_vector_append_segment vector1 0 512 512 0 = .ok (1, two_segment_vector))
    ∧ libfdata_vector_get_number_of_elements two_segment_vector = .ok 2
    ∧ libfdata_vector_get_element_index_at_offset two_segment_vector (1 * 512)
      = .error .element_offset_out_of_bounds :=
  ⟨⟨_, _, rfl, rfl, rfl⟩, rfl, rfl⟩

/-- C4, counterexample: with element size 100 and segments of 10 and 200 bytes, the
offset 50 lies in segment 1, whose cumulative start is 10; the function returns element
index 0 with element offset 50, not `(50 - 10) / 100` with `(50 - 10) % 100 = 40`. -/
theorem get_element_index_at_offset_not_segment_relative :
    libfdata_vector_get_element_index_at_offset_loop 50
        short_first_segment_vector.segments_array 0 0 = .ok (1, 10)
    ∧ libfdata_vector_get_element_index_at_offset short_first_segment_vector 50
      = .ok (0, 50)
    ∧ libfdata_vector_get_element_index_at_offset short_first_segment_vector 50
      ≠ .ok ((50 - 10) / 100, (50 - 10) % 100) := by
  refine ⟨rfl, rfl, ?_⟩
  intro h
  have h2 : libfdata_vector_get_element_index_at_offset short_first_segment_vector 50
      = .ok (0, 50) := rfl
  rw [h2] at h
  simp at h

/-- C4, amended: for a vector with a non-zero element size and a byte offset covered by
segment `k` (no NULL entry before it, cumulative end at most `INT64_MAX`), the loop
selects `k`, the first segment whose cumulative end exceeds the offset; when the
cumulative start of that segment is 0 and `offset / element_size` is at most `INT_MAX`,
the function returns element index `offset / element_size` and element offset
`offset % element_size`. -/
theorem get_element_index_at_offset_in_segment {H : Type} (vector : libfdata_vector H)
    (value_offset : Int) (k : Nat) (r : libfdata_range)
    (hes : vector.element_size ≠ 0)
    (hk : vector.segments_array[k]? = some (some r))
    (hnonnull : ∀ j, j < k → vector.segments_array[j]? ≠ some none)
    (hstart : (libfdata_segments_size (vector.segments_array.take k) : Int) ≤ value_offset)
    (hend : value_offset
      < (libfdata_segments_size (vector.segments_array.take k) : Int) + r.size)
    (hmax : (libfdata_segments_size (vector.segments_array.take k) : Int) + r.size
      ≤ INT64_MAX) :
    libfdata_vector_get_element_index_at_offset_loop value_offset vector.segments_array 0 0
      = .ok ((k : Int), (libfdata_segments_size (vector.segments_array.take k) : Int))
    ∧ (libfdata_segments_size (vector.segments_array.take k) = 0 →
        value_offset / (vector.element_size : Int) ≤ INT_MAX →
        libfdata_vector_get_element_index_at_offset vector value_offset
          = .ok (value_offset / (vector.element_size : Int),
              value_offset % (vector.element_size : Int))) := by
  have hloop := get_element_index_at_offset_loop_select value_offset vector.segments_array
    k r 0 0 hk hnonnull (le_refl 0) (by omega) (by omega) (by omega)
  simp only [zero_add] at hloop
  refine ⟨hloop, ?_⟩
  intro hzero hidx
  rw [hzero] at hloop hstart hend hmax
  simp only [Nat.cast_zero, zero_add] at hloop hstart hend hmax
  unfold INT64_MAX at hmax
  have hlen : ¬ libcdata_array_get_number_of_entries vector.segments_array ≤ 0 := by
    have hlt : k < vector.segments_array.length := by
      by_contra hcon
      rw [List.getElem?_eq_none (by omega)] at hk
      exact absurd hk (by simp)
    unfold libcdata_array_get_number_of_entries
    omega
  have hespos : (0 : Int) < (vector.element_size : Int) := by omega
  have hq0 : 0 ≤ value_offset / (vector.element_size : Int) :=
    Int.ediv_nonneg hstart (le_of_lt hespos)
  have hqle : value_offset / (vector.element_size : Int) * (vector.element_size : Int)
      ≤ value_offset := Int.ediv_mul_le _ (ne_of_gt hespos)
  have hqnn : 0 ≤ value_offset / (vector.element_size : Int) * (vector.element_size : Int) :=
    mul_nonneg hq0 (le_of_lt hespos)
  have hmod : value_offset % (vector.element_size : Int)
      = value_offset
        - value_offset / (vector.element_size : Int) * (vector.element_size : Int) := by
    rw [Int.emod_def, mul_comm]
  have h1 : to_size64 (to_off64 (0 + value_offset)) = value_offset := by
    rw [zero_add, to_off64_of_range _ (by omega) (by omega),
      to_size64_of_range _ (by omega) (by omega)]
  have h2 : to_off64 (value_offset - to_off64 (to_size64
      (value_offset / (vector.element_size : Int) * (vector.element_size : Int))))
      = value_offset % (vector.element_size : Int) := by
    have hin : to_off64
        (value_offset / (vector.element_size : Int) * (vector.element_size : Int))
        = value_offset / (vector.element_size : Int) * (vector.element_size : Int) :=
      to_off64_of_range _ (by omega) (by omega)
    rw [to_size64_of_range _ hqnn (by omega), hin,
      to_off64_of_range _ (by omega) (by omega), hmod]
  have hnn : 0 ≤ value_offset % (vector.element_size : Int) :=
    Int.emod_nonneg _ (ne_of_gt hespos)
  unfold libfdata_vector_get_element_index_at_offset
  rw [if_neg hes, if_neg (by omega), if_neg hlen, hloop]
  simp only [h1, h2]
  rw [if_neg (by omega), if_neg (by unfold SSIZE_MAX; omega)]

/-- Witness of the amended C4 on the vector of two segments of 512 bytes: the offset 511
lies in segment 0 and resolves to element 0 with element offset 511. -/
theorem get_element_index_at_offset_in_segment_witness :
    libfdata_vector_get_element_index_at_offset_loop 511
        two_segment_vector.segments_array 0 0
      = .ok (((0 : Nat) : Int),
          (libfdata_segments_size (two_segment_vector.segments_array.take 0) : Int))
    ∧ (libfdata_segments_size (two_segment_vector.segments_array.take 0) = 0 →
        (511 : Int) / (two_segment_vector.element_size : Int) ≤ INT_MAX →
        libfdata_vector_get_element_index_at_offset two_segment_vector 511
          = .ok ((511 : Int) / (two_segment_vector.element_size : Int),
              (511 : Int) % (two_segment_vector.element_size : Int))) :=
  get_element_index_at_offset_in_segment two_segment_vector 511 0 ⟨0, 0, 512, 0⟩
    (by decide) rfl (fun j hj => absurd hj (Nat.not_lt_zero j)) (by decide) (by decide)
    (by decide)

/-! ## Lemmas on the segment functions -/

theorem libfdata_segments_size_append (segments : List (Option libfdata_range))
    (r : libfdata_range) :
    libfdata_segments_size (segments ++ [some r]) = libfdata_segments_size segments + r.size := by
  induction segments with
  | nil => simp [libfdata_segments_size]
  | cons entry rest ih =>
    cases entry with
    | none => simpa [libfdata_segments_size] using ih
    | some r0 => simp [libfdata_segments_size, ih]; omega

theorem libfdata_segments_size_set (segments : List (Option libfdata_range)) :
    ∀ (j : Nat) (previous r : libfdata_range), segments[j]? = some (some previous) →
      libfdata_segments_size (segments.set j (some r)) + previous.size
        = libfdata_segments_size segments + r.size := by
  induction segments with
  | nil => intro j previous r h; simp at h
  | cons entry rest ih =>
    intro j previous r h
    cases j with
    | zero =>
      simp only [List.getElem?_cons_zero, Option.some.injEq] at h
      subst h
      simp [libfdata_segments_size]; omega
    | succ j =>
      simp only [List.getElem?_cons_succ] at h
      have := ih j previous r h
      cases entry with
      | none => simpa [libfdata_segments_size] using this
      | some r0 => simp [libfdata_segments_size]; omega

theorem libfdata_vector_initialize_ok {H V : Type} (element_size : Nat)
    (data_handle : Option H) (free_data_handle : Option (H → Int))
    (clone_data_handle : Option (H → Int × Option H))
    (read_element_data write_element_data : Option (libfdata_vector_element_data_function H V))
    (flags : Nat) (timestamp : Int) (vector : libfdata_internal_vector H V)
    (h : libfdata_vector_initialize (some none) element_size data_handle free_data_handle
      clone_data_handle read_element_data write_element_data flags timestamp = .ok vector) :
    element_size ≠ 0
    ∧ vector.tolibfdata_vector = libfdata_vector_fresh element_size timestamp flags data_handle
    ∧ vector.read_element_data = read_element_data := by
  unfold libfdata_vector_initialize at h
  by_cases hes : element_size = 0
  · simp [hes] at h
  · simp only [hes, if_false, Except.ok.injEq] at h
    subst h
    exact ⟨hes, rfl, rfl⟩

theorem libfdata_vector_append_segment_eq {H : Type} (vector : libfdata_vector H)
    (segment_file_index segment_offset : Int) (segment_size segment_flags : Nat) :
    libfdata_vector_append_segment vector segment_file_index segment_offset segment_size
        segment_flags
      = if (segment_size : Int) > INT64_MAX then .error .range_set_failed
        else .ok ((vector.segments_array.length : Int),
          { vector with
            segments_array := vector.segments_array
              ++ [some ⟨segment_file_index, segment_offset, segment_size, segment_flags⟩]
            data_size := (vector.data_size + segment_size) % 18446744073709551616 }) := by
  unfold libfdata_vector_append_segment libfdata_range_set libcdata_array_append_entry
  by_cases h : (segment_size : Int) > INT64_MAX
  · simp only [h, if_true]
  · simp only [h, if_false]

theorem libfdata_vector_run_append_calls {H : Type} (segments : List libfdata_range) :
    ∀ (vector : libfdata_vector H),
      libfdata_vector_segment_calls_succeed vector
        (segments.map libfdata_vector_append_call) = true →
      vector.data_size < 18446744073709551616 →
      (libfdata_vector_run_segment_calls vector
          (segments.map libfdata_vector_append_call)).data_size
        = (vector.data_size + (segments.map (fun r => r.size)).sum) % 18446744073709551616
      ∧ (libfdata_vector_run_segment_calls vector
          (segments.map libfdata_vector_append_call)).element_size = vector.element_size
      ∧ (libfdata_vector_run_segment_calls vector
          (segments.map libfdata_vector_append_call)).segments_array
        = vector.segments_array ++ segments.map some := by
  induction segments with
  | nil =>
    intro vector _ hlt
    simp [libfdata_vector_run_segment_calls]
    omega
  | cons r rest ih =>
    intro vector hsucc hlt
    simp only [List.map_cons, libfdata_vector_segment_calls_succeed,
      libfdata_vector_run_segment_calls, libfdata_vector_append_call,
      libfdata_vector_segment_call.run, libfdata_vector_append_segment_eq] at hsucc ⊢
    by_cases hsize : (r.size : Int) > INT64_MAX
    · simp [hsize] at hsucc
    · simp only [hsize, if_false] at hsucc ⊢
      have := ih _ hsucc (Nat.mod_lt _ (by norm_num))
      simp only [libfdata_vector_append_call] at this
      obtain ⟨h1, h2, h3⟩ := this
      refine ⟨?_, h2, ?_⟩
      · rw [h1]; simp only [List.sum_cons]; omega
      · rw [h3]; simp

/-- C6, counterexample: on a fresh vector with element size 1, after appending one
segment of 2^31 bytes `libfdata_vector_get_number_of_elements` fails instead of
returning `2^31 / 1`; and after appending three segments of 2^63 - 1 bytes
`libfdata_vector_get_data_size` returns 2^63 - 3, which is not the sum of the sizes. -/
theorem append_segments_sum_counterexample :
    (libfdata_vector_segment_calls_succeed
        (libfdata_vector_fresh 1 7 0 (none : Option Unit))
        [.append_segment 0 0 2147483648 0] = true
      ∧ libfdata_vector_get_data_size (libfdata_vector_run_segment_calls
          (libfdata_vector_fresh 1 7 0 (none : Option Unit))
          [.append_segment 0 0 2147483648 0]) = .ok 2147483648
      ∧ libfdata_vector_get_number_of_elements (libfdata_vector_run_segment_calls
          (libfdata_vector_fresh 1 7 0 (none : Option Unit))
          [.append_segment 0 0 2147483648 0]) = .error .number_of_elements_out_of_bounds)
    ∧ (libfdata_vector_segment_calls_succeed
        (libfdata_vector_fresh 1 7 0 (none : Option Unit))
        [.append_segment 0 0 9223372036854775807 0,
          .append_segment 0 0 9223372036854775807 0,
          .append_segment 0 0 9223372036854775807 0] = true
      ∧ libfdata_vector_get_data_size (libfdata_vector_run_segment_calls
          (libfdata_vector_fresh 1 7 0 (none : Option Unit))
          [.append_segment 0 0 9223372036854775807 0,
            .append_segment 0 0 9223372036854775807 0,
            .append_segment 0 0 9223372036854775807 0]) = .ok 9223372036854775805
      ∧ (9223372036854775805 : Nat)
        ≠ 9223372036854775807 + 9223372036854775807 + 9223372036854775807) :=
  ⟨⟨rfl, rfl, rfl⟩, rfl, rfl, by decide⟩

/-- C6, amended: after successfully appending segments with sizes `s_1..s_k` to a freshly
initialized vector, `libfdata_vector_get_data_size` returns `(s_1 + ... + s_k) mod 2^64`
(the sum itself when it is below 2^64), and `libfdata_vector_get_number_of_elements`
returns `data_size / element_size` when that quotient is at most `INT_MAX` and fails
otherwise. -/
theorem append_segments_data_size_and_number_of_elements {H V : Type} (element_size : Nat)
    (data_handle : Option H) (free_data_handle : Option (H → Int))
    (clone_data_handle : Option (H → Int × Option H))
    (read_element_data write_element_data : Option (libfdata_vector_element_data_function H V))
    (flags : Nat) (timestamp : Int) (vector0 : libfdata_internal_vector H V)
    (segments : List libfdata_range)
    (hinit : libfdata_vector_initialize (some none) element_size data_handle
      free_data_handle clone_data_handle read_element_data write_element_data flags
      timestamp = .ok vector0)
    (happend : libfdata_vector_segment_calls_succeed vector0.tolibfdata_vector
      (segments.map libfdata_vector_append_call) = true) :
    libfdata_vector_get_data_size (libfdata_vector_run_segment_calls
        vector0.tolibfdata_vector (segments.map libfdata_vector_append_call))
      = .ok ((segments.map (fun r => r.size)).sum % 18446744073709551616)
    ∧ ((segments.map (fun r => r.size)).sum < 18446744073709551616 →
      libfdata_vector_get_data_size (libfdata_vector_run_segment_calls
          vector0.tolibfdata_vector (segments.map libfdata_vector_append_call))
        = .ok (segments.map (fun r => r.size)).sum)
    ∧ ((((segments.map (fun r => r.size)).sum % 18446744073709551616 / element_size : Nat)
          : Int) ≤ INT_MAX →
      libfdata_vector_get_number_of_elements (libfdata_vector_run_segment_calls
          vector0.tolibfdata_vector (segments.map libfdata_vector_append_call))
        = .ok (((segments.map (fun r => r.size)).sum % 18446744073709551616 / element_size
            : Nat) : Int))
    ∧ (¬ (((segments.map (fun r => r.size)).sum % 18446744073709551616 / element_size : Nat)
          : Int) ≤ INT_MAX →
      libfdata_vector_get_number_of_elements (libfdata_vector_run_segment_calls
          vector0.tolibfdata_vector (segments.map libfdata_vector_append_call))
        = .error .number_of_elements_out_of_bounds) := by
  obtain ⟨hes, hfresh, _⟩ := libfdata_vector_initialize_ok _ _ _ _ _ _ _ _ _ hinit
  have hzero : vector0.data_size = 0 := by rw [hfresh]; rfl
  have hsize : vector0.element_size = element_size := by rw [hfresh]; rfl
  obtain ⟨hdata, helem, _⟩ := libfdata_vector_run_append_calls segments
    vector0.tolibfdata_vector happend (by omega)
  rw [hzero, Nat.zero_add] at hdata
  rw [hsize] at helem
  refine ⟨?_, ?_, ?_, ?_⟩
  · simp only [libfdata_vector_get_data_size, hdata]
  · intro hlt
    simp only [libfdata_vector_get_data_size, hdata, Nat.mod_eq_of_lt hlt]
  · intro hle
    unfold libfdata_vector_get_number_of_elements
    rw [helem, hdata, if_neg hes]
    simp only [gt_iff_lt, not_lt.mpr hle, if_false]
  · intro hgt
    unfold libfdata_vector_get_number_of_elements
    rw [helem, hdata, if_neg hes]
    simp only [gt_iff_lt, not_le.mp hgt, if_true]

/-- Witness of the amended C6: the vector of the read test, one segment of 1024 elements
of 512 bytes. -/
theorem append_segments_data_size_and_number_of_elements_witness :
    libfdata_vector_get_data_size (libfdata_vector_run_segment_calls
        (libfdata_vector_fresh 512 7 0 (none : Option Unit))
        ([(⟨0, 0, 524288, 0⟩ : libfdata_range)].map libfdata_vector_append_call))
      = .ok (([(⟨0, 0, 524288, 0⟩ : libfdata_range)].map (fun r => r.size)).sum
          % 18446744073709551616) :=
  (append_segments_data_size_and_number_of_elements 512 (none : Option Unit) none none
    (none : Option (libfdata_vector_element_data_function Unit Unit)) none 0 7
    ⟨libfdata_vector_fresh 512 7 0 none, none, none, none, none⟩
    [⟨0, 0, 524288, 0⟩] rfl rfl).1

theorem libfdata_vector_get_segment_by_index_ok {H : Type} (vector : libfdata_vector H)
    (segment_index : Int) (values : Int × Int × Nat × Nat)
    (h : libfdata_vector_get_segment_by_index vector segment_index = .ok values) :
    0 ≤ segment_index
    ∧ vector.segments_array[segment_index.toNat]?
      = some (some ⟨values.1, values.2.1, values.2.2.1, values.2.2.2⟩) := by
  unfold libfdata_vector_get_segment_by_index libcdata_array_get_entry_by_index at h
  by_cases hneg : segment_index < 0
  · simp [hneg] at h
  · simp only [hneg, if_false] at h
    refine ⟨by omega, ?_⟩
    cases hentry : vector.segments_array[segment_index.toNat]? with
    | none => simp [hentry] at h
    | some entry =>
      cases entry with
      | none => simp [hentry, libfdata_range_get] at h
      | some r =>
        simp only [hentry, libfdata_range_get, Except.ok.injEq] at h
        subst h
        rfl

theorem libfdata_vector_set_segment_by_index_existing {H : Type}
    (vector : libfdata_vector H) (segment_index : Int) (previous : libfdata_range)
    (segment_file_index segment_offset : Int) (segment_size segment_flags : Nat)
    (hindex : 0 ≤ segment_index)
    (hprevious : vector.segments_array[segment_index.toNat]? = some (some previous)) :
    libfdata_vector_set_segment_by_index vector segment_index segment_file_index
        segment_offset segment_size segment_flags
      = if (segment_size : Int) > INT64_MAX then
          (.error .range_set_failed, { vector with
            data_size := (to_size64 ((vector.data_size : Int) - (previous.size : Int))).toNat })
        else
          (.ok (), { vector with
            segments_array := vector.segments_array.set segment_index.toNat
              (some ⟨segment_file_index, segment_offset, segment_size, segment_flags⟩)
            data_size := ((to_size64 ((vector.data_size : Int) - (previous.size : Int))).toNat
              + segment_size) % 18446744073709551616 }) := by
  unfold libfdata_vector_set_segment_by_index libcdata_array_get_entry_by_index
    libfdata_range_set
  rw [if_neg (by omega), hprevious]
  by_cases h : (segment_size : Int) > INT64_MAX
  · simp only [h, if_true]
  · simp only [h, if_false]

/-- C7, counterexample: on the vector with segments of 2^63 - 1, 2^63 - 1 and 1 bytes
(data size 2^64 - 1), replacing segment 2 (size 1) by a segment of size 2 is successful
and changes the data size from 2^64 - 1 to 0, not by `2 - 1`. -/
theorem set_segment_by_index_delta_counterexample :
    libfdata_vector_segment_calls_succeed
        (libfdata_vector_fresh 1 7 0 (none : Option Unit))
        [.append_segment 0 0 9223372036854775807 0,
          .append_segment 0 0 9223372036854775807 0,
          .append_segment 0 0 1 0,
          .set_segment_by_index 2 0 0 2 0] = true
    ∧ libfdata_vector_get_segment_by_index (libfdata_vector_run_segment_calls
        (libfdata_vector_fresh 1 7 0 (none : Option Unit))
        [.append_segment 0 0 9223372036854775807 0,
          .append_segment 0 0 9223372036854775807 0,
          .append_segment 0 0 1 0]) 2 = .ok (0, 0, 1, 0)
    ∧ libfdata_vector_get_data_size (libfdata_vector_run_segment_calls
        (libfdata_vector_fresh 1 7 0 (none : Option Unit))
        [.append_segment 0 0 9223372036854775807 0,
          .append_segment 0 0 9223372036854775807 0,
          .append_segment 0 0 1 0]) = .ok 18446744073709551615
    ∧ libfdata_vector_get_data_size (libfdata_vector_run_segment_calls
        (libfdata_vector_fresh 1 7 0 (none : Option Unit))
        [.append_segment 0 0 9223372036854775807 0,
          .append_segment 0 0 9223372036854775807 0,
          .append_segment 0 0 1 0,
          .set_segment_by_index 2 0 0 2 0]) = .ok 0
    ∧ (0 : Int) - 18446744073709551615 ≠ 2 - 1 :=
  ⟨rfl, rfl, rfl, rfl, by decide⟩

/-- C7, amended: for every vector and every existing segment index `j` whose segment has
size `s_j`, a successful `libfdata_vector_set_segment_by_index (j, ..., s_j', ...)` leaves
the data size `(data_size - s_j + s_j') mod 2^64`, which is a change by exactly
`s_j' - s_j` whenever `data_size - s_j + s_j'` lies in `[0, 2^64)`; segment `j` then
holds the new values and every other segment is unchanged. -/
theorem set_segment_by_index_data_size_delta {H : Type} (vector vector1 : libfdata_vector H)
    (segment_index : Int) (previous : Int × Int × Nat × Nat)
    (segment_file_index segment_offset : Int) (segment_size segment_flags : Nat)
    (hprevious : libfdata_vector_get_segment_by_index vector segment_index = .ok previous)
    (hset : libfdata_vector_set_segment_by_index vector segment_index segment_file_index
      segment_offset segment_size segment_flags = (.ok (), vector1)) :
    libfdata_vector_get_data_size vector1
      = .ok ((((vector.data_size : Int) - (previous.2.2.1 : Int) + (segment_size : Int))
          % 18446744073709551616).toNat)
    ∧ (0 ≤ (vector.data_size : Int) - (previous.2.2.1 : Int) + (segment_size : Int) →
        (vector.data_size : Int) - (previous.2.2.1 : Int) + (segment_size : Int)
          < 18446744073709551616 →
        (vector1.data_size : Int) - (vector.data_size : Int)
          = (segment_size : Int) - (previous.2.2.1 : Int))
    ∧ libfdata_vector_get_segment_by_index vector1 segment_index
      = .ok (segment_file_index, segment_offset, segment_size, segment_flags)
    ∧ (∀ other : Int, other ≠ segment_index →
        libfdata_vector_get_segment_by_index vector1 other
          = libfdata_vector_get_segment_by_index vector other) := by
  obtain ⟨hindex, hentry⟩ := libfdata_vector_get_segment_by_index_ok _ _ _ hprevious
  rw [libfdata_vector_set_segment_by_index_existing vector segment_index _ _ _ _ _ hindex
    hentry] at hset
  by_cases hsize : (segment_size : Int) > INT64_MAX
  · simp [hsize] at hset
  simp only [hsize, if_false, Prod.mk.injEq, true_and] at hset
  subst hset
  have hlt : segment_index.toNat < vector.segments_array.length := by
    by_contra hcon
    rw [List.getElem?_eq_none (by omega)] at hentry
    exact absurd hentry (by simp)
  have hdata : ((to_size64 ((vector.data_size : Int) - (previous.2.2.1 : Int))).toNat
      + segment_size) % 18446744073709551616
      = (((vector.data_size : Int) - (previous.2.2.1 : Int) + (segment_size : Int))
          % 18446744073709551616).toNat := by
    unfold to_size64; omega
  refine ⟨?_, ?_, ?_, ?_⟩
  · simp only [libfdata_vector_get_data_size, hdata]
  · intro h0 h1
    simp only [hdata]
    omega
  · unfold libfdata_vector_get_segment_by_index libcdata_array_get_entry_by_index
    rw [if_neg (by omega)]
    simp [List.getElem?_set, hlt, libfdata_range_get]
  · intro other hother
    unfold libfdata_vector_get_segment_by_index libcdata_array_get_entry_by_index
    by_cases hneg : other < 0
    · simp [hneg]
    · simp only [hneg, if_false]
      have hne : segment_index.toNat ≠ other.toNat := by omega
      simp [List.getElem?_set, hne]

/-- Witness of the amended C7: on the vector of two segments of 512 bytes, segment 1 is
replaced by a segment of 1024 bytes. -/
theorem set_segment_by_index_data_size_delta_witness :
    libfdata_vector_get_data_size
        (⟨512, 1536, 7, 0, none, [some ⟨0, 0, 512, 0⟩, some ⟨0, 512, 1024, 0⟩]⟩ :
          libfdata_vector Unit)
      = .ok ((((two_segment_vector.data_size : Int)
          - (((0, 512, 512, 0) : Int × Int × Nat × Nat).2.2.1 : Int) + ((1024 : Nat) : Int))
          % 18446744073709551616).toNat) :=
  (set_segment_by_index_data_size_delta two_segment_vector _ 1 (0, 512, 512, 0) 0 512 1024 0
    rfl rfl).1

/-- C8: after `libfdata_vector_append_segment` with a size of 1024 and
`libfdata_vector_empty_segments` on a fresh vector, both successful, the segment table is
empty (the sizes of its segments sum to 0) while the data size still is 1024. -/
theorem empty_segments_keeps_data_size :
    libfdata_vector_segment_calls_succeed
        (libfdata_vector_fresh 512 7 0 (none : Option Unit))
        [.append_segment 0 0 1024 0, .empty_segments] = true
    ∧ libfdata_vector_get_number_of_segments (libfdata_vector_run_segment_calls
        (libfdata_vector_fresh 512 7 0 (none : Option Unit))
        [.append_segment 0 0 1024 0, .empty_segments]) = .ok 0
    ∧ libfdata_segments_size (libfdata_vector_run_segment_calls
        (libfdata_vector_fresh 512 7 0 (none : Option Unit))
        [.append_segment 0 0 1024 0, .empty_segments]).segments_array = 0
    ∧ libfdata_vector_get_data_size (libfdata_vector_run_segment_calls
        (libfdata_vector_fresh 512 7 0 (none : Option Unit))
        [.append_segment 0 0 1024 0, .empty_segments]) = .ok 1024 :=
  ⟨rfl, rfl, rfl, rfl⟩

theorem libfdata_vector_segment_call_run_invariant {H : Type} (vector : libfdata_vector H)
    (call : libfdata_vector_segment_call)
    (hcall : call.is_append_or_set = true)
    (hsucc : ∃ u, (libfdata_vector_segment_call.run vector call).1 = .ok u)
    (hnonnull : ∀ entry ∈ vector.segments_array, entry ≠ none)
    (hdata : vector.data_size
      = libfdata_segments_size vector.segments_array % 18446744073709551616) :
    (∀ entry ∈ (libfdata_vector_segment_call.run vector call).2.segments_array, entry ≠ none)
    ∧ (libfdata_vector_segment_call.run vector call).2.data_size
      = libfdata_segments_size (libfdata_vector_segment_call.run vector call).2.segments_array
        % 18446744073709551616
    ∧ (libfdata_vector_segment_call.run vector call).2.element_size = vector.element_size
    ∧ (libfdata_vector_segment_call.run vector call).2.timestamp = vector.timestamp := by
  obtain ⟨u, hsucc⟩ := hsucc
  cases call with
  | append_segment f o s fl =>
    simp only [libfdata_vector_segment_call.run, libfdata_vector_append_segment_eq]
      at hsucc ⊢
    by_cases hsize : (s : Int) > INT64_MAX
    · simp [hsize] at hsucc
    · simp only [hsize, if_false, and_true]
      refine ⟨?_, ?_⟩
      · intro entry hmem
        simp only [List.mem_append, List.mem_singleton] at hmem
        rcases hmem with hmem | hmem
        · exact hnonnull entry hmem
        · rw [hmem]; simp
      · simp only [libfdata_segments_size_append]
        rw [hdata]; omega
  | set_segment_by_index j f o s fl =>
    simp only [libfdata_vector_segment_call.run] at hsucc ⊢
    by_cases hneg : j < 0
    · simp [libfdata_vector_set_segment_by_index, libcdata_array_get_entry_by_index, hneg]
        at hsucc
    cases hentry : vector.segments_array[j.toNat]? with
    | none =>
      simp [libfdata_vector_set_segment_by_index, libcdata_array_get_entry_by_index, hneg,
        hentry] at hsucc
    | some entry =>
      cases entry with
      | none =>
        exact absurd rfl (hnonnull none (List.getElem?_mem hentry))
      | some previous =>
        rw [libfdata_vector_set_segment_by_index_existing vector j previous f o s fl
          (by omega) hentry] at hsucc ⊢
        by_cases hsize : (s : Int) > INT64_MAX
        · simp [hsize] at hsucc
        · simp only [hsize, if_false, and_true]
          refine ⟨?_, ?_⟩
          · intro entry hmem
            rcases List.mem_or_eq_of_mem_set hmem with hmem | hmem
            · exact hnonnull entry hmem
            · rw [hmem]; simp
          · have hset := libfdata_segments_size_set vector.segments_array j.toNat previous
              ⟨f, o, s, fl⟩ hentry
            simp only at hset
            rw [hdata]
            unfold to_size64
            omega
  | empty_segments => simp [libfdata_vector_segment_call.is_append_or_set] at hcall
  | resize_segments n => simp [libfdata_vector_segment_call.is_append_or_set] at hcall

theorem libfdata_vector_run_segment_calls_invariant {H : Type}
    (calls : List libfdata_vector_segment_call) :
    ∀ (vector : libfdata_vector H),
      (∀ call ∈ calls, call.is_append_or_set = true) →
      libfdata_vector_segment_calls_succeed vector calls = true →
      (∀ entry ∈ vector.segments_array, entry ≠ none) →
      vector.data_size = libfdata_segments_size vector.segments_array % 18446744073709551616 →
      (∀ entry ∈ (libfdata_vector_run_segment_calls vector calls).segments_array,
          entry ≠ none)
      ∧ (libfdata_vector_run_segment_calls vector calls).data_size
        = libfdata_segments_size (libfdata_vector_run_segment_calls vector calls).segments_array
          % 18446744073709551616
      ∧ (libfdata_vector_run_segment_calls vector calls).element_size = vector.element_size
      ∧ (libfdata_vector_run_segment_calls vector calls).timestamp = vector.timestamp := by
  induction calls with
  | nil =>
    intro vector _ _ hnonnull hdata
    exact ⟨hnonnull, hdata, rfl, rfl⟩
  | cons call rest ih =>
    intro vector hcalls hsucc hnonnull hdata
    simp only [libfdata_vector_segment_calls_succeed] at hsucc
    have hfirst : ∃ u, (libfdata_vector_segment_call.run vector call).1 = .ok u := by
      cases h : (libfdata_vector_segment_call.run vector call).1 with
      | error e => rw [h] at hsucc; simp at hsucc
      | ok u => exact ⟨u, rfl⟩
    have hrest : libfdata_vector_segment_calls_succeed
        (libfdata_vector_segment_call.run vector call).2 rest = true := by
      obtain ⟨u, hu⟩ := hfirst
      rw [hu] at hsucc
      exact hsucc
    obtain ⟨h1, h2, h3, h4⟩ := libfdata_vector_segment_call_run_invariant vector call
      (hcalls call (List.mem_cons_self _ _)) hfirst hnonnull hdata
    obtain ⟨g1, g2, g3, g4⟩ := ih _ (fun c hc => hcalls c (List.mem_cons_of_mem _ hc))
      hrest h1 h2
    exact ⟨g1, g2, g3.trans h3, g4.trans h4⟩

/-! ## Lemmas on the resolution of the element data offset -/

theorem set_element_value_by_index_loop_eq (segments : List (Option libfdata_range)) :
    ∀ (segment_index element_data_offset : Int),
      libfdata_vector_set_element_value_by_index_loop segments segment_index
          element_data_offset
        = libfdata_vector_get_element_value_by_index_loop segments segment_index
          element_data_offset := by
  induction segments with
  | nil => intro _ _; rfl
  | cons entry rest ih =>
    intro segment_index element_data_offset
    cases entry with
    | none => rfl
    | some r =>
      simp only [libfdata_vector_set_element_value_by_index_loop,
        libfdata_vector_get_element_value_by_index_loop, ih]

theorem set_element_value_by_index_offset_eq {H : Type} (vector : libfdata_vector H)
    (element_index : Int) :
    libfdata_vector_set_element_value_by_index_offset vector element_index
      = libfdata_vector_get_element_value_by_index_offset vector element_index := by
  unfold libfdata_vector_set_element_value_by_index_offset
    libfdata_vector_get_element_value_by_index_offset
  simp only [set_element_value_by_index_loop_eq]

theorem get_element_value_by_index_loop_select (segments : List (Option libfdata_range)) :
    ∀ (k : Nat) (r : libfdata_range) (segment_index element_data_offset : Int),
      segments[k]? = some (some r) →
      (∀ j, j < k → segments[j]? ≠ some none) →
      (libfdata_segments_size (segments.take k) : Int) ≤ element_data_offset →
      element_data_offset < (libfdata_segments_size (segments.take k) : Int) + r.size →
      element_data_offset ≤ INT64_MAX →
      (r.size : Int) ≤ INT64_MAX →
      libfdata_vector_get_element_value_by_index_loop segments segment_index
          element_data_offset
        = .ok (segment_index + k,
            to_off64 (element_data_offset
              - (libfdata_segments_size (segments.take k) : Int) + r.offset)) := by
  induction segments with
  | nil => intro k r _ _ hk; simp at hk
  | cons entry rest ih =>
    intro k r segment_index element_data_offset hk hnonnull hstart hend hmax hsize
    unfold INT64_MAX at hmax hsize
    cases k with
    | zero =>
      simp only [List.getElem?_cons_zero, Option.some.injEq] at hk
      subst hk
      simp only [List.take_zero, libfdata_segments_size, Nat.cast_zero, zero_add, sub_zero]
        at *
      have hcond : element_data_offset < to_off64 (r.size : Int) := by
        rw [to_off64_of_range _ (by omega) (by omega)]; exact hend
      simp [libfdata_vector_get_element_value_by_index_loop, hcond]
    | succ k =>
      cases entry with
      | none => exact absurd (by simp) (hnonnull 0 (by omega))
      | some r0 =>
        simp only [List.getElem?_cons_succ] at hk
        simp only [List.take_succ_cons, libfdata_segments_size, Nat.cast_add] at hstart hend
        have hcond : ¬ element_data_offset < to_off64 (r0.size : Int) := by
          rw [to_off64_of_range _ (by omega) (by omega)]; omega
        have hnext : to_off64 (element_data_offset - (r0.size : Int))
            = element_data_offset - (r0.size : Int) :=
          to_off64_of_range _ (by omega) (by omega)
        simp only [libfdata_vector_get_element_value_by_index_loop, hcond, if_false, hnext]
        rw [ih k r (segment_index + 1) (element_data_offset - (r0.size : Int)) hk
          (fun j hj => by
            have := hnonnull (j + 1) (by omega)
            simpa using this)
          (by omega) (by omega) (by unfold INT64_MAX; omega) (by unfold INT64_MAX; omega)]
        simp only [List.take_succ_cons, libfdata_segments_size, Nat.cast_add, Nat.cast_succ]
        congr 2
        · omega
        · congr 1; omega

theorem libfdata_segments_size_take_le (segments : List (Option libfdata_range)) :
    ∀ (k : Nat) (r : libfdata_range), segments[k]? = some (some r) →
      libfdata_segments_size (segments.take k) + r.size ≤ libfdata_segments_size segments := by
  induction segments with
  | nil => intro k r hk; simp at hk
  | cons entry rest ih =>
    intro k r hk
    cases k with
    | zero =>
      simp only [List.getElem?_cons_zero, Option.some.injEq] at hk
      subst hk
      simp [libfdata_segments_size]
    | succ k =>
      simp only [List.getElem?_cons_succ] at hk
      have := ih k r hk
      cases entry with
      | none => simpa [libfdata_segments_size] using this
      | some r0 => simp [libfdata_segments_size]; omega

theorem get_element_value_by_index_offset_resolve {H : Type} (vector : libfdata_vector H)
    (element_index : Int) (k : Nat) (r : libfdata_range)
    (hes : vector.element_size ≠ 0)
    (hdata : vector.data_size = libfdata_segments_size vector.segments_array)
    (hmax : (vector.data_size : Int) ≤ INT64_MAX)
    (hindex : 0 ≤ element_index)
    (hk : vector.segments_array[k]? = some (some r))
    (hnonnull : ∀ j, j < k → vector.segments_array[j]? ≠ some none)
    (hstart : (libfdata_segments_size (vector.segments_array.take k) : Int)
      ≤ element_index * (vector.element_size : Int))
    (hend : element_index * (vector.element_size : Int)
      < (libfdata_segments_size (vector.segments_array.take k) : Int) + r.size) :
    libfdata_vector_get_element_value_by_index_offset vector element_index
      = .ok (to_off64 (element_index * (vector.element_size : Int)
          - (libfdata_segments_size (vector.segments_array.take k) : Int) + r.offset)) := by
  have htake := libfdata_segments_size_take_le vector.segments_array k r hk
  unfold INT64_MAX at hmax
  have hlen : ¬ libcdata_array_get_number_of_entries vector.segments_array ≤ 0 := by
    have hlt : k < vector.segments_array.length := by
      by_contra hcon
      rw [List.getElem?_eq_none (by omega)] at hk
      exact absurd hk (by simp)
    unfold libcdata_array_get_number_of_entries
    omega
  have hespos : (0 : Int) < (vector.element_size : Int) := by omega
  have hp0 : 0 ≤ element_index * (vector.element_size : Int) :=
    mul_nonneg hindex (le_of_lt hespos)
  have hile : element_index ≤ element_index * (vector.element_size : Int) :=
    le_mul_of_one_le_right hindex (by omega)
  have hple : element_index * (vector.element_size : Int) < (vector.data_size : Int) := by
    rw [hdata]; omega
  have hrsize : (r.size : Int) ≤ 9223372036854775807 := by
    rw [hdata] at hmax; omega
  have hc2 : ¬ (vector.data_size = 0 ∨ (vector.data_size : Int) > INT64_MAX) := by
    unfold INT64_MAX; omega
  have hc3 : ¬ element_index < 0 := not_lt.mpr hindex
  have hc4 : ¬ element_index * (vector.element_size : Int) > (vector.data_size : Int) :=
    not_lt.mpr (le_of_lt hple)
  have hloop := get_element_value_by_index_loop_select vector.segments_array k r 0
    (element_index * (vector.element_size : Int)) hk hnonnull hstart hend
    (by unfold INT64_MAX; omega) hrsize
  have h1 : to_size64 element_index = element_index :=
    to_size64_of_range _ hindex (by omega)
  have h2 : to_off64 (to_size64 (element_index * (vector.element_size : Int)))
      = element_index * (vector.element_size : Int) := by
    rw [to_size64_of_range _ hp0 (by omega), to_off64_of_range _ (by omega) (by omega)]
  have h3 : to_off64 (vector.data_size : Int) = (vector.data_size : Int) :=
    to_off64_of_range _ (by omega) (by omega)
  unfold libfdata_vector_get_element_value_by_index_offset
  rw [if_neg hes, if_neg hc2, if_neg hc3, h1, h2, h3, if_neg hc4, if_neg hlen, hloop]

theorem get_element_value_by_index_read_calls {H V : Type}
    (vector : libfdata_internal_vector H V) (file_io_handle : Option H)
    (cache : libfcache_cache V) (element_index : Int) (read_flags : Nat) :
    (libfdata_vector_get_element_value_by_index vector file_io_handle cache element_index
        read_flags).read_calls = []
    ∨ ∃ element_data_offset,
        libfdata_vector_get_element_value_by_index_offset vector.tolibfdata_vector
          element_index = .ok element_data_offset
        ∧ (libfdata_vector_get_element_value_by_index vector file_io_handle cache
            element_index read_flags).read_calls
          = [⟨vector.data_handle, file_io_handle, vector.tolibfdata_vector, cache,
              element_index, 0, element_data_offset, vector.element_size, 0, read_flags⟩] := by
  unfold libfdata_vector_get_element_value_by_index
  cases hread : vector.read_element_data with
  | none => left; rfl
  | some read_element_data =>
    cases hoffset : libfdata_vector_get_element_value_by_index_offset
        vector.tolibfdata_vector element_index with
    | error e => left; rfl
    | ok element_data_offset =>
      simp only
      split
      · left; rfl
      · split
        · left; rfl
        · split
          · right
            refine ⟨element_data_offset, rfl, ?_⟩
            split
            · rfl
            · split
              · rfl
              · split
                · rfl
                · split <;> rfl
          · left
            split <;> rfl

theorem libfdata_vector_calculate_cache_entry_index_range (element_index : Int)
    (number_of_cache_entries : Int) (hindex : 0 ≤ element_index)
    (hnumber : 0 < number_of_cache_entries) :
    0 ≤ libfdata_vector_calculate_cache_entry_index element_index number_of_cache_entries
    ∧ libfdata_vector_calculate_cache_entry_index element_index number_of_cache_entries
      < number_of_cache_entries := by
  unfold libfdata_vector_calculate_cache_entry_index
  exact ⟨Int.tmod_nonneg _ hindex, Int.tmod_lt_of_pos _ hnumber⟩

theorem set_element_value_by_index_ok {H V : Type} (vector : libfdata_vector H)
    (cache : libfcache_cache V) (element_index : Int) (element_value : V)
    (free_element_value : Option (V → Int)) (flags : Nat) (element_data_offset : Int)
    (hoffset : libfdata_vector_set_element_value_by_index_offset vector element_index
      = .ok element_data_offset)
    (hindex : 0 ≤ element_index) (hcache : 0 < cache.length) :
    libfdata_vector_set_element_value_by_index vector cache element_index element_value
        free_element_value flags
      = .ok (cache.set
          (libfdata_vector_calculate_cache_entry_index element_index
            (cache.length : Int)).toNat
          (some ⟨0, element_data_offset, vector.timestamp, element_value, free_element_value,
            flags⟩)) := by
  have hrange := libfdata_vector_calculate_cache_entry_index_range element_index
    (cache.length : Int) hindex (by omega)
  unfold libfdata_vector_set_element_value_by_index
  rw [hoffset]
  simp only [libfcache_cache_get_number_of_entries, libfcache_cache_set_value_by_index]
  rw [if_neg (by omega), if_neg (by omega)]

/-- C2, counterexample: with element size 1 and one segment of 2 bytes at the physical
offset 2^63 - 1, element 1 lies in segment 0 at the relative offset 1; the offset handed
to the read callback is -2^63, not `(2^63 - 1) + 1`. -/
theorem element_data_offset_wraps :
    libfdata_vector_segment_calls_succeed
        (libfdata_vector_fresh 1 7 0 (none : Option Unit))
        [.append_segment 0 9223372036854775807 2 0] = true
    ∧ (libfdata_vector_get_element_value_by_index
        (⟨libfdata_vector_run_segment_calls
            (libfdata_vector_fresh 1 7 0 (none : Option Unit))
            [.append_segment 0 9223372036854775807 2 0], none, none,
          some (fdata_test_vector_read_element_data 1 (fun n => n)), none⟩ :
          libfdata_internal_vector Unit Int)
        none [none] 1 0).read_calls.map (fun call => call.element_data_offset)
      = [-9223372036854775808]
    ∧ (-9223372036854775808 : Int) ≠ 9223372036854775807 + (1 * 1 - 0) :=
  ⟨rfl, rfl, by decide⟩

theorem libfdata_vector_built_invariant {H V : Type} (element_size : Nat)
    (data_handle : Option H) (free_data_handle : Option (H → Int))
    (clone_data_handle : Option (H → Int × Option H))
    (read_element_data write_element_data : Option (libfdata_vector_element_data_function H V))
    (flags : Nat) (timestamp : Int) (vector0 : libfdata_internal_vector H V)
    (calls : List libfdata_vector_segment_call)
    (hinit : libfdata_vector_initialize (some none) element_size data_handle
      free_data_handle clone_data_handle read_element_data write_element_data flags
      timestamp = .ok vector0)
    (hcalls : ∀ call ∈ calls, call.is_append_or_set = true)
    (hsucc : libfdata_vector_segment_calls_succeed vector0.tolibfdata_vector calls = true) :
    (∀ entry ∈ (libfdata_vector_run_segment_calls vector0.tolibfdata_vector
        calls).segments_array, entry ≠ none)
    ∧ (libfdata_vector_run_segment_calls vector0.tolibfdata_vector calls).data_size
      = libfdata_segments_size (libfdata_vector_run_segment_calls vector0.tolibfdata_vector
          calls).segments_array % 18446744073709551616
    ∧ (libfdata_vector_run_segment_calls vector0.tolibfdata_vector calls).element_size
      = element_size
    ∧ (libfdata_vector_run_segment_calls vector0.tolibfdata_vector calls).timestamp
      = timestamp
    ∧ element_size ≠ 0 := by
  obtain ⟨hes, hfresh, _⟩ := libfdata_vector_initialize_ok _ _ _ _ _ _ _ _ _ hinit
  obtain ⟨h1, h2, h3, h4⟩ := libfdata_vector_run_segment_calls_invariant calls
    vector0.tolibfdata_vector hcalls hsucc (by rw [hfresh]; simp [libfdata_vector_fresh])
    (by rw [hfresh]; simp [libfdata_vector_fresh, libfdata_segments_size])
  refine ⟨h1, h2, ?_, ?_, hes⟩
  · rw [h3, hfresh]; rfl
  · rw [h4, hfresh]; rfl

theorem get_element_value_by_index_ignore_cache_reads {H V : Type}
    (vector : libfdata_internal_vector H V) (file_io_handle : Option H)
    (cache : libfcache_cache V) (element_index : Int) (read_flags : Nat)
    (element_data_offset : Int)
    (hread : vector.read_element_data ≠ none)
    (hoffset : libfdata_vector_get_element_value_by_index_offset vector.tolibfdata_vector
      element_index = .ok element_data_offset)
    (hcache : 0 < cache.length)
    (hflags : read_flags &&& LIBFDATA_READ_FLAG_IGNORE_CACHE ≠ 0) :
    (libfdata_vector_get_element_value_by_index vector file_io_handle cache element_index
        read_flags).read_calls
      = [⟨vector.data_handle, file_io_handle, vector.tolibfdata_vector, cache,
          element_index, 0, element_data_offset, vector.element_size, 0, read_flags⟩] := by
  unfold libfdata_vector_get_element_value_by_index
  cases hcb : vector.read_element_data with
  | none => exact absurd hcb hread
  | some read_element_data =>
    simp only [hoffset, libfcache_cache_get_number_of_entries,
      libfdata_vector_get_element_value_by_index_lookup, hflags, if_false]
    rw [if_neg (by omega)]
    simp only [if_true]
    split
    · rfl
    · split
      · rfl
      · split
        · rfl
        · split <;> rfl

/-- C2, amended: for a vector built from `libfdata_vector_initialize` by successful
append_segment and set_segment_by_index calls whose segment sizes sum to at most
`INT64_MAX`, an index `i >= 0` and the segment `k` with
`start_k <= i * element_size < start_k + size_k` (the first segment whose cumulative end
exceeds `i * element_size`): provided `physical_offset_k + (i * element_size - start_k)`
is representable as an `off64_t`, it is the offset the walk resolves, the offset of every
invocation of the read callback by `libfdata_vector_get_element_value_by_index` (one
invocation when the cache is ignored), and the offset that
`libfdata_vector_set_element_value_by_index` stamps on the cache entry. -/
theorem element_data_offset_resolution {H V : Type} (element_size : Nat)
    (data_handle : Option H) (free_data_handle : Option (H → Int))
    (clone_data_handle : Option (H → Int × Option H))
    (read_element_data write_element_data : Option (libfdata_vector_element_data_function H V))
    (flags : Nat) (timestamp : Int) (vector0 vector : libfdata_internal_vector H V)
    (calls : List libfdata_vector_segment_call)
    (element_index : Int) (k : Nat) (r : libfdata_range)
    (hinit : libfdata_vector_initialize (some none) element_size data_handle
      free_data_handle clone_data_handle read_element_data write_element_data flags
      timestamp = .ok vector0)
    (hcalls : ∀ call ∈ calls, call.is_append_or_set = true)
    (hsucc : libfdata_vector_segment_calls_succeed vector0.tolibfdata_vector calls = true)
    (hbuilt : vector.tolibfdata_vector
      = libfdata_vector_run_segment_calls vector0.tolibfdata_vector calls)
    (hsum : (libfdata_segments_size vector.segments_array : Int) ≤ INT64_MAX)
    (hindex : 0 ≤ element_index)
    (hk : vector.segments_array[k]? = some (some r))
    (hstart : (libfdata_segments_size (vector.segments_array.take k) : Int)
      ≤ element_index * (element_size : Int))
    (hend : element_index * (element_size : Int)
      < (libfdata_segments_size (vector.segments_array.take k) : Int) + r.size)
    (hlow : -9223372036854775808 ≤ r.offset)
    (hrep : r.offset + (element_index * (element_size : Int)
      - (libfdata_segments_size (vector.segments_array.take k) : Int)) ≤ INT64_MAX) :
    libfdata_vector_get_element_value_by_index_offset vector.tolibfdata_vector element_index
      = .ok (r.offset + (element_index * (element_size : Int)
          - (libfdata_segments_size (vector.segments_array.take k) : Int)))
    ∧ (∀ (file_io_handle : Option H) (cache : libfcache_cache V) (read_flags : Nat),
        ∀ call ∈ (libfdata_vector_get_element_value_by_index vector file_io_handle cache
            element_index read_flags).read_calls,
          call.element_data_offset
            = r.offset + (element_index * (element_size : Int)
              - (libfdata_segments_size (vector.segments_array.take k) : Int)))
    ∧ (∀ (file_io_handle : Option H) (cache : libfcache_cache V) (read_flags : Nat),
        vector.read_element_data ≠ none → 0 < cache.length →
        read_flags &&& LIBFDATA_READ_FLAG_IGNORE_CACHE ≠ 0 →
        (libfdata_vector_get_element_value_by_index vector file_io_handle cache
            element_index read_flags).read_calls.length = 1)
    ∧ (∀ (cache : libfcache_cache V) (element_value : V)
        (free_element_value : Option (V → Int)) (value_flags : Nat), 0 < cache.length →
        ∃ cache1, libfdata_vector_set_element_value_by_index vector.tolibfdata_vector cache
            element_index element_value free_element_value value_flags = .ok cache1
          ∧ cache1[(libfdata_vector_calculate_cache_entry_index element_index
              (libfcache_cache_get_number_of_entries cache)).toNat]?
            = some (some ⟨0, r.offset + (element_index * (element_size : Int)
                - (libfdata_segments_size (vector.segments_array.take k) : Int)),
              vector.timestamp, element_value, free_element_value, value_flags⟩)) := by
  obtain ⟨hnonnull, hdata, hsize, _, hes⟩ := libfdata_vector_built_invariant _ _ _ _ _ _ _ _
    _ calls hinit hcalls hsucc
  rw [← hbuilt] at hnonnull hdata hsize
  unfold INT64_MAX at hsum hrep
  have hdata1 : vector.data_size = libfdata_segments_size vector.segments_array := by
    rw [hdata]; omega
  have hresolve : libfdata_vector_get_element_value_by_index_offset vector.tolibfdata_vector
      element_index
      = .ok (r.offset + (element_index * (element_size : Int)
          - (libfdata_segments_size (vector.segments_array.take k) : Int))) := by
    rw [get_element_value_by_index_offset_resolve vector.tolibfdata_vector element_index k r
      (by rw [hsize]; exact hes) hdata1 (by rw [hdata1]; unfold INT64_MAX; exact hsum) hindex
      hk (fun j _ hj => hnonnull _ (List.getElem?_mem hj) rfl)
      (by rw [hsize]; exact hstart) (by rw [hsize]; exact hend), hsize,
      to_off64_of_range _ (by omega) (by omega)]
    congr 1; omega
  refine ⟨hresolve, ?_, ?_, ?_⟩
  · intro file_io_handle cache read_flags call hcall
    rcases get_element_value_by_index_read_calls vector file_io_handle cache element_index
      read_flags with hnil | ⟨offset, hoffset, hone⟩
    · rw [hnil] at hcall; simp at hcall
    · rw [hone] at hcall
      rw [hresolve] at hoffset
      simp only [Except.ok.injEq] at hoffset
      simp only [List.mem_singleton] at hcall
      rw [hcall, ← hoffset]
  · intro file_io_handle cache read_flags hread hcache hflags
    rw [get_element_value_by_index_ignore_cache_reads vector file_io_handle cache
      element_index read_flags _ hread hresolve hcache hflags]
    rfl
  · intro cache element_value free_element_value value_flags hcache
    have hrange := libfdata_vector_calculate_cache_entry_index_range element_index
      (cache.length : Int) hindex (by omega)
    refine ⟨_, set_element_value_by_index_ok vector.tolibfdata_vector cache element_index
      element_value free_element_value value_flags _
      (by rw [set_element_value_by_index_offset_eq]; exact hresolve) hindex hcache, ?_⟩
    simp only [libfcache_cache_get_number_of_entries]
    rw [List.getElem?_set_self (by omega)]

/-- Witness of the amended C2: element 2 of `example_vector` lies in segment 1 (physical
offset 4096, cumulative start 512) and resolves to `4096 + (2 * 512 - 512)`. -/
theorem element_data_offset_resolution_witness :
    libfdata_vector_get_element_value_by_index_offset example_vector.tolibfdata_vector 2
      = .ok ((⟨0, 4096, 1024, 0⟩ : libfdata_range).offset + (2 * ((512 : Nat) : Int)
          - (libfdata_segments_size (example_vector.segments_array.take 1) : Int))) :=
  (element_data_offset_resolution 512 none none none none none 0 7 example_vector0
    example_vector [.append_segment 0 0 512 0, .append_segment 0 4096 1024 0] 2 1
    ⟨0, 4096, 1024, 0⟩ rfl
    (by intro call hcall
        simp only [List.mem_cons, List.mem_singleton, List.not_mem_nil, or_false] at hcall
        rcases hcall with h | h <;> rw [h] <;> rfl)
    rfl rfl (by decide) (by decide) rfl (by decide) (by decide) (by decide) (by decide)).1

/-! ## Lemmas on `libfdata_vector_get_element_value_by_index` -/

theorem get_element_value_by_index_offset_ok {H : Type} (vector : libfdata_vector H)
    (element_index element_data_offset : Int)
    (h : libfdata_vector_get_element_value_by_index_offset vector element_index
      = .ok element_data_offset) :
    0 ≤ element_index ∧ vector.element_size ≠ 0 := by
  unfold libfdata_vector_get_element_value_by_index_offset at h
  by_cases hes : vector.element_size = 0
  · rw [if_pos hes] at h; exact absurd h (by simp)
  rw [if_neg hes] at h
  by_cases hdata : vector.data_size = 0 ∨ (vector.data_size : Int) > INT64_MAX
  · rw [if_pos hdata] at h; exact absurd h (by simp)
  rw [if_neg hdata] at h
  by_cases hneg : element_index < 0
  · rw [if_pos hneg] at h; exact absurd h (by simp)
  exact ⟨not_lt.mp hneg, hes⟩

theorem libfcache_cache_get_value_by_index_slot {V : Type} (cache : libfcache_cache V)
    (element_index : Int) (hindex : 0 ≤ element_index) (hcache : 0 < cache.length) :
    ∃ slot, cache[(libfdata_vector_calculate_cache_entry_index element_index
          (cache.length : Int)).toNat]? = some slot
      ∧ libfcache_cache_get_value_by_index cache
          (libfdata_vector_calculate_cache_entry_index element_index (cache.length : Int))
        = some slot := by
  have hrange := libfdata_vector_calculate_cache_entry_index_range element_index
    (cache.length : Int) hindex (by omega)
  have hlt : (libfdata_vector_calculate_cache_entry_index element_index
      (cache.length : Int)).toNat < cache.length := by omega
  refine ⟨cache[(libfdata_vector_calculate_cache_entry_index element_index
      (cache.length : Int)).toNat], List.getElem?_eq_getElem hlt, ?_⟩
  unfold libfcache_cache_get_value_by_index
  rw [if_neg (by omega), List.getElem?_eq_getElem hlt]

theorem libfcache_cache_get_value_by_index_of_slot {V : Type} (cache : libfcache_cache V)
    (element_index : Int) (number_of_cache_entries : Int)
    (slot : Option (libfcache_cache_value V)) (hindex : 0 ≤ element_index)
    (hslot : cache[(libfdata_vector_calculate_cache_entry_index element_index
      number_of_cache_entries).toNat]? = some slot) :
    libfcache_cache_get_value_by_index cache
        (libfdata_vector_calculate_cache_entry_index element_index number_of_cache_entries)
      = some slot := by
  have hnonneg : 0 ≤ libfdata_vector_calculate_cache_entry_index element_index
      number_of_cache_entries := by
    unfold libfdata_vector_calculate_cache_entry_index
    exact Int.tmod_nonneg _ hindex
  unfold libfcache_cache_get_value_by_index
  rw [if_neg (by omega), hslot]

theorem get_element_value_by_index_hit {H V : Type}
    (vector : libfdata_internal_vector H V) (file_io_handle : Option H)
    (cache : libfcache_cache V) (element_index : Int) (read_flags : Nat)
    (element_data_offset : Int) (cv : libfcache_cache_value V)
    (hread : vector.read_element_data ≠ none)
    (hoffset : libfdata_vector_get_element_value_by_index_offset vector.tolibfdata_vector
      element_index = .ok element_data_offset)
    (hflags : read_flags &&& LIBFDATA_READ_FLAG_IGNORE_CACHE = 0)
    (hslot : cache[(libfdata_vector_calculate_cache_entry_index element_index
      (cache.length : Int)).toNat]? = some (some cv))
    (hmatch : element_data_offset = cv.offset ∧ vector.timestamp = cv.timestamp) :
    libfdata_vector_get_element_value_by_index vector file_io_handle cache element_index
        read_flags = ⟨.ok cv.value, cache, []⟩ := by
  have hindex := (get_element_value_by_index_offset_ok _ _ _ hoffset).1
  have hcache : ¬ (cache.length : Int) ≤ 0 := by
    intro hle
    have hnil : cache = [] := List.length_eq_zero.mp (by omega)
    rw [hnil] at hslot
    simp at hslot
  have hget := libfcache_cache_get_value_by_index_of_slot cache element_index
    (cache.length : Int) (some cv) hindex hslot
  unfold libfdata_vector_get_element_value_by_index
  cases hcb : vector.read_element_data with
  | none => exact absurd hcb hread
  | some read_element_data =>
    simp only [hoffset, libfcache_cache_get_number_of_entries, hcache, if_false,
      libfdata_vector_get_element_value_by_index_lookup, hflags, if_true, hget,
      libfcache_cache_value_get_identifier, hmatch, and_self,
      libfcache_cache_value_get_value]
    simp

theorem get_element_value_by_index_miss_occupied {H V : Type}
    (vector : libfdata_internal_vector H V) (file_io_handle : Option H)
    (cache : libfcache_cache V) (element_index : Int) (read_flags : Nat)
    (element_data_offset : Int) (cv : libfcache_cache_value V)
    (hread : vector.read_element_data ≠ none)
    (hoffset : libfdata_vector_get_element_value_by_index_offset vector.tolibfdata_vector
      element_index = .ok element_data_offset)
    (hslot : cache[(libfdata_vector_calculate_cache_entry_index element_index
      (cache.length : Int)).toNat]? = some (some cv))
    (hmatch : ¬ (element_data_offset = cv.offset ∧ vector.timestamp = cv.timestamp)) :
    (libfdata_vector_get_element_value_by_index vector file_io_handle cache element_index
        read_flags).read_calls
      = [libfdata_vector_read_call_of vector file_io_handle cache element_index
          element_data_offset read_flags] := by
  have hindex := (get_element_value_by_index_offset_ok _ _ _ hoffset).1
  have hcache : ¬ (cache.length : Int) ≤ 0 := by
    intro hle
    have hnil : cache = [] := List.length_eq_zero.mp (by omega)
    rw [hnil] at hslot
    simp at hslot
  have hget := libfcache_cache_get_value_by_index_of_slot cache element_index
    (cache.length : Int) (some cv) hindex hslot
  unfold libfdata_vector_get_element_value_by_index libfdata_vector_read_call_of
  cases hcb : vector.read_element_data with
  | none => exact absurd hcb hread
  | some read_element_data =>
    by_cases hflags : read_flags &&& LIBFDATA_READ_FLAG_IGNORE_CACHE = 0
    · simp only [hoffset, libfcache_cache_get_number_of_entries, hcache, if_false,
        libfdata_vector_get_element_value_by_index_lookup, hget, hflags, if_true,
        libfcache_cache_value_get_identifier, hmatch]
      split
      · rfl
      · split
        · rfl
        · split
          · rfl
          · split <;> rfl
    · simp only [hoffset, libfcache_cache_get_number_of_entries, hcache, if_false,
        libfdata_vector_get_element_value_by_index_lookup, hflags, if_true]
      split
      · rfl
      · split
        · rfl
        · split
          · rfl
          · split <;> rfl

theorem get_element_value_by_index_offset_error {H V : Type}
    (vector : libfdata_internal_vector H V) (file_io_handle : Option H)
    (cache : libfcache_cache V) (element_index : Int) (read_flags : Nat)
    (e : libfdata_error)
    (hoffset : libfdata_vector_get_element_value_by_index_offset vector.tolibfdata_vector
      element_index = .error e) :
    (∃ e1, (libfdata_vector_get_element_value_by_index vector file_io_handle cache
        element_index read_flags).result = .error e1)
    ∧ (libfdata_vector_get_element_value_by_index vector file_io_handle cache element_index
        read_flags).read_calls = []
    ∧ (libfdata_vector_get_element_value_by_index vector file_io_handle cache element_index
        read_flags).cache = cache := by
  unfold libfdata_vector_get_element_value_by_index
  cases hcb : vector.read_element_data with
  | none => exact ⟨⟨_, rfl⟩, rfl, rfl⟩
  | some read_element_data =>
    rw [hoffset]
    exact ⟨⟨_, rfl⟩, rfl, rfl⟩

theorem get_element_value_by_index_offset_out_of_bounds {H : Type}
    (vector : libfdata_vector H) (element_index : Int)
    (h : element_index < 0
      ∨ ((vector.data_size : Int) < element_index * (vector.element_size : Int)
        ∧ element_index * (vector.element_size : Int) ≤ INT64_MAX)) :
    ∃ e, libfdata_vector_get_element_value_by_index_offset vector element_index
      = .error e := by
  unfold libfdata_vector_get_element_value_by_index_offset
  by_cases hes : vector.element_size = 0
  · rw [if_pos hes]; exact ⟨_, rfl⟩
  rw [if_neg hes]
  by_cases hdata : vector.data_size = 0 ∨ (vector.data_size : Int) > INT64_MAX
  · rw [if_pos hdata]; exact ⟨_, rfl⟩
  rw [if_neg hdata]
  by_cases hneg : element_index < 0
  · rw [if_pos hneg]; exact ⟨_, rfl⟩
  rw [if_neg hneg]
  rcases h with h | ⟨hlt, hle⟩
  · exact absurd h hneg
  · unfold INT64_MAX at hdata hle
    have hindex : 0 ≤ element_index := not_lt.mp hneg
    have hespos : (1 : Int) ≤ (vector.element_size : Int) := by omega
    have hile : element_index ≤ element_index * (vector.element_size : Int) :=
      le_mul_of_one_le_right hindex hespos
    have hdata1 : (vector.data_size : Int) ≤ 9223372036854775807 := by omega
    have h1 : to_size64 element_index = element_index :=
      to_size64_of_range _ hindex (by omega)
    have h2 : to_size64 (element_index * (vector.element_size : Int))
        = element_index * (vector.element_size : Int) :=
      to_size64_of_range _ (by omega) (by omega)
    have h3 : to_off64 (element_index * (vector.element_size : Int))
        = element_index * (vector.element_size : Int) :=
      to_off64_of_range _ (by omega) (by omega)
    have h4 : to_off64 (vector.data_size : Int) = (vector.data_size : Int) :=
      to_off64_of_range _ (by omega) (by omega)
    rw [h1, h2, h3, h4, if_pos hlt]
    exact ⟨_, rfl⟩

/-- C9, counterexample: with elements of 2^33 bytes, one segment of one element and
element index 2^30, the logical offset 2^30 * 2^33 = 2^63 exceeds the data size 2^33,
but the request is successful and the read callback is invoked (with the offset -2^63,
the 64 bit product converted to `off64_t`). -/
theorem get_element_value_by_index_product_wraps :
    libfdata_vector_get_data_size large_element_vector.tolibfdata_vector = .ok 8589934592
    ∧ ((8589934592 : Nat) : Int)
      < 1073741824 * (large_element_vector.element_size : Int)
    ∧ (libfdata_vector_get_element_value_by_index large_element_vector none [none]
        1073741824 0).result = .ok (-1073741824)
    ∧ (libfdata_vector_get_element_value_by_index large_element_vector none [none]
        1073741824 0).read_calls.map (fun call => call.element_data_offset)
      = [-9223372036854775808] :=
  ⟨rfl, by decide, rfl, rfl⟩

/-- C9, amended: `libfdata_vector_get_element_value_by_index` called with a negative
element index, or with an index whose logical offset `i * element_size` exceeds the data
size and is at most `INT64_MAX`, fails, does not invoke the read callback and leaves the
cache as it was. -/
theorem get_element_value_by_index_rejects_out_of_bounds {H V : Type}
    (vector : libfdata_internal_vector H V) (file_io_handle : Option H)
    (cache : libfcache_cache V) (element_index : Int) (read_flags : Nat)
    (h : element_index < 0
      ∨ ((vector.data_size : Int) < element_index * (vector.element_size : Int)
        ∧ element_index * (vector.element_size : Int) ≤ INT64_MAX)) :
    (∃ e, (libfdata_vector_get_element_value_by_index vector file_io_handle cache
        element_index read_flags).result = .error e)
    ∧ (libfdata_vector_get_element_value_by_index vector file_io_handle cache element_index
        read_flags).read_calls = []
    ∧ (libfdata_vector_get_element_value_by_index vector file_io_handle cache element_index
        read_flags).cache = cache := by
  obtain ⟨e, he⟩ := get_element_value_by_index_offset_out_of_bounds
    vector.tolibfdata_vector element_index h
  exact get_element_value_by_index_offset_error vector file_io_handle cache element_index
    read_flags e he

/-- Witness of the amended C9: element index 3 of the vector with two elements of 512
bytes. -/
theorem get_element_value_by_index_rejects_out_of_bounds_witness :
    (∃ e, (libfdata_vector_get_element_value_by_index one_segment_vector none [none] 3
        0).result = .error e)
    ∧ (libfdata_vector_get_element_value_by_index one_segment_vector none [none] 3
        0).read_calls = []
    ∧ (libfdata_vector_get_element_value_by_index one_segment_vector none [none] 3
        0).cache = [none] :=
  get_element_value_by_index_rejects_out_of_bounds one_segment_vector none [none] 3 0
    (Or.inr ⟨by decide, by decide⟩)

/-- C10, counterexample: the slot holds an entry of source index 5 whose offset and
timestamp are those of element 0 (source index 0 in the segment and in every entry the
vector stores); the request is a hit: it returns the value of the entry and does not
invoke the read callback. -/
theorem get_element_value_by_index_hit_ignores_file_index :
    libfdata_vector_get_segment_by_index one_segment_vector.tolibfdata_vector 0
      = .ok (0, 0, 1024, 0)
    ∧ libfdata_vector_get_element_value_by_index_offset
        one_segment_vector.tolibfdata_vector 0 = .ok 0
    ∧ (libfdata_vector_get_element_value_by_index one_segment_vector none
        [some ⟨5, 0, 7, 42, none, 0⟩] 0 0).result = .ok 42
    ∧ (libfdata_vector_get_element_value_by_index one_segment_vector none
        [some ⟨5, 0, 7, 42, none, 0⟩] 0 0).read_calls = []
    ∧ (5 : Int) ≠ 0 :=
  ⟨rfl, rfl, rfl, rfl, by decide⟩

/-- C10, amended: for a vector with a read callback, a cache of capacity `C > 0` and a
resolvable index `i` whose slot `i mod C` is occupied, a request without the ignore-cache
flag is a hit (it returns the value of the entry, invokes no read callback and leaves
the cache as it was) if and only if the physical offset of the entry equals the physical
offset resolved for `i` and the timestamp of the entry equals the timestamp of the
vector; the source index of the entry is not compared. -/
theorem get_element_value_by_index_hit_iff {H V : Type}
    (vector : libfdata_internal_vector H V) (file_io_handle : Option H)
    (cache : libfcache_cache V) (element_index : Int) (read_flags : Nat)
    (element_data_offset : Int) (cv : libfcache_cache_value V)
    (hread : vector.read_element_data ≠ none)
    (hoffset : libfdata_vector_get_element_value_by_index_offset vector.tolibfdata_vector
      element_index = .ok element_data_offset)
    (hflags : read_flags &&& LIBFDATA_READ_FLAG_IGNORE_CACHE = 0)
    (hslot : cache[(libfdata_vector_calculate_cache_entry_index element_index
      (libfcache_cache_get_number_of_entries cache)).toNat]? = some (some cv)) :
    ((libfdata_vector_get_element_value_by_index vector file_io_handle cache element_index
          read_flags).result = .ok cv.value
      ∧ (libfdata_vector_get_element_value_by_index vector file_io_handle cache
          element_index read_flags).read_calls = []
      ∧ (libfdata_vector_get_element_value_by_index vector file_io_handle cache
          element_index read_flags).cache = cache)
    ↔ (cv.offset = element_data_offset ∧ cv.timestamp = vector.timestamp) := by
  unfold libfcache_cache_get_number_of_entries at hslot
  constructor
  · intro ⟨_, hcalls, _⟩
    by_contra hne
    have hmiss := get_element_value_by_index_miss_occupied vector file_io_handle cache
      element_index read_flags element_data_offset cv hread hoffset hslot
      (fun hm => hne ⟨hm.1.symm, hm.2.symm⟩)
    rw [hmiss] at hcalls
    exact absurd hcalls (by simp)
  · intro hm
    rw [get_element_value_by_index_hit vector file_io_handle cache element_index read_flags
      element_data_offset cv hread hoffset hflags hslot ⟨hm.1.symm, hm.2.symm⟩]
    exact ⟨rfl, rfl, rfl⟩

/-- Witness of the amended C10 on the vector of one segment and a cache of one slot that
holds an entry for another source. -/
theorem get_element_value_by_index_hit_iff_witness :
    ((libfdata_vector_get_element_value_by_index one_segment_vector none
          [some ⟨5, 0, 7, 42, none, 0⟩] 0 0).result
        = .ok (⟨5, 0, 7, 42, none, 0⟩ : libfcache_cache_value Int).value
      ∧ (libfdata_vector_get_element_value_by_index one_segment_vector none
          [some ⟨5, 0, 7, 42, none, 0⟩] 0 0).read_calls = []
      ∧ (libfdata_vector_get_element_value_by_index one_segment_vector none
          [some ⟨5, 0, 7, 42, none, 0⟩] 0 0).cache = [some ⟨5, 0, 7, 42, none, 0⟩])
    ↔ ((⟨5, 0, 7, 42, none, 0⟩ : libfcache_cache_value Int).offset = 0
      ∧ (⟨5, 0, 7, 42, none, 0⟩ : libfcache_cache_value Int).timestamp
        = one_segment_vector.timestamp) :=
  get_element_value_by_index_hit_iff one_segment_vector none [some ⟨5, 0, 7, 42, none, 0⟩]
    0 0 0 ⟨5, 0, 7, 42, none, 0⟩ (by simp [one_segment_vector]) rfl rfl rfl

theorem set_element_value_by_index_ok_iff {H V : Type} (vector : libfdata_vector H)
    (cache : libfcache_cache V) (element_index : Int) (element_value : V)
    (free_element_value : Option (V → Int)) (flags : Nat)
    (cache1 : libfcache_cache V) :
    libfdata_vector_set_element_value_by_index vector cache element_index element_value
        free_element_value flags = .ok cache1
    ↔ ∃ element_data_offset,
        libfdata_vector_set_element_value_by_index_offset vector element_index
          = .ok element_data_offset
        ∧ 0 < cache.length
        ∧ cache1 = cache.set
          (libfdata_vector_calculate_cache_entry_index element_index
            (cache.length : Int)).toNat
          (some ⟨0, element_data_offset, vector.timestamp, element_value,
            free_element_value, flags⟩) := by
  constructor
  · intro h
    cases hoffset : libfdata_vector_set_element_value_by_index_offset vector
        element_index with
    | error e =>
      unfold libfdata_vector_set_element_value_by_index at h
      rw [hoffset] at h
      exact absurd h (by simp)
    | ok element_data_offset =>
      have hindex : 0 ≤ element_index := by
        rw [set_element_value_by_index_offset_eq] at hoffset
        exact (get_element_value_by_index_offset_ok _ _ _ hoffset).1
      by_cases hcache : 0 < cache.length
      · rw [set_element_value_by_index_ok vector cache element_index element_value
          free_element_value flags element_data_offset hoffset hindex hcache] at h
        simp only [Except.ok.injEq] at h
        exact ⟨element_data_offset, rfl, hcache, h.symm⟩
      · unfold libfdata_vector_set_element_value_by_index at h
        rw [hoffset] at h
        simp only [libfcache_cache_get_number_of_entries] at h
        rw [if_pos (by omega)] at h
        exact absurd h (by simp)
  · rintro ⟨element_data_offset, hoffset, hcache, hcache1⟩
    have hindex : 0 ≤ element_index := by
      rw [set_element_value_by_index_offset_eq] at hoffset
      exact (get_element_value_by_index_offset_ok _ _ _ hoffset).1
    rw [hcache1]
    exact set_element_value_by_index_ok vector cache element_index element_value
      free_element_value flags element_data_offset hoffset hindex hcache

/-- C16, counterexample: the only segment of the vector belongs to source 3; after a
successful `libfdata_vector_set_element_value_by_index` for element 0 the entry in slot 0
carries the source index 0. -/
theorem set_element_value_by_index_stamps_file_index_zero :
    libfdata_vector_get_segment_by_index source_three_vector.tolibfdata_vector 0
      = .ok (3, 4096, 512, 1)
    ∧ (libfdata_vector_set_element_value_by_index source_three_vector.tolibfdata_vector
        [none, none] 0 (11 : Int) none 1).toOption.map
        (fun cache1 => cache1.map (fun slot => slot.map (fun cv => cv.file_index)))
      = some [some 0, none]
    ∧ (0 : Int) ≠ 3 :=
  ⟨rfl, rfl, by decide⟩

/-- C16, amended: after every successful `libfdata_vector_set_element_value_by_index` the
slot `i mod C` holds an entry whose identifier is (0, the physical offset resolved for
`i`, the timestamp of the vector) and whose value, free function and flags are those
passed in; the source index of the segment is not stored. -/
theorem set_element_value_by_index_entry {H V : Type} (vector : libfdata_vector H)
    (cache cache1 : libfcache_cache V) (element_index : Int) (element_value : V)
    (free_element_value : Option (V → Int)) (flags : Nat)
    (hset : libfdata_vector_set_element_value_by_index vector cache element_index
      element_value free_element_value flags = .ok cache1) :
    ∃ element_data_offset,
      libfdata_vector_get_element_value_by_index_offset vector element_index
        = .ok element_data_offset
      ∧ libfcache_cache_get_value_by_index cache1
          (libfdata_vector_calculate_cache_entry_index element_index
            (libfcache_cache_get_number_of_entries cache))
        = some (some ⟨0, element_data_offset, vector.timestamp, element_value,
            free_element_value, flags⟩) := by
  obtain ⟨element_data_offset, hoffset, hcache, hcache1⟩ :=
    (set_element_value_by_index_ok_iff vector cache element_index element_value
      free_element_value flags cache1).mp hset
  rw [set_element_value_by_index_offset_eq] at hoffset
  have hindex := (get_element_value_by_index_offset_ok _ _ _ hoffset).1
  have hrange := libfdata_vector_calculate_cache_entry_index_range element_index
    (cache.length : Int) hindex (by omega)
  refine ⟨element_data_offset, hoffset, ?_⟩
  unfold libfcache_cache_get_number_of_entries
  apply libfcache_cache_get_value_by_index_of_slot _ _ _ _ hindex
  rw [hcache1, List.getElem?_set_self (by omega)]

/-- Witness of the amended C16 on the vector whose segment belongs to source 3. -/
theorem set_element_value_by_index_entry_witness :
    ∃ element_data_offset,
      libfdata_vector_get_element_value_by_index_offset
          source_three_vector.tolibfdata_vector 0 = .ok element_data_offset
      ∧ libfcache_cache_get_value_by_index
          ([some ⟨0, 4096, 7, (11 : Int), none, 1⟩, none] : libfcache_cache Int)
          (libfdata_vector_calculate_cache_entry_index 0
            (libfcache_cache_get_number_of_entries ([none, none] : libfcache_cache Int)))
        = some (some ⟨0, element_data_offset, source_three_vector.timestamp, 11, none, 1⟩) :=
  set_element_value_by_index_entry source_three_vector.tolibfdata_vector [none, none]
    [some ⟨0, 4096, 7, (11 : Int), none, 1⟩, none] 0 11 none 1 rfl

/-- C17: for a cache of capacity `C > 0` and an index `i >= 0`, the cache entry index is
`i mod C` and lies in `[0, C)`; a successful
`libfdata_vector_set_element_value_by_index` writes that slot, keeps the capacity and
leaves every other slot unchanged; and the cache lookup of
`libfdata_vector_get_element_value_by_index` reads that slot only: it is the same for two
caches of capacity `C` that agree on the slot. -/
theorem cache_entry_index_slot {H V : Type} (vector : libfdata_internal_vector H V)
    (cache : libfcache_cache V) (element_index : Int)
    (hcache : 0 < libfcache_cache_get_number_of_entries cache)
    (hindex : 0 ≤ element_index) :
    libfdata_vector_calculate_cache_entry_index element_index
        (libfcache_cache_get_number_of_entries cache)
      = element_index % libfcache_cache_get_number_of_entries cache
    ∧ 0 ≤ element_index % libfcache_cache_get_number_of_entries cache
    ∧ element_index % libfcache_cache_get_number_of_entries cache
      < libfcache_cache_get_number_of_entries cache
    ∧ (∀ (element_value : V) (free_element_value : Option (V → Int)) (flags : Nat)
        (cache1 : libfcache_cache V),
        libfdata_vector_set_element_value_by_index vector.tolibfdata_vector cache
          element_index element_value free_element_value flags = .ok cache1 →
        libfcache_cache_get_number_of_entries cache1
          = libfcache_cache_get_number_of_entries cache
        ∧ (∃ cv, libfcache_cache_get_value_by_index cache1
            (element_index % libfcache_cache_get_number_of_entries cache) = some (some cv)
          ∧ cv.value = element_value)
        ∧ (∀ other : Int,
            other ≠ element_index % libfcache_cache_get_number_of_entries cache →
            libfcache_cache_get_value_by_index cache1 other
              = libfcache_cache_get_value_by_index cache other))
    ∧ (∀ (other_cache : libfcache_cache V) (read_flags : Nat) (element_data_offset : Int),
        libfcache_cache_get_value_by_index other_cache
            (element_index % libfcache_cache_get_number_of_entries cache)
          = libfcache_cache_get_value_by_index cache
            (element_index % libfcache_cache_get_number_of_entries cache) →
        libfdata_vector_get_element_value_by_index_lookup vector other_cache element_index
            read_flags (libfcache_cache_get_number_of_entries cache) element_data_offset
          = libfdata_vector_get_element_value_by_index_lookup vector cache element_index
            read_flags (libfcache_cache_get_number_of_entries cache)
            element_data_offset) := by
  unfold libfcache_cache_get_number_of_entries at *
  have hcalc : libfdata_vector_calculate_cache_entry_index element_index
      (cache.length : Int) = element_index % (cache.length : Int) := by
    unfold libfdata_vector_calculate_cache_entry_index
    exact Int.tmod_eq_emod hindex (by omega)
  have hnonneg : 0 ≤ element_index % (cache.length : Int) :=
    Int.emod_nonneg _ (by omega)
  have hlt : element_index % (cache.length : Int) < (cache.length : Int) :=
    Int.emod_lt_of_pos _ hcache
  refine ⟨hcalc, hnonneg, hlt, ?_, ?_⟩
  · intro element_value free_element_value flags cache1 hset
    obtain ⟨element_data_offset, _, _, hcache1⟩ :=
      (set_element_value_by_index_ok_iff vector.tolibfdata_vector cache element_index
        element_value free_element_value flags cache1).mp hset
    rw [hcalc] at hcache1
    subst hcache1
    refine ⟨by simp, ⟨⟨0, element_data_offset, vector.timestamp, element_value,
      free_element_value, flags⟩, ?_, rfl⟩, ?_⟩
    · unfold libfcache_cache_get_value_by_index
      rw [if_neg (by omega), List.getElem?_set_self (by omega)]
    · intro other hother
      unfold libfcache_cache_get_value_by_index
      by_cases hneg : other < 0
      · rw [if_pos hneg, if_pos hneg]
      · rw [if_neg hneg, if_neg hneg, List.getElem?_set_ne (by omega)]
  · intro other_cache read_flags element_data_offset hsame
    unfold libfdata_vector_get_element_value_by_index_lookup
    rw [hcalc, hsame]

/-- Witness of C17: element index 5 and a cache of capacity 4. -/
theorem cache_entry_index_slot_witness :
    libfdata_vector_calculate_cache_entry_index 5
        (libfcache_cache_get_number_of_entries
          ([none, none, none, none] : libfcache_cache Int))
      = 5 % libfcache_cache_get_number_of_entries
          ([none, none, none, none] : libfcache_cache Int) :=
  (cache_entry_index_slot one_segment_vector [none, none, none, none] 5 (by decide)
    (by decide)).1

/-- C18: when the cache reports a capacity of zero or less,
`libfdata_vector_get_element_value_by_index` fails without invoking the read callback
and leaves the cache as it was, and `libfdata_vector_set_element_value_by_index` fails
(an error carries no changed cache). -/
theorem cache_without_entries_fails {H V : Type} (vector : libfdata_internal_vector H V)
    (file_io_handle : Option H) (cache : libfcache_cache V) (element_index : Int)
    (read_flags : Nat) (element_value : V) (free_element_value : Option (V → Int))
    (flags : Nat)
    (hcache : libfcache_cache_get_number_of_entries cache ≤ 0) :
    (∃ e, (libfdata_vector_get_element_value_by_index vector file_io_handle cache
        element_index read_flags).result = .error e)
    ∧ (libfdata_vector_get_element_value_by_index vector file_io_handle cache element_index
        read_flags).read_calls = []
    ∧ (libfdata_vector_get_element_value_by_index vector file_io_handle cache element_index
        read_flags).cache = cache
    ∧ (∃ e, libfdata_vector_set_element_value_by_index vector.tolibfdata_vector cache
        element_index element_value free_element_value flags = .error e) := by
  refine ⟨?_, ?_, ?_, ?_⟩
  · unfold libfdata_vector_get_element_value_by_index
    cases hcb : vector.read_element_data with
    | none => exact ⟨_, rfl⟩
    | some read_element_data =>
      cases hoffset : libfdata_vector_get_element_value_by_index_offset
          vector.tolibfdata_vector element_index with
      | error e => exact ⟨_, rfl⟩
      | ok element_data_offset =>
        simp only [hcache, if_true]
        exact ⟨_, rfl⟩
  · unfold libfdata_vector_get_element_value_by_index
    cases hcb : vector.read_element_data with
    | none => rfl
    | some read_element_data =>
      cases hoffset : libfdata_vector_get_element_value_by_index_offset
          vector.tolibfdata_vector element_index with
      | error e => rfl
      | ok element_data_offset => simp only [hcache, if_true]
  · unfold libfdata_vector_get_element_value_by_index
    cases hcb : vector.read_element_data with
    | none => rfl
    | some read_element_data =>
      cases hoffset : libfdata_vector_get_element_value_by_index_offset
          vector.tolibfdata_vector element_index with
      | error e => rfl
      | ok element_data_offset => simp only [hcache, if_true]
  · unfold libfdata_vector_set_element_value_by_index
    cases hoffset : libfdata_vector_set_element_value_by_index_offset
        vector.tolibfdata_vector element_index with
    | error e => exact ⟨_, rfl⟩
    | ok element_data_offset =>
      simp only [hcache, if_true]
      exact ⟨_, rfl⟩

/-- Witness of C18: the vector of one segment and a cache without slots. -/
theorem cache_without_entries_fails_witness :
    (libfdata_vector_get_element_value_by_index one_segment_vector none [] 0 0).read_calls
      = [] :=
  (cache_without_entries_fails one_segment_vector none [] 0 0 (11 : Int) none 1
    (by decide)).2.1

theorem get_element_value_by_index_eq_read_block {H V : Type}
    (vector : libfdata_internal_vector H V)
    (read_element_data : libfdata_vector_element_data_function H V)
    (file_io_handle : Option H) (cache : libfcache_cache V) (element_index : Int)
    (read_flags : Nat) (element_data_offset : Int)
    (cache_value : Option (libfcache_cache_value V))
    (cache_value_offset cache_value_timestamp : Int)
    (hread : vector.read_element_data = some read_element_data)
    (hoffset : libfdata_vector_get_element_value_by_index_offset vector.tolibfdata_vector
      element_index = .ok element_data_offset)
    (hcache : 0 < cache.length)
    (hlookup : libfdata_vector_get_element_value_by_index_lookup vector cache element_index
      read_flags (libfcache_cache_get_number_of_entries cache) element_data_offset
      = .ok (0, cache_value, cache_value_offset, cache_value_timestamp)) :
    libfdata_vector_get_element_value_by_index vector file_io_handle cache element_index
        read_flags
      = libfdata_vector_get_element_value_by_index_read_block vector read_element_data
          file_io_handle cache element_index read_flags element_data_offset
          cache_value_offset cache_value_timestamp := by
  have hcap : ¬ libfcache_cache_get_number_of_entries cache ≤ 0 := by
    unfold libfcache_cache_get_number_of_entries; omega
  unfold libfdata_vector_get_element_value_by_index
    libfdata_vector_get_element_value_by_index_read_block
  rw [hread]
  simp only [hoffset, hcap, if_false, hlookup, if_true]

theorem get_element_value_by_index_lookup_ignore_cache {H V : Type}
    (vector : libfdata_internal_vector H V) (cache : libfcache_cache V)
    (element_index : Int) (read_flags : Nat) (number_of_cache_entries : Int)
    (element_data_offset : Int)
    (hflags : read_flags &&& LIBFDATA_READ_FLAG_IGNORE_CACHE ≠ 0) :
    libfdata_vector_get_element_value_by_index_lookup vector cache element_index read_flags
        number_of_cache_entries element_data_offset = .ok (0, none, -1, 0) := by
  unfold libfdata_vector_get_element_value_by_index_lookup
  rw [if_neg hflags]

theorem get_element_value_by_index_lookup_slot {H V : Type}
    (vector : libfdata_internal_vector H V) (cache : libfcache_cache V)
    (element_index : Int) (read_flags : Nat) (element_data_offset : Int)
    (slot : Option (libfcache_cache_value V))
    (hindex : 0 ≤ element_index)
    (hflags : read_flags &&& LIBFDATA_READ_FLAG_IGNORE_CACHE = 0)
    (hslot : cache[(libfdata_vector_calculate_cache_entry_index element_index
      (cache.length : Int)).toNat]? = some slot)
    (hmiss : ¬ (element_data_offset = (slot.map (fun cv => cv.offset)).getD (-1)
      ∧ vector.timestamp = (slot.map (fun cv => cv.timestamp)).getD 0)) :
    libfdata_vector_get_element_value_by_index_lookup vector cache element_index read_flags
        (libfcache_cache_get_number_of_entries cache) element_data_offset
      = .ok (0, slot, (slot.map (fun cv => cv.offset)).getD (-1),
          (slot.map (fun cv => cv.timestamp)).getD 0) := by
  have hget := libfcache_cache_get_value_by_index_of_slot cache element_index
    (cache.length : Int) slot hindex hslot
  unfold libfdata_vector_get_element_value_by_index_lookup
    libfcache_cache_get_number_of_entries
  rw [if_pos hflags, hget]
  cases slot with
  | none =>
    simp only [Option.map_none', Option.getD_none] at hmiss ⊢
    rw [if_neg hmiss]
  | some cv =>
    simp only [Option.map_some', Option.getD_some, libfcache_cache_value_get_identifier]
      at hmiss ⊢
    rw [if_neg hmiss]

theorem read_block_read_calls {H V : Type} (vector : libfdata_internal_vector H V)
    (f : libfdata_vector_element_data_function H V) (file_io_handle : Option H)
    (cache : libfcache_cache V) (element_index : Int) (read_flags : Nat)
    (element_data_offset off0 ts0 : Int) :
    (libfdata_vector_get_element_value_by_index_read_block vector f file_io_handle cache
        element_index read_flags element_data_offset off0 ts0).read_calls
      = [libfdata_vector_read_call_of vector file_io_handle cache element_index
          element_data_offset read_flags]
    ∧ (libfdata_vector_get_element_value_by_index_read_block vector f file_io_handle cache
        element_index read_flags element_data_offset off0 ts0).cache
      = (f vector.data_handle file_io_handle vector.tolibfdata_vector cache element_index 0
          element_data_offset vector.element_size 0 read_flags).2 := by
  unfold libfdata_vector_get_element_value_by_index_read_block libfdata_vector_read_call_of
  simp only
  split
  · exact ⟨rfl, rfl⟩
  · split
    · exact ⟨rfl, rfl⟩
    · split
      · exact ⟨rfl, rfl⟩
      · split <;> exact ⟨rfl, rfl⟩

theorem read_block_read_failed {H V : Type} (vector : libfdata_internal_vector H V)
    (f : libfdata_vector_element_data_function H V) (file_io_handle : Option H)
    (cache : libfcache_cache V) (element_index : Int) (read_flags : Nat)
    (element_data_offset off0 ts0 : Int)
    (hfail : (f vector.data_handle file_io_handle vector.tolibfdata_vector cache
      element_index 0 element_data_offset vector.element_size 0 read_flags).1 ≠ 1) :
    (libfdata_vector_get_element_value_by_index_read_block vector f file_io_handle cache
        element_index read_flags element_data_offset off0 ts0).result
      = .error .read_failed := by
  unfold libfdata_vector_get_element_value_by_index_read_block
  simp only [hfail, ne_eq, not_false_eq_true, if_true]

theorem read_block_entry {H V : Type} (vector : libfdata_internal_vector H V)
    (f : libfdata_vector_element_data_function H V) (file_io_handle : Option H)
    (cache : libfcache_cache V) (element_index : Int) (read_flags : Nat)
    (element_data_offset off0 ts0 : Int) (cv : libfcache_cache_value V)
    (hok : (f vector.data_handle file_io_handle vector.tolibfdata_vector cache
      element_index 0 element_data_offset vector.element_size 0 read_flags).1 = 1)
    (hslot : libfcache_cache_get_value_by_index
      (f vector.data_handle file_io_handle vector.tolibfdata_vector cache
        element_index 0 element_data_offset vector.element_size 0 read_flags).2
      (libfdata_vector_calculate_cache_entry_index element_index
        (libfcache_cache_get_number_of_entries cache)) = some (some cv)) :
    (libfdata_vector_get_element_value_by_index_read_block vector f file_io_handle cache
        element_index read_flags element_data_offset off0 ts0).result
      = if cv.offset = element_data_offset ∧ cv.timestamp = vector.timestamp then
          .ok cv.value
        else .error .missing_cache_value := by
  unfold libfdata_vector_get_element_value_by_index_read_block
  simp only [hok, ne_eq, not_true_eq_false, if_false, hslot,
    libfcache_cache_value_get_identifier, libfcache_cache_value_get_value]
  by_cases hm : cv.offset = element_data_offset ∧ cv.timestamp = vector.timestamp
  · rw [if_pos hm, if_neg (by rw [hm.1, hm.2]; simp)]
  · rw [if_neg hm, if_pos]
    by_contra hcon
    apply hm
    constructor
    · by_contra h1; exact hcon (Or.inl (fun h => h1 h.symm))
    · by_contra h2; exact hcon (Or.inr (fun h => h2 h.symm))

theorem read_block_no_entry {H V : Type} (vector : libfdata_internal_vector H V)
    (f : libfdata_vector_element_data_function H V) (file_io_handle : Option H)
    (cache : libfcache_cache V) (element_index : Int) (read_flags : Nat)
    (element_data_offset off0 ts0 : Int)
    (hok : (f vector.data_handle file_io_handle vector.tolibfdata_vector cache
      element_index 0 element_data_offset vector.element_size 0 read_flags).1 = 1)
    (hslot : ∀ cv, libfcache_cache_get_value_by_index
      (f vector.data_handle file_io_handle vector.tolibfdata_vector cache
        element_index 0 element_data_offset vector.element_size 0 read_flags).2
      (libfdata_vector_calculate_cache_entry_index element_index
        (libfcache_cache_get_number_of_entries cache)) ≠ some (some cv)) :
    ∃ e, (libfdata_vector_get_element_value_by_index_read_block vector f file_io_handle
        cache element_index read_flags element_data_offset off0 ts0).result
      = .error e := by
  unfold libfdata_vector_get_element_value_by_index_read_block
  simp only [hok, ne_eq, not_true_eq_false, if_false]
  split
  · exact ⟨_, rfl⟩
  · rename_i cache_value1 heq
    cases cache_value1 with
    | some cv => exact absurd heq (hslot cv)
    | none =>
      simp only [libfcache_cache_value_get_value]
      split <;> exact ⟨_, rfl⟩

theorem get_element_value_by_index_miss_form {H V : Type}
    (vector : libfdata_internal_vector H V) (file_io_handle : Option H)
    (cache : libfcache_cache V) (element_index : Int) (read_flags : Nat)
    (hmiss : (libfdata_vector_get_element_value_by_index vector file_io_handle cache
      element_index read_flags).read_calls ≠ []) :
    ∃ f element_data_offset off0 ts0,
      vector.read_element_data = some f
      ∧ libfdata_vector_get_element_value_by_index_offset vector.tolibfdata_vector
          element_index = .ok element_data_offset
      ∧ 0 < cache.length
      ∧ libfdata_vector_get_element_value_by_index vector file_io_handle cache
          element_index read_flags
        = libfdata_vector_get_element_value_by_index_read_block vector f file_io_handle
            cache element_index read_flags element_data_offset off0 ts0 := by
  cases hcb : vector.read_element_data with
  | none =>
    exfalso; apply hmiss
    unfold libfdata_vector_get_element_value_by_index
    rw [hcb]
  | some f =>
    cases hoffset : libfdata_vector_get_element_value_by_index_offset
        vector.tolibfdata_vector element_index with
    | error e =>
      exact absurd (get_element_value_by_index_offset_error vector file_io_handle cache
        element_index read_flags e hoffset).2.1 hmiss
    | ok element_data_offset =>
      by_cases hcache : 0 < cache.length
      · cases hlookup : libfdata_vector_get_element_value_by_index_lookup vector cache
            element_index read_flags (libfcache_cache_get_number_of_entries cache)
            element_data_offset with
        | error e =>
          exfalso; apply hmiss
          unfold libfdata_vector_get_element_value_by_index
          rw [hcb]
          simp only [hoffset, hlookup]
          split <;> rfl
        | ok found =>
          obtain ⟨result, cache_value, off0, ts0⟩ := found
          by_cases hresult : result = 0
          · subst hresult
            exact ⟨f, element_data_offset, off0, ts0, rfl, rfl, hcache,
              get_element_value_by_index_eq_read_block vector f file_io_handle cache
                element_index read_flags element_data_offset cache_value off0 ts0 hcb
                hoffset hcache hlookup⟩
          · exfalso; apply hmiss
            unfold libfdata_vector_get_element_value_by_index
            rw [hcb]
            simp only [hoffset, hlookup, hresult, if_false]
            split
            · rfl
            · split <;> rfl
      · exfalso; apply hmiss
        unfold libfdata_vector_get_element_value_by_index
        rw [hcb]
        simp only [hoffset, libfcache_cache_get_number_of_entries]
        rw [if_pos (by omega)]

/-- C19: whenever `libfdata_vector_get_element_value_by_index` invokes the read callback
for the index `i`, it does so once, with the data handle of the vector, the file IO
handle of the caller, the same vector and cache, the element index `i`, the source index
0, the resolved element data offset, the element size of the vector, the element flags 0
and the read flags of the caller; the cache the call leaves is the one the callback
leaves for these arguments.  The source index and the flags of the segment do not matter. -/
theorem get_element_value_by_index_read_call {H V : Type}
    (vector : libfdata_internal_vector H V) (file_io_handle : Option H)
    (cache : libfcache_cache V) (element_index : Int) (read_flags : Nat)
    (call : libfdata_vector_read_call H V)
    (hcall : call ∈ (libfdata_vector_get_element_value_by_index vector file_io_handle cache
      element_index read_flags).read_calls) :
    (libfdata_vector_get_element_value_by_index vector file_io_handle cache element_index
        read_flags).read_calls = [call]
    ∧ call.data_handle = vector.data_handle
    ∧ call.file_io_handle = file_io_handle
    ∧ call.vector = vector.tolibfdata_vector
    ∧ call.cache = cache
    ∧ call.element_index = element_index
    ∧ call.element_data_file_index = 0
    ∧ libfdata_vector_get_element_value_by_index_offset vector.tolibfdata_vector
        element_index = .ok call.element_data_offset
    ∧ call.element_data_size = vector.element_size
    ∧ call.element_data_flags = 0
    ∧ call.read_flags = read_flags
    ∧ ∃ f, vector.read_element_data = some f
      ∧ (libfdata_vector_get_element_value_by_index vector file_io_handle cache
          element_index read_flags).cache
        = (f call.data_handle call.file_io_handle call.vector call.cache call.element_index
            call.element_data_file_index call.element_data_offset call.element_data_size
            call.element_data_flags call.read_flags).2 := by
  have hmiss : (libfdata_vector_get_element_value_by_index vector file_io_handle cache
      element_index read_flags).read_calls ≠ [] := by
    intro hnil
    rw [hnil] at hcall
    exact absurd hcall (List.not_mem_nil _)
  obtain ⟨f, element_data_offset, off0, ts0, hread, hoffset, _, hform⟩ :=
    get_element_value_by_index_miss_form vector file_io_handle cache element_index
      read_flags hmiss
  obtain ⟨hcalls, hcache1⟩ := read_block_read_calls vector f file_io_handle cache
    element_index read_flags element_data_offset off0 ts0
  rw [← hform] at hcalls hcache1
  rw [hcalls] at hcall ⊢
  have hcall1 : call = libfdata_vector_read_call_of vector file_io_handle cache
      element_index element_data_offset read_flags := List.mem_singleton.mp hcall
  subst hcall1
  exact ⟨rfl, rfl, rfl, rfl, rfl, rfl, rfl, hoffset, rfl, rfl, rfl, f, hread, hcache1⟩

/-- Witness of C19: the segment of the vector belongs to source 3 and has the flags 1;
element 0 is requested with an empty cache of one slot. -/
theorem get_element_value_by_index_read_call_witness :
    (libfdata_vector_get_element_value_by_index source_three_vector none [none] 0
        0).read_calls
      = [libfdata_vector_read_call_of source_three_vector none [none] 0 4096 0] :=
  (get_element_value_by_index_read_call source_three_vector none [none] 0 0
    (libfdata_vector_read_call_of source_three_vector none [none] 0 4096 0)
    (by
      have h : (libfdata_vector_get_element_value_by_index source_three_vector none [none] 0
          0).read_calls
          = [libfdata_vector_read_call_of source_three_vector none [none] 0 4096 0] := rfl
      rw [h]
      exact List.mem_singleton.mpr rfl)).1

/-- C14: on a miss (the read callback is invoked),
`libfdata_vector_get_element_value_by_index` returns a value if and only if the read
callback returned 1 and the slot `i mod C` of the cache it left holds an entry whose
offset and timestamp are the resolved offset and the timestamp of the vector, and the
value is the value of that entry; the request fails when the callback fails, and when
the callback succeeds but leaves the slot empty or with a non-matching entry. -/
theorem get_element_value_by_index_miss_result {H V : Type}
    (vector : libfdata_internal_vector H V) (file_io_handle : Option H)
    (cache : libfcache_cache V) (element_index : Int) (read_flags : Nat)
    (hmiss : (libfdata_vector_get_element_value_by_index vector file_io_handle cache
      element_index read_flags).read_calls ≠ []) :
    ∃ f element_data_offset,
      vector.read_element_data = some f
      ∧ libfdata_vector_get_element_value_by_index_offset vector.tolibfdata_vector
          element_index = .ok element_data_offset
      ∧ (∀ element_value,
          (libfdata_vector_get_element_value_by_index vector file_io_handle cache
              element_index read_flags).result = .ok element_value
          ↔ ((f vector.data_handle file_io_handle vector.tolibfdata_vector cache
                element_index 0 element_data_offset vector.element_size 0 read_flags).1 = 1
            ∧ ∃ cv, libfcache_cache_get_value_by_index
                  (f vector.data_handle file_io_handle vector.tolibfdata_vector cache
                    element_index 0 element_data_offset vector.element_size 0 read_flags).2
                  (libfdata_vector_calculate_cache_entry_index element_index
                    (libfcache_cache_get_number_of_entries cache)) = some (some cv)
              ∧ cv.offset = element_data_offset ∧ cv.timestamp = vector.timestamp
              ∧ cv.value = element_value))
      ∧ ((f vector.data_handle file_io_handle vector.tolibfdata_vector cache
            element_index 0 element_data_offset vector.element_size 0 read_flags).1 ≠ 1 →
          (libfdata_vector_get_element_value_by_index vector file_io_handle cache
            element_index read_flags).result = .error .read_failed)
      ∧ ((f vector.data_handle file_io_handle vector.tolibfdata_vector cache
            element_index 0 element_data_offset vector.element_size 0 read_flags).1 = 1 →
          (∀ cv, libfcache_cache_get_value_by_index
              (f vector.data_handle file_io_handle vector.tolibfdata_vector cache
                element_index 0 element_data_offset vector.element_size 0 read_flags).2
              (libfdata_vector_calculate_cache_entry_index element_index
                (libfcache_cache_get_number_of_entries cache)) = some (some cv) →
            ¬ (cv.offset = element_data_offset ∧ cv.timestamp = vector.timestamp)) →
          ∃ e, (libfdata_vector_get_element_value_by_index vector file_io_handle cache
            element_index read_flags).result = .error e) := by
  obtain ⟨f, element_data_offset, off0, ts0, hread, hoffset, _, hform⟩ :=
    get_element_value_by_index_miss_form vector file_io_handle cache element_index
      read_flags hmiss
  refine ⟨f, element_data_offset, hread, hoffset, ?_, ?_, ?_⟩
  · intro element_value
    rw [hform]
    by_cases hok : (f vector.data_handle file_io_handle vector.tolibfdata_vector cache
        element_index 0 element_data_offset vector.element_size 0 read_flags).1 = 1
    · by_cases hslot : ∃ cv, libfcache_cache_get_value_by_index
          (f vector.data_handle file_io_handle vector.tolibfdata_vector cache
            element_index 0 element_data_offset vector.element_size 0 read_flags).2
          (libfdata_vector_calculate_cache_entry_index element_index
            (libfcache_cache_get_number_of_entries cache)) = some (some cv)
      · obtain ⟨cv, hcv⟩ := hslot
        rw [read_block_entry vector f file_io_handle cache element_index read_flags
          element_data_offset off0 ts0 cv hok hcv]
        constructor
        · intro h
          by_cases hm : cv.offset = element_data_offset ∧ cv.timestamp = vector.timestamp
          · rw [if_pos hm] at h
            simp only [Except.ok.injEq] at h
            exact ⟨hok, cv, hcv, hm.1, hm.2, h⟩
          · rw [if_neg hm] at h
            exact absurd h (by simp)
        · rintro ⟨_, cv1, hcv1, ho, ht, hv⟩
          rw [hcv] at hcv1
          simp only [Option.some.injEq] at hcv1
          subst hcv1
          rw [if_pos ⟨ho, ht⟩, hv]
      · obtain ⟨e, he⟩ := read_block_no_entry vector f file_io_handle cache element_index
          read_flags element_data_offset off0 ts0 hok
          (fun cv hcv => hslot ⟨cv, hcv⟩)
        rw [he]
        constructor
        · intro h; exact absurd h (by simp)
        · rintro ⟨_, cv, hcv, _⟩; exact absurd ⟨cv, hcv⟩ hslot
    · rw [read_block_read_failed vector f file_io_handle cache element_index read_flags
        element_data_offset off0 ts0 hok]
      constructor
      · intro h; exact absurd h (by simp)
      · rintro ⟨h1, _⟩; exact absurd h1 hok
  · intro hfail
    rw [hform]
    exact read_block_read_failed vector f file_io_handle cache element_index read_flags
      element_data_offset off0 ts0 hfail
  · intro hok hnomatch
    rw [hform]
    by_cases hslot : ∃ cv, libfcache_cache_get_value_by_index
        (f vector.data_handle file_io_handle vector.tolibfdata_vector cache
          element_index 0 element_data_offset vector.element_size 0 read_flags).2
        (libfdata_vector_calculate_cache_entry_index element_index
          (libfcache_cache_get_number_of_entries cache)) = some (some cv)
    · obtain ⟨cv, hcv⟩ := hslot
      rw [read_block_entry vector f file_io_handle cache element_index read_flags
        element_data_offset off0 ts0 cv hok hcv, if_neg (hnomatch cv hcv)]
      exact ⟨_, rfl⟩
    · exact read_block_no_entry vector f file_io_handle cache element_index read_flags
        element_data_offset off0 ts0 hok (fun cv hcv => hslot ⟨cv, hcv⟩)

/-- Witness of C14: element 0 of the vector of one segment is requested with an empty
cache of one slot, which is a miss. -/
theorem get_element_value_by_index_miss_result_witness :
    ∃ f element_data_offset,
      one_segment_vector.read_element_data = some f
      ∧ libfdata_vector_get_element_value_by_index_offset
          one_segment_vector.tolibfdata_vector 0 = .ok element_data_offset :=
  match get_element_value_by_index_miss_result one_segment_vector none [none] 0 0
    (by
      have h : (libfdata_vector_get_element_value_by_index one_segment_vector none [none] 0
          0).read_calls
          = [libfdata_vector_read_call_of one_segment_vector none [none] 0 0 0] := rfl
      rw [h]
      exact List.cons_ne_nil _ _) with
  | ⟨f, element_data_offset, h1, h2, _⟩ => ⟨f, element_data_offset, h1, h2⟩

/-- C20: the validation and the segment walk of
`libfdata_vector_set_element_value_by_index` and of
`libfdata_vector_get_element_value_by_index` give the same result for every vector and
element index; for a vector with a read callback, set is successful exactly when get
(told to ignore the cache) gets as far as invoking the read callback; and the offset set
stamps on the cache entry is the offset get resolves, compares the cache entry with and
passes to the read callback. -/
theorem set_and_get_resolve_alike {H V : Type} (vector : libfdata_internal_vector H V)
    (cache : libfcache_cache V) (element_index : Int)
    (hread : vector.read_element_data ≠ none) :
    libfdata_vector_set_element_value_by_index_offset vector.tolibfdata_vector element_index
      = libfdata_vector_get_element_value_by_index_offset vector.tolibfdata_vector
          element_index
    ∧ (∀ (element_value : V) (free_element_value : Option (V → Int)) (flags : Nat)
        (file_io_handle : Option H) (read_flags : Nat),
        read_flags &&& LIBFDATA_READ_FLAG_IGNORE_CACHE ≠ 0 →
        ((∃ cache1, libfdata_vector_set_element_value_by_index vector.tolibfdata_vector
            cache element_index element_value free_element_value flags = .ok cache1)
          ↔ (libfdata_vector_get_element_value_by_index vector file_io_handle cache
              element_index read_flags).read_calls ≠ []))
    ∧ (∀ (element_value : V) (free_element_value : Option (V → Int)) (flags : Nat)
        (cache1 : libfcache_cache V),
        libfdata_vector_set_element_value_by_index vector.tolibfdata_vector cache
          element_index element_value free_element_value flags = .ok cache1 →
        ∃ cv, libfcache_cache_get_value_by_index cache1
            (libfdata_vector_calculate_cache_entry_index element_index
              (libfcache_cache_get_number_of_entries cache)) = some (some cv)
          ∧ libfdata_vector_get_element_value_by_index_offset vector.tolibfdata_vector
              element_index = .ok cv.offset
          ∧ ∀ (file_io_handle : Option H) (read_flags : Nat),
              ∀ call ∈ (libfdata_vector_get_element_value_by_index vector file_io_handle
                  cache element_index read_flags).read_calls,
                call.element_data_offset = cv.offset) := by
  refine ⟨set_element_value_by_index_offset_eq _ _, ?_, ?_⟩
  · intro element_value free_element_value flags file_io_handle read_flags hflags
    constructor
    · rintro ⟨cache1, hset⟩
      obtain ⟨element_data_offset, hoffset, hcache, _⟩ :=
        (set_element_value_by_index_ok_iff vector.tolibfdata_vector cache element_index
          element_value free_element_value flags cache1).mp hset
      rw [set_element_value_by_index_offset_eq] at hoffset
      rw [get_element_value_by_index_ignore_cache_reads vector file_io_handle cache
        element_index read_flags element_data_offset hread hoffset hcache hflags]
      exact List.cons_ne_nil _ _
    · intro hmiss
      obtain ⟨f, element_data_offset, off0, ts0, _, hoffset, hcache, _⟩ :=
        get_element_value_by_index_miss_form vector file_io_handle cache element_index
          read_flags hmiss
      rw [← set_element_value_by_index_offset_eq] at hoffset
      exact ⟨_, set_element_value_by_index_ok vector.tolibfdata_vector cache element_index
        element_value free_element_value flags element_data_offset hoffset
        (by
          rw [set_element_value_by_index_offset_eq] at hoffset
          exact (get_element_value_by_index_offset_ok _ _ _ hoffset).1) hcache⟩
  · intro element_value free_element_value flags cache1 hset
    obtain ⟨element_data_offset, hoffset, hcache, hcache1⟩ :=
      (set_element_value_by_index_ok_iff vector.tolibfdata_vector cache element_index
        element_value free_element_value flags cache1).mp hset
    rw [set_element_value_by_index_offset_eq] at hoffset
    have hindex := (get_element_value_by_index_offset_ok _ _ _ hoffset).1
    have hrange := libfdata_vector_calculate_cache_entry_index_range element_index
      (cache.length : Int) hindex (by omega)
    refine ⟨⟨0, element_data_offset, vector.timestamp, element_value, free_element_value,
      flags⟩, ?_, hoffset, ?_⟩
    · unfold libfcache_cache_get_number_of_entries
      apply libfcache_cache_get_value_by_index_of_slot _ _ _ _ hindex
      rw [hcache1, List.getElem?_set_self (by omega)]
    · intro file_io_handle read_flags call hcall
      rcases get_element_value_by_index_read_calls vector file_io_handle cache element_index
        read_flags with hnil | ⟨offset, hoff, hone⟩
      · rw [hnil] at hcall
        exact absurd hcall (List.not_mem_nil _)
      · rw [hone] at hcall
        rw [hoffset] at hoff
        simp only [Except.ok.injEq] at hoff
        simp only [List.mem_singleton] at hcall
        rw [hcall, hoff]

/-- Witness of C20 on the vector whose segment belongs to source 3. -/
theorem set_and_get_resolve_alike_witness :
    libfdata_vector_set_element_value_by_index_offset source_three_vector.tolibfdata_vector 0
      = libfdata_vector_get_element_value_by_index_offset
          source_three_vector.tolibfdata_vector 0 :=
  (set_and_get_resolve_alike source_three_vector ([none] : libfcache_cache Int) 0
    (by simp [source_three_vector])).1

/-! ## Lemmas on requests with a populating read callback -/

theorem populating_read_element_data_apply {H V : Type} (produce : Int → Int → V)
    (free_element_value : Option (V → Int)) (value_flags : Nat)
    (data_handle file_io_handle : Option H) (vector : libfdata_vector H)
    (cache : libfcache_cache V) (element_index element_data_file_index : Int)
    (element_data_offset : Int) (element_data_size element_data_flags read_flags : Nat)
    (hoffset : libfdata_vector_get_element_value_by_index_offset vector element_index
      = .ok element_data_offset)
    (hcache : 0 < cache.length) :
    libfdata_vector_populating_read_element_data produce free_element_value value_flags
        data_handle file_io_handle vector cache element_index element_data_file_index
        element_data_offset element_data_size element_data_flags read_flags
      = (1, cache.set
          (libfdata_vector_calculate_cache_entry_index element_index
            (cache.length : Int)).toNat
          (some ⟨0, element_data_offset, vector.timestamp,
            produce element_index element_data_offset, free_element_value,
            value_flags⟩)) := by
  have hindex := (get_element_value_by_index_offset_ok _ _ _ hoffset).1
  unfold libfdata_vector_populating_read_element_data
  rw [set_element_value_by_index_ok vector cache element_index _ free_element_value
    value_flags element_data_offset
    (by rw [set_element_value_by_index_offset_eq]; exact hoffset) hindex hcache]

theorem fdata_test_vector_read_element_data_eq {H V : Type} (ELEMENT_DATA_SIZE : Nat)
    (encode : Int → V) :
    (fdata_test_vector_read_element_data ELEMENT_DATA_SIZE encode
      : libfdata_vector_element_data_function H V)
      = libfdata_vector_populating_read_element_data
          (fun _ element_data_offset =>
            encode (Int.tdiv element_data_offset (ELEMENT_DATA_SIZE : Int)))
          (some fdata_test_vector_element_data_free)
          LIBFDATA_VECTOR_ELEMENT_VALUE_FLAG_MANAGED := rfl

theorem get_element_value_by_index_populating_miss {H V : Type}
    (vector : libfdata_internal_vector H V) (produce : Int → Int → V)
    (free_element_value : Option (V → Int)) (value_flags : Nat)
    (file_io_handle : Option H) (cache : libfcache_cache V) (element_index : Int)
    (read_flags : Nat) (element_data_offset : Int)
    (cache_value : Option (libfcache_cache_value V)) (off0 ts0 : Int)
    (hread : vector.read_element_data
      = some (libfdata_vector_populating_read_element_data produce free_element_value
          value_flags))
    (hoffset : libfdata_vector_get_element_value_by_index_offset vector.tolibfdata_vector
      element_index = .ok element_data_offset)
    (hcache : 0 < cache.length)
    (hlookup : libfdata_vector_get_element_value_by_index_lookup vector cache element_index
      read_flags (libfcache_cache_get_number_of_entries cache) element_data_offset
      = .ok (0, cache_value, off0, ts0)) :
    (libfdata_vector_get_element_value_by_index vector file_io_handle cache element_index
        read_flags).result = .ok (produce element_index element_data_offset)
    ∧ (libfdata_vector_get_element_value_by_index vector file_io_handle cache element_index
        read_flags).cache
      = cache.set
          (libfdata_vector_calculate_cache_entry_index element_index
            (cache.length : Int)).toNat
          (some ⟨0, element_data_offset, vector.timestamp,
            produce element_index element_data_offset, free_element_value, value_flags⟩)
    ∧ (libfdata_vector_get_element_value_by_index vector file_io_handle cache element_index
        read_flags).read_calls
      = [libfdata_vector_read_call_of vector file_io_handle cache element_index
          element_data_offset read_flags] := by
  have hindex := (get_element_value_by_index_offset_ok _ _ _ hoffset).1
  have hrange := libfdata_vector_calculate_cache_entry_index_range element_index
    (cache.length : Int) hindex (by omega)
  have happly := populating_read_element_data_apply produce free_element_value value_flags
    vector.data_handle file_io_handle vector.tolibfdata_vector cache element_index 0
    element_data_offset vector.element_size 0 read_flags hoffset hcache
  rw [get_element_value_by_index_eq_read_block vector _ file_io_handle cache element_index
    read_flags element_data_offset cache_value off0 ts0 hread hoffset hcache hlookup]
  obtain ⟨hcalls, hcache1⟩ := read_block_read_calls vector
    (libfdata_vector_populating_read_element_data produce free_element_value value_flags)
    file_io_handle cache element_index read_flags element_data_offset off0 ts0
  refine ⟨?_, ?_, hcalls⟩
  · rw [read_block_entry vector _ file_io_handle cache element_index read_flags
      element_data_offset off0 ts0
      ⟨0, element_data_offset, vector.timestamp, produce element_index element_data_offset,
        free_element_value, value_flags⟩
      (by rw [happly])
      (by
        rw [happly]
        unfold libfcache_cache_get_number_of_entries
        apply libfcache_cache_get_value_by_index_of_slot _ _ _ _ hindex
        rw [List.getElem?_set_self (by omega)])]
    rw [if_pos ⟨rfl, rfl⟩]
  · rw [hcache1, happly]

theorem get_element_value_by_index_empty_slot {H V : Type}
    (vector : libfdata_internal_vector H V) (file_io_handle : Option H)
    (cache : libfcache_cache V) (element_index : Int) (read_flags : Nat)
    (element_data_offset : Int)
    (hread : vector.read_element_data ≠ none)
    (hoffset : libfdata_vector_get_element_value_by_index_offset vector.tolibfdata_vector
      element_index = .ok element_data_offset)
    (hflags : read_flags &&& LIBFDATA_READ_FLAG_IGNORE_CACHE = 0)
    (hslot : cache[(libfdata_vector_calculate_cache_entry_index element_index
      (cache.length : Int)).toNat]? = some none)
    (hsentinel : element_data_offset = -1 ∧ vector.timestamp = 0) :
    libfdata_vector_get_element_value_by_index vector file_io_handle cache element_index
        read_flags = ⟨.error .get_element_value_failed, cache, []⟩ := by
  have hindex := (get_element_value_by_index_offset_ok _ _ _ hoffset).1
  have hcache : ¬ (cache.length : Int) ≤ 0 := by
    intro hle
    have hnil : cache = [] := List.length_eq_zero.mp (by omega)
    rw [hnil] at hslot
    simp at hslot
  have hget := libfcache_cache_get_value_by_index_of_slot cache element_index
    (cache.length : Int) none hindex hslot
  unfold libfdata_vector_get_element_value_by_index
  cases hcb : vector.read_element_data with
  | none => exact absurd hcb hread
  | some read_element_data =>
    simp only [hoffset, libfcache_cache_get_number_of_entries, hcache, if_false,
      libfdata_vector_get_element_value_by_index_lookup, hflags, if_true, hget,
      hsentinel, and_self, libfcache_cache_value_get_value]
    simp

theorem cache_entry_index_add_capacity (element_index : Int) (number_of_cache_entries : Int)
    (hindex : 0 ≤ element_index) (hnumber : 0 < number_of_cache_entries) :
    libfdata_vector_calculate_cache_entry_index (element_index + number_of_cache_entries)
        number_of_cache_entries
      = libfdata_vector_calculate_cache_entry_index element_index
          number_of_cache_entries := by
  unfold libfdata_vector_calculate_cache_entry_index
  rw [Int.tmod_eq_emod (by omega) (by omega), Int.tmod_eq_emod hindex (by omega),
    Int.add_emod_self]

theorem get_element_value_by_index_populating_cases {H V : Type}
    (vector : libfdata_internal_vector H V) (produce : Int → Int → V)
    (free_element_value : Option (V → Int)) (value_flags : Nat)
    (file_io_handle : Option H) (cache : libfcache_cache V) (element_index : Int)
    (read_flags : Nat) (element_data_offset : Int)
    (hread : vector.read_element_data
      = some (libfdata_vector_populating_read_element_data produce free_element_value
          value_flags))
    (hoffset : libfdata_vector_get_element_value_by_index_offset vector.tolibfdata_vector
      element_index = .ok element_data_offset)
    (hcache : 0 < cache.length)
    (hflags : read_flags &&& LIBFDATA_READ_FLAG_IGNORE_CACHE = 0) :
    (∃ cv, cache[(libfdata_vector_calculate_cache_entry_index element_index
          (cache.length : Int)).toNat]? = some (some cv)
        ∧ element_data_offset = cv.offset ∧ vector.timestamp = cv.timestamp
        ∧ libfdata_vector_get_element_value_by_index vector file_io_handle cache
            element_index read_flags = ⟨.ok cv.value, cache, []⟩)
    ∨ (cache[(libfdata_vector_calculate_cache_entry_index element_index
          (cache.length : Int)).toNat]? = some none
        ∧ element_data_offset = -1 ∧ vector.timestamp = 0
        ∧ libfdata_vector_get_element_value_by_index vector file_io_handle cache
            element_index read_flags = ⟨.error .get_element_value_failed, cache, []⟩)
    ∨ ((∃ slot, cache[(libfdata_vector_calculate_cache_entry_index element_index
            (cache.length : Int)).toNat]? = some slot
          ∧ ¬ (element_data_offset = (slot.map (fun cv => cv.offset)).getD (-1)
            ∧ vector.timestamp = (slot.map (fun cv => cv.timestamp)).getD 0))
        ∧ (libfdata_vector_get_element_value_by_index vector file_io_handle cache
            element_index read_flags).result
          = .ok (produce element_index element_data_offset)
        ∧ (libfdata_vector_get_element_value_by_index vector file_io_handle cache
            element_index read_flags).cache
          = cache.set
              (libfdata_vector_calculate_cache_entry_index element_index
                (cache.length : Int)).toNat
              (some ⟨0, element_data_offset, vector.timestamp,
                produce element_index element_data_offset, free_element_value,
                value_flags⟩)
        ∧ (libfdata_vector_get_element_value_by_index vector file_io_handle cache
            element_index read_flags).read_calls
          = [libfdata_vector_read_call_of vector file_io_handle cache element_index
              element_data_offset read_flags]) := by
  have hindex := (get_element_value_by_index_offset_ok _ _ _ hoffset).1
  have hne : vector.read_element_data ≠ none := by rw [hread]; simp
  obtain ⟨slot, hslot, _⟩ := libfcache_cache_get_value_by_index_slot cache element_index
    hindex hcache
  by_cases hm : element_data_offset = (slot.map (fun cv => cv.offset)).getD (-1)
      ∧ vector.timestamp = (slot.map (fun cv => cv.timestamp)).getD 0
  · cases slot with
    | none =>
      simp only [Option.map_none', Option.getD_none] at hm
      exact Or.inr (Or.inl ⟨hslot, hm.1, hm.2,
        get_element_value_by_index_empty_slot vector file_io_handle cache element_index
          read_flags element_data_offset hne hoffset hflags hslot hm⟩)
    | some cv =>
      simp only [Option.map_some', Option.getD_some] at hm
      exact Or.inl ⟨cv, hslot, hm.1, hm.2,
        get_element_value_by_index_hit vector file_io_handle cache element_index read_flags
          element_data_offset cv hne hoffset hflags hslot hm⟩
  · exact Or.inr (Or.inr ⟨⟨slot, hslot, hm⟩,
      get_element_value_by_index_populating_miss vector produce free_element_value
        value_flags file_io_handle cache element_index read_flags element_data_offset slot
        _ _ hread hoffset hcache
        (get_element_value_by_index_lookup_slot vector cache element_index read_flags
          element_data_offset slot hindex hflags hslot hm)⟩)

theorem get_element_value_by_index_populating_after {H V : Type}
    (vector : libfdata_internal_vector H V) (produce : Int → Int → V)
    (free_element_value : Option (V → Int)) (value_flags : Nat)
    (file_io_handle : Option H) (cache : libfcache_cache V) (element_index : Int)
    (read_flags : Nat) (element_data_offset : Int)
    (hread : vector.read_element_data
      = some (libfdata_vector_populating_read_element_data produce free_element_value
          value_flags))
    (hoffset : libfdata_vector_get_element_value_by_index_offset vector.tolibfdata_vector
      element_index = .ok element_data_offset)
    (hcache : 0 < cache.length)
    (hflags : read_flags &&& LIBFDATA_READ_FLAG_IGNORE_CACHE = 0) :
    (libfdata_vector_get_element_value_by_index vector file_io_handle cache element_index
        read_flags).cache.length = cache.length
    ∧ ∃ slot1,
        (libfdata_vector_get_element_value_by_index vector file_io_handle cache
            element_index read_flags).cache[(libfdata_vector_calculate_cache_entry_index
              element_index (cache.length : Int)).toNat]? = some slot1
        ∧ (slot1.map (fun cv => cv.offset)).getD (-1) = element_data_offset
        ∧ (slot1.map (fun cv => cv.timestamp)).getD 0 = vector.timestamp := by
  have hindex := (get_element_value_by_index_offset_ok _ _ _ hoffset).1
  have hrange := libfdata_vector_calculate_cache_entry_index_range element_index
    (cache.length : Int) hindex (by omega)
  rcases get_element_value_by_index_populating_cases vector produce free_element_value
    value_flags file_io_handle cache element_index read_flags element_data_offset hread
    hoffset hcache hflags with ⟨cv, hslot, ho, ht, hget⟩ | ⟨hslot, ho, ht, hget⟩
      | ⟨_, _, hcache1, _⟩
  · rw [hget]
    exact ⟨rfl, some cv, hslot, ho.symm, ht.symm⟩
  · rw [hget]
    exact ⟨rfl, none, hslot, ho.symm, ht.symm⟩
  · rw [hcache1]
    refine ⟨List.length_set _ _ _, _, List.getElem?_set_self (by omega), rfl, rfl⟩

/-- C15: for a vector with a read callback, a resolvable index `i` and a cache of
capacity `C > 0` in any state, a request whose read flags contain
`LIBFDATA_READ_FLAG_IGNORE_CACHE` invokes the read callback exactly once; with a callback
that populates the cache through `libfdata_vector_set_element_value_by_index`, that
request returns the value the callback produced, and a following request for `i` without
the flag is a hit: it returns the same value, invokes no callback and leaves the cache
as it is. -/
theorem get_element_value_by_index_ignore_cache {H V : Type}
    (vector : libfdata_internal_vector H V)
    (f : libfdata_vector_element_data_function H V)
    (file_io_handle : Option H) (cache : libfcache_cache V) (element_index : Int)
    (read_flags next_read_flags : Nat) (element_data_offset : Int)
    (hread : vector.read_element_data = some f)
    (hoffset : libfdata_vector_get_element_value_by_index_offset vector.tolibfdata_vector
      element_index = .ok element_data_offset)
    (hcache : 0 < libfcache_cache_get_number_of_entries cache)
    (hflags : read_flags &&& LIBFDATA_READ_FLAG_IGNORE_CACHE ≠ 0)
    (hnext : next_read_flags &&& LIBFDATA_READ_FLAG_IGNORE_CACHE = 0) :
    (libfdata_vector_get_element_value_by_index vector file_io_handle cache element_index
        read_flags).read_calls.length = 1
    ∧ ∀ (produce : Int → Int → V) (free_element_value : Option (V → Int))
        (value_flags : Nat),
        f = libfdata_vector_populating_read_element_data produce free_element_value
          value_flags →
        (libfdata_vector_get_element_value_by_index vector file_io_handle cache
            element_index read_flags).result
          = .ok (produce element_index element_data_offset)
        ∧ libfdata_vector_get_element_value_by_index vector file_io_handle
            (libfdata_vector_get_element_value_by_index vector file_io_handle cache
              element_index read_flags).cache element_index next_read_flags
          = ⟨.ok (produce element_index element_data_offset),
              (libfdata_vector_get_element_value_by_index vector file_io_handle cache
                element_index read_flags).cache, []⟩ := by
  unfold libfcache_cache_get_number_of_entries at hcache
  have hcache1 : 0 < cache.length := by omega
  have hindex := (get_element_value_by_index_offset_ok _ _ _ hoffset).1
  have hrange := libfdata_vector_calculate_cache_entry_index_range element_index
    (cache.length : Int) hindex hcache
  have hne : vector.read_element_data ≠ none := by rw [hread]; simp
  refine ⟨?_, ?_⟩
  · rw [get_element_value_by_index_ignore_cache_reads vector file_io_handle cache
      element_index read_flags element_data_offset hne hoffset hcache1 hflags]
    rfl
  · intro produce free_element_value value_flags hf
    subst hf
    obtain ⟨hresult, hcache2, _⟩ := get_element_value_by_index_populating_miss vector
      produce free_element_value value_flags file_io_handle cache element_index read_flags
      element_data_offset none (-1) 0 hread hoffset hcache1
      (get_element_value_by_index_lookup_ignore_cache vector cache element_index read_flags
        _ element_data_offset hflags)
    refine ⟨hresult, ?_⟩
    rw [hcache2]
    exact get_element_value_by_index_hit vector file_io_handle _ element_index
      next_read_flags element_data_offset
      ⟨0, element_data_offset, vector.timestamp, produce element_index element_data_offset,
        free_element_value, value_flags⟩ hne hoffset hnext
      (by rw [List.length_set, List.getElem?_set_self (by omega)]) ⟨rfl, rfl⟩

/-- Witness of C15: element 0 of the vector of one segment, requested with the
ignore-cache flag while the slot already holds a matching entry. -/
theorem get_element_value_by_index_ignore_cache_witness :
    (libfdata_vector_get_element_value_by_index one_segment_vector none
        [some ⟨0, 0, 7, 42, none, 0⟩] 0 1).read_calls.length = 1 :=
  (get_element_value_by_index_ignore_cache one_segment_vector
    (fdata_test_vector_read_element_data 512 (fun n => n)) none
    [some ⟨0, 0, 7, 42, none, 0⟩] 0 1 0 0 rfl rfl (by decide) (by decide) (by decide)).1

/-- C12, counterexample: after a first request of element 0 the slot holds a matching
entry; requesting element 0 twice in a row from that cache invokes the read callback
zero times in total. -/
theorem get_element_value_by_index_twice_no_read :
    (libfdata_vector_get_element_value_by_index one_segment_vector none [none] 0 0).cache
      = [some ⟨0, 0, 7, 0, some fdata_test_vector_element_data_free, 1⟩]
    ∧ (libfdata_vector_get_element_value_by_index one_segment_vector none
        [some ⟨0, 0, 7, 0, some fdata_test_vector_element_data_free, 1⟩] 0 0).read_calls.length
      + (libfdata_vector_get_element_value_by_index one_segment_vector none
          (libfdata_vector_get_element_value_by_index one_segment_vector none
            [some ⟨0, 0, 7, 0, some fdata_test_vector_element_data_free, 1⟩] 0 0).cache 0
          0).read_calls.length = 0 :=
  ⟨rfl, rfl⟩

/-- C12, amended: for a vector whose read callback populates the cache through
`libfdata_vector_set_element_value_by_index`, a cache of capacity `C > 0` and a
resolvable index `i`, two requests of `i` in a row without the ignore-cache flag invoke
the read callback at most once in total: the second request invokes no callback, leaves
the cache as it is and has the result of the first; the first request invokes the
callback exactly once (and returns the value it produced) when the slot `i mod C` did not
match beforehand, and not at all when the slot held a matching entry. -/
theorem get_element_value_by_index_twice {H V : Type}
    (vector : libfdata_internal_vector H V) (produce : Int → Int → V)
    (free_element_value : Option (V → Int)) (value_flags : Nat)
    (file_io_handle : Option H) (cache : libfcache_cache V) (element_index : Int)
    (read_flags : Nat) (element_data_offset : Int)
    (hread : vector.read_element_data
      = some (libfdata_vector_populating_read_element_data produce free_element_value
          value_flags))
    (hoffset : libfdata_vector_get_element_value_by_index_offset vector.tolibfdata_vector
      element_index = .ok element_data_offset)
    (hcache : 0 < libfcache_cache_get_number_of_entries cache)
    (hflags : read_flags &&& LIBFDATA_READ_FLAG_IGNORE_CACHE = 0) :
    (libfdata_vector_get_element_value_by_index vector file_io_handle
        (libfdata_vector_get_element_value_by_index vector file_io_handle cache
          element_index read_flags).cache element_index read_flags).read_calls = []
    ∧ (libfdata_vector_get_element_value_by_index vector file_io_handle
        (libfdata_vector_get_element_value_by_index vector file_io_handle cache
          element_index read_flags).cache element_index read_flags).result
      = (libfdata_vector_get_element_value_by_index vector file_io_handle cache
          element_index read_flags).result
    ∧ (libfdata_vector_get_element_value_by_index vector file_io_handle
        (libfdata_vector_get_element_value_by_index vector file_io_handle cache
          element_index read_flags).cache element_index read_flags).cache
      = (libfdata_vector_get_element_value_by_index vector file_io_handle cache
          element_index read_flags).cache
    ∧ (libfdata_vector_get_element_value_by_index vector file_io_handle cache
        element_index read_flags).read_calls.length ≤ 1
    ∧ (∀ slot, libfcache_cache_get_value_by_index cache
          (libfdata_vector_calculate_cache_entry_index element_index
            (libfcache_cache_get_number_of_entries cache)) = some slot →
        ¬ (element_data_offset = (slot.map (fun cv => cv.offset)).getD (-1)
          ∧ vector.timestamp = (slot.map (fun cv => cv.timestamp)).getD 0) →
        (libfdata_vector_get_element_value_by_index vector file_io_handle cache
            element_index read_flags).read_calls.length = 1
        ∧ (libfdata_vector_get_element_value_by_index vector file_io_handle cache
            element_index read_flags).result
          = .ok (produce element_index element_data_offset))
    ∧ (∀ cv, libfcache_cache_get_value_by_index cache
          (libfdata_vector_calculate_cache_entry_index element_index
            (libfcache_cache_get_number_of_entries cache)) = some (some cv) →
        element_data_offset = cv.offset → vector.timestamp = cv.timestamp →
        (libfdata_vector_get_element_value_by_index vector file_io_handle cache
            element_index read_flags).read_calls = []
        ∧ (libfdata_vector_get_element_value_by_index vector file_io_handle cache
            element_index read_flags).result = .ok cv.value) := by
  unfold libfcache_cache_get_number_of_entries at *
  have hcache1 : 0 < cache.length := by omega
  have hindex := (get_element_value_by_index_offset_ok _ _ _ hoffset).1
  have hrange := libfdata_vector_calculate_cache_entry_index_range element_index
    (cache.length : Int) hindex hcache
  have hne : vector.read_element_data ≠ none := by rw [hread]; simp
  have hgetslot : ∀ slot, libfcache_cache_get_value_by_index cache
      (libfdata_vector_calculate_cache_entry_index element_index (cache.length : Int))
        = some slot →
      cache[(libfdata_vector_calculate_cache_entry_index element_index
        (cache.length : Int)).toNat]? = some slot := by
    intro slot h
    unfold libfcache_cache_get_value_by_index at h
    rw [if_neg (by omega)] at h
    exact h
  rcases get_element_value_by_index_populating_cases vector produce free_element_value
    value_flags file_io_handle cache element_index read_flags element_data_offset hread
    hoffset hcache1 hflags with ⟨cv, hslot, ho, ht, hget⟩ | ⟨hslot, ho, ht, hget⟩
      | ⟨⟨slot, hslot, hm⟩, hresult, hcache2, hcalls⟩
  · rw [hget]
    simp only
    rw [hget]
    refine ⟨rfl, rfl, rfl, by simp, ?_, ?_⟩
    · intro slot1 hslot1 hmiss
      rw [hgetslot slot1 hslot1] at hslot
      simp only [Option.some.injEq] at hslot
      subst hslot
      exact absurd ⟨ho, ht⟩ hmiss
    · intro cv1 hslot1 _ _
      rw [hgetslot _ hslot1] at hslot
      simp only [Option.some.injEq] at hslot
      subst hslot
      constructor <;> first | rfl | trivial
  · rw [hget]
    simp only
    rw [hget]
    refine ⟨rfl, rfl, rfl, by simp, ?_, ?_⟩
    · intro slot1 hslot1 hmiss
      rw [hgetslot slot1 hslot1] at hslot
      simp only [Option.some.injEq] at hslot
      subst hslot
      exact absurd ⟨ho, ht⟩ hmiss
    · intro cv1 hslot1 _ _
      rw [hgetslot _ hslot1] at hslot
      exact absurd hslot (by simp)
  · have hsecond := get_element_value_by_index_hit vector file_io_handle
      (cache.set (libfdata_vector_calculate_cache_entry_index element_index
          (cache.length : Int)).toNat
        (some ⟨0, element_data_offset, vector.timestamp,
          produce element_index element_data_offset, free_element_value, value_flags⟩))
      element_index read_flags element_data_offset
      ⟨0, element_data_offset, vector.timestamp, produce element_index element_data_offset,
        free_element_value, value_flags⟩ hne hoffset hflags
      (by rw [List.length_set, List.getElem?_set_self (by omega)]) ⟨rfl, rfl⟩
    rw [hcache2, hsecond, hresult, hcalls]
    refine ⟨rfl, rfl, rfl, by simp, ?_, ?_⟩
    · intro _ _ _
      exact ⟨rfl, rfl⟩
    · intro cv1 hslot1 ho ht
      rw [hgetslot _ hslot1] at hslot
      simp only [Option.some.injEq] at hslot
      subst hslot
      exact absurd ⟨ho, ht⟩ hm

/-- Witness of the amended C12: element 0 of the vector of one segment is requested
twice, starting with an empty cache of one slot. -/
theorem get_element_value_by_index_twice_witness :
    (libfdata_vector_get_element_value_by_index one_segment_vector none
        (libfdata_vector_get_element_value_by_index one_segment_vector none [none] 0
          0).cache 0 0).read_calls = [] :=
  (get_element_value_by_index_twice one_segment_vector
    (fun _ element_data_offset => Int.tdiv element_data_offset ((512 : Nat) : Int))
    (some fdata_test_vector_element_data_free) LIBFDATA_VECTOR_ELEMENT_VALUE_FLAG_MANAGED
    none [none] 0 0 0 rfl rfl (by decide) (by decide)).1

/-- C11, counterexample: both segments of the vector start at the physical offset 0 of
source 0, so the elements 0 and 1 resolve to the same location; with a cache of capacity
1 and a callback that stores the element index, requesting element 0 and then element
`0 + 1` does not invoke the read callback for the second request, which returns the
cached value 0 of element 0. -/
theorem get_element_value_by_index_collision_hit :
    libfdata_vector_get_element_value_by_index_offset
        aliased_segments_vector.tolibfdata_vector 0 = .ok 0
    ∧ libfdata_vector_get_element_value_by_index_offset
        aliased_segments_vector.tolibfdata_vector (0 + 1) = .ok 0
    ∧ (libfdata_vector_get_element_value_by_index aliased_segments_vector none [none] 0
        0).result = .ok 0
    ∧ (libfdata_vector_get_element_value_by_index aliased_segments_vector none
        (libfdata_vector_get_element_value_by_index aliased_segments_vector none [none] 0
          0).cache (0 + 1) 0).read_calls = []
    ∧ (libfdata_vector_get_element_value_by_index aliased_segments_vector none
        (libfdata_vector_get_element_value_by_index aliased_segments_vector none [none] 0
          0).cache (0 + 1) 0).result = .ok 0 :=
  ⟨rfl, rfl, rfl, rfl, rfl⟩

/-- C11, amended: for a vector whose read callback populates the cache through
`libfdata_vector_set_element_value_by_index`, a cache of capacity `C > 0` and resolvable
indices `i` and `i + C` whose resolved physical offsets differ, requesting element `i`
and then element `i + C` without the ignore-cache flag invokes the read callback for the
second request, and the value returned for `i + C` is the one the callback produced for
`i + C`. -/
theorem get_element_value_by_index_collision {H V : Type}
    (vector : libfdata_internal_vector H V) (produce : Int → Int → V)
    (free_element_value : Option (V → Int)) (value_flags : Nat)
    (file_io_handle : Option H) (cache : libfcache_cache V) (element_index : Int)
    (read_flags : Nat) (element_data_offset next_element_data_offset : Int)
    (hread : vector.read_element_data
      = some (libfdata_vector_populating_read_element_data produce free_element_value
          value_flags))
    (hoffset : libfdata_vector_get_element_value_by_index_offset vector.tolibfdata_vector
      element_index = .ok element_data_offset)
    (hnext : libfdata_vector_get_element_value_by_index_offset vector.tolibfdata_vector
      (element_index + libfcache_cache_get_number_of_entries cache)
      = .ok next_element_data_offset)
    (hdiffer : element_data_offset ≠ next_element_data_offset)
    (hcache : 0 < libfcache_cache_get_number_of_entries cache)
    (hflags : read_flags &&& LIBFDATA_READ_FLAG_IGNORE_CACHE = 0) :
    (libfdata_vector_get_element_value_by_index vector file_io_handle
        (libfdata_vector_get_element_value_by_index vector file_io_handle cache
          element_index read_flags).cache
        (element_index + libfcache_cache_get_number_of_entries cache)
        read_flags).read_calls
      = [libfdata_vector_read_call_of vector file_io_handle
          (libfdata_vector_get_element_value_by_index vector file_io_handle cache
            element_index read_flags).cache
          (element_index + libfcache_cache_get_number_of_entries cache)
          next_element_data_offset read_flags]
    ∧ (libfdata_vector_get_element_value_by_index vector file_io_handle
        (libfdata_vector_get_element_value_by_index vector file_io_handle cache
          element_index read_flags).cache
        (element_index + libfcache_cache_get_number_of_entries cache)
        read_flags).result
      = .ok (produce (element_index + libfcache_cache_get_number_of_entries cache)
          next_element_data_offset) := by
  unfold libfcache_cache_get_number_of_entries at *
  have hcache1 : 0 < cache.length := by omega
  have hindex := (get_element_value_by_index_offset_ok _ _ _ hoffset).1
  obtain ⟨hlength, slot1, hslot1, hoff1, _⟩ :=
    get_element_value_by_index_populating_after vector produce free_element_value
      value_flags file_io_handle cache element_index read_flags element_data_offset hread
      hoffset hcache1 hflags
  have hlookup := get_element_value_by_index_lookup_slot vector
    (libfdata_vector_get_element_value_by_index vector file_io_handle cache
      element_index read_flags).cache
    (element_index + (cache.length : Int)) read_flags next_element_data_offset slot1
    (by omega) hflags
    (by
      rw [hlength, cache_entry_index_add_capacity element_index _ hindex hcache]
      exact hslot1)
    (by
      rw [hoff1]
      intro h
      exact hdiffer h.1.symm)
  obtain ⟨hresult, _, hcalls⟩ := get_element_value_by_index_populating_miss vector produce
    free_element_value value_flags file_io_handle
    (libfdata_vector_get_element_value_by_index vector file_io_handle cache
      element_index read_flags).cache
    (element_index + (cache.length : Int)) read_flags next_element_data_offset slot1 _ _
    hread hnext (by omega) hlookup
  exact ⟨hcalls, hresult⟩

/-- Witness of the amended C11: the elements 0 and 1 of the vector of one segment of two
elements, with a cache of one slot. -/
theorem get_element_value_by_index_collision_witness :
    (libfdata_vector_get_element_value_by_index one_segment_vector none
        (libfdata_vector_get_element_value_by_index one_segment_vector none [none] 0
          0).cache
        (0 + libfcache_cache_get_number_of_entries ([none] : libfcache_cache Int))
        0).result
      = .ok ((fun (_ : Int) (element_data_offset : Int) =>
          Int.tdiv element_data_offset ((512 : Nat) : Int))
          (0 + libfcache_cache_get_number_of_entries ([none] : libfcache_cache Int)) 512) :=
  (get_element_value_by_index_collision one_segment_vector
    (fun _ element_data_offset => Int.tdiv element_data_offset ((512 : Nat) : Int))
    (some fdata_test_vector_element_data_free) LIBFDATA_VECTOR_ELEMENT_VALUE_FLAG_MANAGED
    none [none] 0 0 0 512 rfl rfl rfl (by decide) (by decide) (by decide)).2

/-! ## The read test -/

theorem fdata_test_vector_read_step {H V : Type} (vector : libfdata_internal_vector H V)
    (ELEMENT_DATA_SIZE : Nat) (encode : Int → V) (cache : libfcache_cache V)
    (element_index : Int)
    (hread : vector.read_element_data
      = some (fdata_test_vector_read_element_data ELEMENT_DATA_SIZE encode))
    (hsize : 0 < ELEMENT_DATA_SIZE)
    (hindex : 0 ≤ element_index)
    (hoffset : libfdata_vector_get_element_value_by_index_offset vector.tolibfdata_vector
      element_index = .ok (element_index * (ELEMENT_DATA_SIZE : Int)))
    (hcache : 0 < cache.length)
    (hbelow : ∀ (j : Nat) (cv : libfcache_cache_value V), cache[j]? = some (some cv) →
      cv.offset < element_index * (ELEMENT_DATA_SIZE : Int)) :
    (libfdata_vector_get_element_value_by_index vector none cache element_index 0).result
      = .ok (encode element_index)
    ∧ 0 < (libfdata_vector_get_element_value_by_index vector none cache element_index
        0).cache.length
    ∧ ∀ (j : Nat) (cv : libfcache_cache_value V),
        (libfdata_vector_get_element_value_by_index vector none cache element_index
          0).cache[j]? = some (some cv) →
        cv.offset < (element_index + 1) * (ELEMENT_DATA_SIZE : Int) := by
  have hsizepos : (0 : Int) < (ELEMENT_DATA_SIZE : Int) := by omega
  have hp0 : 0 ≤ element_index * (ELEMENT_DATA_SIZE : Int) :=
    mul_nonneg hindex (le_of_lt hsizepos)
  have hnext : element_index * (ELEMENT_DATA_SIZE : Int)
      < (element_index + 1) * (ELEMENT_DATA_SIZE : Int) := by
    rw [add_mul, one_mul]; omega
  have hdiv : Int.tdiv (element_index * (ELEMENT_DATA_SIZE : Int))
      (ELEMENT_DATA_SIZE : Int) = element_index :=
    Int.mul_tdiv_cancel _ (ne_of_gt hsizepos)
  rw [fdata_test_vector_read_element_data_eq] at hread
  rcases get_element_value_by_index_populating_cases vector _ _ _ none cache element_index
    0 (element_index * (ELEMENT_DATA_SIZE : Int)) hread hoffset hcache (by decide)
    with ⟨cv, hslot, ho, _, _⟩ | ⟨_, ho, _, _⟩ | ⟨_, hresult, hcache1, _⟩
  · have := hbelow _ cv hslot
    omega
  · omega
  · refine ⟨?_, ?_, ?_⟩
    · rw [hresult, hdiv]
    · rw [hcache1, List.length_set]; exact hcache
    · intro j cv hj
      rw [hcache1, List.getElem?_set] at hj
      split at hj
      · split at hj
        · simp only [Option.some.injEq] at hj
          rw [← hj]
          exact hnext
        · exact absurd hj (by simp)
      · have := hbelow j cv hj
        omega

theorem fdata_test_vector_read_loop_ok {H V : Type} (vector : libfdata_internal_vector H V)
    (ELEMENT_DATA_SIZE : Nat) (MAXIMUM_NUMBER_OF_ELEMENTS : Nat) (encode : Int → V)
    (decode : V → Int)
    (hread : vector.read_element_data
      = some (fdata_test_vector_read_element_data ELEMENT_DATA_SIZE encode))
    (hsize : 0 < ELEMENT_DATA_SIZE)
    (hcodec : ∀ n : Int, 0 ≤ n → n < MAXIMUM_NUMBER_OF_ELEMENTS → decode (encode n) = n)
    (hresolve : ∀ element_index : Int, 0 ≤ element_index →
      element_index < MAXIMUM_NUMBER_OF_ELEMENTS →
      libfdata_vector_get_element_value_by_index_offset vector.tolibfdata_vector
        element_index = .ok (element_index * (ELEMENT_DATA_SIZE : Int))) :
    ∀ (remaining : Nat) (element_index : Int) (cache : libfcache_cache V) (result : Int),
      0 ≤ element_index →
      element_index + (remaining : Int) = (MAXIMUM_NUMBER_OF_ELEMENTS : Int) →
      0 < cache.length →
      (∀ (j : Nat) (cv : libfcache_cache_value V), cache[j]? = some (some cv) →
        cv.offset < element_index * (ELEMENT_DATA_SIZE : Int)) →
      fdata_test_vector_read_loop decode vector remaining element_index cache result
        = if remaining = 0 then result else 1 := by
  intro remaining
  induction remaining with
  | zero => intro element_index cache result _ _ _ _; rfl
  | succ remaining ih =>
    intro element_index cache result hindex hsum hcache hbelow
    obtain ⟨hresult, hcache1, hbelow1⟩ := fdata_test_vector_read_step vector
      ELEMENT_DATA_SIZE encode cache element_index hread hsize hindex
      (hresolve element_index hindex (by omega)) hcache hbelow
    unfold fdata_test_vector_read_loop
    rw [hresult]
    simp only [hcodec element_index hindex (by omega), if_true]
    rw [ih (element_index + 1) _ 1 (by omega) (by push_cast at hsum ⊢; omega) hcache1
      hbelow1]
    simp

theorem fdata_test_vector_resolve {H : Type} (vector : libfdata_vector H)
    (ELEMENT_DATA_SIZE : Nat) (MAXIMUM_NUMBER_OF_ELEMENTS : Nat) (segment_flags : Nat)
    (hsize : 0 < ELEMENT_DATA_SIZE)
    (helement : vector.element_size = ELEMENT_DATA_SIZE)
    (hdata : vector.data_size = MAXIMUM_NUMBER_OF_ELEMENTS * ELEMENT_DATA_SIZE)
    (hsegments : vector.segments_array
      = [some ⟨0, 0, MAXIMUM_NUMBER_OF_ELEMENTS * ELEMENT_DATA_SIZE, segment_flags⟩])
    (hmax : ((MAXIMUM_NUMBER_OF_ELEMENTS * ELEMENT_DATA_SIZE : Nat) : Int) ≤ INT64_MAX)
    (element_index : Int) (hindex : 0 ≤ element_index)
    (hlt : element_index < MAXIMUM_NUMBER_OF_ELEMENTS) :
    libfdata_vector_get_element_value_by_index_offset vector element_index
      = .ok (element_index * (ELEMENT_DATA_SIZE : Int)) := by
  have hsizepos : (0 : Int) < (ELEMENT_DATA_SIZE : Int) := by omega
  have hp0 : 0 ≤ element_index * (ELEMENT_DATA_SIZE : Int) :=
    mul_nonneg hindex (le_of_lt hsizepos)
  have hplt : element_index * (ELEMENT_DATA_SIZE : Int)
      < (MAXIMUM_NUMBER_OF_ELEMENTS : Int) * (ELEMENT_DATA_SIZE : Int) :=
    mul_lt_mul_of_pos_right hlt hsizepos
  have hcast : ((MAXIMUM_NUMBER_OF_ELEMENTS * ELEMENT_DATA_SIZE : Nat) : Int)
      = (MAXIMUM_NUMBER_OF_ELEMENTS : Int) * (ELEMENT_DATA_SIZE : Int) := by push_cast; rfl
  unfold INT64_MAX at hmax
  have hrange : to_off64 (element_index * (ELEMENT_DATA_SIZE : Int))
      = element_index * (ELEMENT_DATA_SIZE : Int) :=
    to_off64_of_range _ (by omega) (by omega)
  have h := get_element_value_by_index_offset_resolve vector element_index 0
    ⟨0, 0, MAXIMUM_NUMBER_OF_ELEMENTS * ELEMENT_DATA_SIZE, segment_flags⟩
    (by rw [helement]; omega)
    (by rw [hdata, hsegments]; simp [libfdata_segments_size])
    (by rw [hdata]; unfold INT64_MAX; exact hmax) hindex
    (by rw [hsegments]; rfl)
    (fun j hj => absurd hj (Nat.not_lt_zero j))
    (by rw [helement]; simp [libfdata_segments_size]; exact hp0)
    (by rw [helement]; simp [libfdata_segments_size]; rw [← hcast] at hplt; exact_mod_cast hplt)
  rw [h, helement]
  simp only [List.take_zero, libfdata_segments_size, Nat.cast_zero, sub_zero, add_zero]
  rw [hrange]

/-- C1: for every element size `es > 0`, number of elements `N >= 1` and cache capacity
`C >= 1` for which the segment of `N * es` bytes can be appended to the freshly
initialized vector, and every encoding of the element numbers below `N` that `decode`
inverts, the read test returns 1: each of the requests for the elements `0, 1, ..,
N - 1`, made in this order, is successful and returns a value that decodes to the index
of the element. -/
theorem fdata_test_vector_read_passes {V : Type} (ELEMENT_DATA_SIZE : Nat)
    (MAXIMUM_NUMBER_OF_ELEMENTS : Nat) (cache_entries : Int) (timestamp : Int)
    (encode : Int → V) (decode : V → Int)
    (hsize : 0 < ELEMENT_DATA_SIZE)
    (hnumber : 1 ≤ MAXIMUM_NUMBER_OF_ELEMENTS)
    (hcache : 1 ≤ cache_entries)
    (hcodec : ∀ n : Int, 0 ≤ n → n < MAXIMUM_NUMBER_OF_ELEMENTS → decode (encode n) = n)
    (hsegment : ∃ appended, libfdata_vector_append_segment
      (libfdata_vector_fresh ELEMENT_DATA_SIZE timestamp 0 (none : Option Unit)) 0 0
      (MAXIMUM_NUMBER_OF_ELEMENTS * ELEMENT_DATA_SIZE) 0 = .ok appended) :
    fdata_test_vector_read ELEMENT_DATA_SIZE MAXIMUM_NUMBER_OF_ELEMENTS cache_entries
      timestamp encode decode = 1 := by
  have hmax : ¬ ((MAXIMUM_NUMBER_OF_ELEMENTS * ELEMENT_DATA_SIZE : Nat) : Int)
      > INT64_MAX := by
    intro hgt
    obtain ⟨appended, happended⟩ := hsegment
    rw [libfdata_vector_append_segment_eq, if_pos hgt] at happended
    exact absurd happended (by simp)
  have hlt : MAXIMUM_NUMBER_OF_ELEMENTS * ELEMENT_DATA_SIZE < 18446744073709551616 := by
    unfold INT64_MAX at hmax; omega
  unfold fdata_test_vector_read libfdata_vector_initialize libfdata_cache_initialize
  simp only [Nat.pos_iff_ne_zero.mp hsize, if_false, libfdata_vector_append_segment_eq, hmax,
    not_le.mpr (lt_of_lt_of_le zero_lt_one hcache)]
  rw [fdata_test_vector_read_loop_ok _ ELEMENT_DATA_SIZE MAXIMUM_NUMBER_OF_ELEMENTS encode
    decode rfl hsize hcodec
    (fun element_index hindex hbelow =>
      fdata_test_vector_resolve _ ELEMENT_DATA_SIZE MAXIMUM_NUMBER_OF_ELEMENTS 0 hsize rfl
        (by simp only [Nat.zero_add]; exact Nat.mod_eq_of_lt hlt)
        (by simp)
        (by unfold INT64_MAX at hmax ⊢; omega) element_index hindex hbelow)
    MAXIMUM_NUMBER_OF_ELEMENTS 0 _ 0 (le_refl 0) (by omega)
    (by rw [List.length_replicate]; omega)
    (by
      intro j cv hj
      rw [List.getElem?_replicate] at hj
      split at hj <;> exact absurd hj (by simp))]
  rw [if_neg (by omega)]

/-- Witness of C1: the values of the test, element size 512, 1024 elements and a cache of
4 slots. -/
theorem fdata_test_vector_read_passes_witness :
    fdata_test_vector_read 512 1024 4 7 (fun n => n) (fun v => v) = 1 :=
  fdata_test_vector_read_passes 512 1024 4 7 (fun n => n) (fun v => v) (by decide)
    (by decide) (by decide) (fun _ _ _ => rfl) ⟨_, rfl⟩

/-! ## Construction, destruction and cloning -/

/-- C21: `libfdata_vector_get_number_of_elements` returns `data_size / element_size`
whenever the element size is not zero and that quotient is at most `INT_MAX`, and it
fails (an error carries no number of elements) exactly when the element size is zero or
the quotient exceeds `INT_MAX`. -/
theorem get_number_of_elements_result {H : Type} (vector : libfdata_vector H) :
    (vector.element_size ≠ 0 →
      ((vector.data_size / vector.element_size : Nat) : Int) ≤ INT_MAX →
      libfdata_vector_get_number_of_elements vector
        = .ok ((vector.data_size / vector.element_size : Nat) : Int))
    ∧ ((∃ e, libfdata_vector_get_number_of_elements vector = .error e)
      ↔ (vector.element_size = 0
        ∨ ((vector.data_size / vector.element_size : Nat) : Int) > INT_MAX)) := by
  unfold libfdata_vector_get_number_of_elements
  by_cases hes : vector.element_size = 0
  · rw [if_pos hes]
    exact ⟨fun h => absurd hes h, fun _ => Or.inl hes, fun _ => ⟨_, rfl⟩⟩
  · rw [if_neg hes]
    by_cases hq : ((vector.data_size / vector.element_size : Nat) : Int) > INT_MAX
    · rw [if_pos hq]
      exact ⟨fun _ h => absurd hq (not_lt.mpr h), fun _ => Or.inr hq, fun _ => ⟨_, rfl⟩⟩
    · rw [if_neg hq]
      refine ⟨fun _ _ => rfl, fun h => ?_, fun h => ?_⟩
      · obtain ⟨e, he⟩ := h
        exact absurd he (by simp)
      · rcases h with h | h
        · exact absurd h hes
        · exact absurd h hq

/-- Witness of C21: a vector of 1024 bytes with elements of 512 bytes has 2 elements,
and a vector with element size 0 has no number of elements. -/
theorem get_number_of_elements_result_witness :
    libfdata_vector_get_number_of_elements two_segment_vector
      = .ok ((two_segment_vector.data_size / two_segment_vector.element_size : Nat) : Int)
    ∧ ∃ e, libfdata_vector_get_number_of_elements
        (⟨0, 1024, 7, 0, none, []⟩ : libfdata_vector Unit) = .error e :=
  ⟨(get_number_of_elements_result two_segment_vector).1 (by decide) (by decide),
    (get_number_of_elements_result (⟨0, 1024, 7, 0, none, []⟩ : libfdata_vector Unit)).2.mpr
      (Or.inl rfl)⟩

/-- C22: `libfdata_vector_initialize` fails (an error carries no vector: the reference
is not written) for every call with an element size of 0, for every call whose
reference is already set and for every call with a NULL reference, and it is successful
in every other case; the three calls of the test program have the expected results. -/
theorem initialize_fails_iff {H V : Type}
    (vector : Option (Option (libfdata_internal_vector H V)))
    (element_size : Nat) (data_handle : Option H) (free_data_handle : Option (H → Int))
    (clone_data_handle : Option (H → Int × Option H))
    (read_element_data write_element_data : Option (libfdata_vector_element_data_function H V))
    (flags : Nat) (timestamp : Int) :
    ((∃ e, libfdata_vector_initialize vector element_size data_handle free_data_handle
        clone_data_handle read_element_data write_element_data flags timestamp = .error e)
      ↔ (element_size = 0 ∨ vector = none ∨ ∃ existing, vector = some (some existing)))
    ∧ ((∃ created, libfdata_vector_initialize vector element_size data_handle
        free_data_handle clone_data_handle read_element_data write_element_data flags
        timestamp = .ok created)
      ↔ (element_size ≠ 0 ∧ vector = some none))
    ∧ fdata_test_vector_initialize 512 (some none) 1 timestamp = 1
    ∧ (∀ existing, fdata_test_vector_initialize 512 (some (some existing)) (-1) timestamp = 1)
    ∧ fdata_test_vector_initialize 512 none (-1) timestamp = 1 := by
  refine ⟨?_, ?_, ?_, fun _ => rfl, rfl⟩
  rotate_left 2
  · simp [ fdata_test_vector_initialize, libfdata_vector_initialize, libfdata_vector_free,
      libcdata_array_free, LIBFDATA_FLAG_DATA_HANDLE_MANAGED]
  · cases vector with
    | none =>
      exact ⟨fun _ => Or.inr (Or.inl rfl), fun _ => ⟨_, rfl⟩⟩
    | some reference =>
      cases reference with
      | some existing =>
        exact ⟨fun _ => Or.inr (Or.inr ⟨existing, rfl⟩), fun _ => ⟨_, rfl⟩⟩
      | none =>
        unfold libfdata_vector_initialize
        by_cases hes : element_size = 0
        · rw [if_pos hes]
          exact ⟨fun _ => Or.inl hes, fun _ => ⟨_, rfl⟩⟩
        · rw [if_neg hes]
          constructor
          · rintro ⟨e, he⟩
            exact absurd he (by simp)
          · rintro (h | h | ⟨existing, h⟩)
            · exact absurd h hes
            · exact absurd h (by simp)
            · exact absurd h (by simp)
  · cases vector with
    | none =>
      constructor
      · rintro ⟨created, h⟩
        exact absurd h (by simp [ libfdata_vector_initialize])
      · rintro ⟨_, h⟩
        exact absurd h (by simp)
    | some reference =>
      cases reference with
      | some existing =>
        constructor
        · rintro ⟨created, h⟩
          exact absurd h (by simp [ libfdata_vector_initialize])
        · rintro ⟨_, h⟩
          exact absurd h (by simp)
      | none =>
        unfold libfdata_vector_initialize
        by_cases hes : element_size = 0
        · rw [if_pos hes]
          constructor
          · rintro ⟨created, h⟩
            exact absurd h (by simp)
          · rintro ⟨h, _⟩
            exact absurd hes h
        · rw [if_neg hes]
          exact ⟨fun _ => ⟨hes, rfl⟩, fun _ => ⟨_, rfl⟩⟩

/-- C23: a vector created by a successful `libfdata_vector_initialize` has no segments,
a data size of 0, the element size, data handle, flags and four callbacks of the call and
the timestamp of its creation; it has 0 segments and 0 elements. -/
theorem initialize_creates_empty_vector {H V : Type} (element_size : Nat)
    (data_handle : Option H) (free_data_handle : Option (H → Int))
    (clone_data_handle : Option (H → Int × Option H))
    (read_element_data write_element_data : Option (libfdata_vector_element_data_function H V))
    (flags : Nat) (timestamp : Int)
    (vector : Option (Option (libfdata_internal_vector H V)))
    (created : libfdata_internal_vector H V)
    (hinit : libfdata_vector_initialize vector element_size data_handle free_data_handle
      clone_data_handle read_element_data write_element_data flags timestamp = .ok created) :
    created.segments_array = []
    ∧ created.data_size = 0
    ∧ created.element_size = element_size
    ∧ created.data_handle = data_handle
    ∧ created.flags = flags
    ∧ created.timestamp = timestamp
    ∧ created.free_data_handle = free_data_handle
    ∧ created.clone_data_handle = clone_data_handle
    ∧ created.read_element_data = read_element_data
    ∧ created.write_element_data = write_element_data
    ∧ libfdata_vector_get_number_of_segments created.tolibfdata_vector = .ok 0
    ∧ libfdata_vector_get_data_size created.tolibfdata_vector = .ok 0
    ∧ libfdata_vector_get_element_size created.tolibfdata_vector = .ok element_size
    ∧ libfdata_vector_get_number_of_elements created.tolibfdata_vector = .ok 0 := by
  cases vector with
  | none => exact absurd hinit (by simp [ libfdata_vector_initialize])
  | some reference =>
    cases reference with
    | some existing => exact absurd hinit (by simp [ libfdata_vector_initialize])
    | none =>
      unfold libfdata_vector_initialize at hinit
      by_cases hes : element_size = 0
      · simp [hes] at hinit
      · rw [if_neg hes] at hinit
        simp only [Except.ok.injEq] at hinit
        subst hinit
        refine ⟨rfl, rfl, rfl, rfl, Nat.zero_or flags, rfl, rfl, rfl, rfl, rfl, rfl, rfl, rfl,
          ?_⟩
        simp [libfdata_vector_get_number_of_elements, hes, INT_MAX]

/-- Witness of C23: the vector of the read test. -/
theorem initialize_creates_empty_vector_witness :
    example_vector0.segments_array = [] ∧ example_vector0.data_size = 0 :=
  ⟨(initialize_creates_empty_vector 512 none none none none none 0 7 (some none)
      example_vector0 rfl).1,
    (initialize_creates_empty_vector 512 none none none none none 0 7 (some none)
      example_vector0 rfl).2.1⟩

/-- The vector a successful `libfdata_vector_initialize` creates. -/
theorem libfdata_vector_initialize_created {H V : Type}
    (vector : Option (Option (libfdata_internal_vector H V)))
    (element_size : Nat) (data_handle : Option H) (free_data_handle : Option (H → Int))
    (clone_data_handle : Option (H → Int × Option H))
    (read_element_data write_element_data : Option (libfdata_vector_element_data_function H V))
    (flags : Nat) (timestamp : Int) (created : libfdata_internal_vector H V)
    (hinit : libfdata_vector_initialize vector element_size data_handle free_data_handle
      clone_data_handle read_element_data write_element_data flags timestamp = .ok created) :
    element_size ≠ 0
    ∧ created = ⟨⟨element_size, 0, timestamp, flags, data_handle, []⟩, free_data_handle,
        clone_data_handle, read_element_data, write_element_data⟩ := by
  cases vector with
  | none => exact absurd hinit (by simp [ libfdata_vector_initialize])
  | some reference =>
    cases reference with
    | some existing => exact absurd hinit (by simp [ libfdata_vector_initialize])
    | none =>
      unfold libfdata_vector_initialize at hinit
      by_cases hes : element_size = 0
      · simp [hes] at hinit
      · rw [if_neg hes] at hinit
        simp only [Except.ok.injEq] at hinit
        subst hinit
        refine ⟨hes, ?_⟩
        rw [Nat.zero_or]

/-- C24 (as stated): the vector created for element size 512 with a data handle, no
`free_data_handle` callback and the flag `LIBFDATA_FLAG_DATA_HANDLE_MANAGED` is created
successfully, and the immediately following `libfdata_vector_free` fails (it does reset
the reference to NULL). -/
theorem initialize_then_free_fails :
    libfdata_vector_initialize (some none) 512 (some ()) none none none none
        LIBFDATA_FLAG_DATA_HANDLE_MANAGED 7 = .ok managed_handle_vector
    ∧ (libfdata_vector_free (some (some managed_handle_vector))).result
        = .error .missing_free_data_handle
    ∧ (libfdata_vector_free (some (some managed_handle_vector))).vector = some none :=
  ⟨rfl, rfl, rfl⟩

/-- C24 (amended): for every argument combination for which `libfdata_vector_initialize`
succeeds, an immediately following `libfdata_vector_free` resets the reference to NULL,
and it succeeds exactly when it is not the case that the flag
`LIBFDATA_FLAG_DATA_HANDLE_MANAGED` is set, the data handle is not NULL and the
`free_data_handle` callback is absent or returns a value other than 1. -/
theorem initialize_then_free {H V : Type}
    (vector : Option (Option (libfdata_internal_vector H V)))
    (element_size : Nat) (data_handle : Option H) (free_data_handle : Option (H → Int))
    (clone_data_handle : Option (H → Int × Option H))
    (read_element_data write_element_data : Option (libfdata_vector_element_data_function H V))
    (flags : Nat) (timestamp : Int) (created : libfdata_internal_vector H V)
    (hinit : libfdata_vector_initialize vector element_size data_handle free_data_handle
      clone_data_handle read_element_data write_element_data flags timestamp = .ok created) :
    (libfdata_vector_free (some (some created))).vector = some none
    ∧ ((libfdata_vector_free (some (some created))).result = .ok ()
      ↔ ¬ (flags &&& LIBFDATA_FLAG_DATA_HANDLE_MANAGED ≠ 0
          ∧ ∃ handle, data_handle = some handle
            ∧ (free_data_handle = none
              ∨ ∃ callback, free_data_handle = some callback ∧ callback handle ≠ 1))) := by
  obtain ⟨_, hcreated⟩ := libfdata_vector_initialize_created vector element_size data_handle
    free_data_handle clone_data_handle read_element_data write_element_data flags timestamp
    created hinit
  subst hcreated
  unfold libfdata_vector_free
  simp only [libcdata_array_free]
  by_cases hflag : flags &&& LIBFDATA_FLAG_DATA_HANDLE_MANAGED ≠ 0
  · rw [if_pos hflag]
    cases data_handle with
    | none =>
      refine ⟨rfl, fun _ => ?_, fun _ => rfl⟩
      rintro ⟨_, handle, h, _⟩
      exact absurd h (by simp)
    | some handle =>
      cases free_data_handle with
      | none =>
        refine ⟨rfl, fun h => absurd h (by simp), fun h => ?_⟩
        exact absurd ⟨hflag, handle, rfl, Or.inl rfl⟩ h
      | some callback =>
        by_cases hcall : callback handle ≠ 1
        · simp only []
          rw [if_pos hcall]
          refine ⟨rfl, fun h => absurd h (by simp), fun h => ?_⟩
          exact absurd ⟨hflag, handle, rfl, Or.inr ⟨callback, rfl, hcall⟩⟩ h
        · simp only []
          rw [if_neg hcall]
          refine ⟨rfl, fun _ => ?_, fun _ => rfl⟩
          rintro ⟨_, handle1, h1, h2⟩
          rcases h2 with h2 | ⟨callback1, h2, h3⟩
          · exact absurd h2 (by simp)
          · simp only [Option.some.injEq] at h1 h2
            subst h1
            subst h2
            exact hcall h3
  · rw [if_neg hflag]
    exact ⟨rfl, fun _ h => hflag h.1, fun _ => rfl⟩

/-- Witness of C24 (amended): the vector of the read test is created and freed. -/
theorem initialize_then_free_witness :
    (libfdata_vector_free (some (some example_vector0))).vector = some none :=
  (initialize_then_free (some none) 512 none none none none none 0 7 example_vector0 rfl).1

/-- C25 (as stated): a vector with the flag `LIBFDATA_FLAG_DATA_HANDLE_MANAGED` set, no
`free_data_handle` callback and a NULL data handle is freed successfully. -/
theorem free_without_callback_and_handle_succeeds :
    managed_null_handle_vector.flags &&& LIBFDATA_FLAG_DATA_HANDLE_MANAGED ≠ 0
    ∧ managed_null_handle_vector.free_data_handle = none
    ∧ (libfdata_vector_free (some (some managed_null_handle_vector))).result = .ok () :=
  ⟨by decide, rfl, rfl⟩

/-- C25 (amended): `libfdata_vector_free` reports failure for every vector whose flag
`LIBFDATA_FLAG_DATA_HANDLE_MANAGED` is set, whose data handle is not NULL and whose
`free_data_handle` callback is absent; it still frees the segments array and the vector
and resets the reference to NULL. -/
theorem free_reports_missing_free_data_handle {H V : Type}
    (internal_vector : libfdata_internal_vector H V) (handle : H)
    (hflag : internal_vector.flags &&& LIBFDATA_FLAG_DATA_HANDLE_MANAGED ≠ 0)
    (hhandle : internal_vector.data_handle = some handle)
    (hfree : internal_vector.free_data_handle = none) :
    (libfdata_vector_free (some (some internal_vector))).result
      = .error .missing_free_data_handle
    ∧ (libfdata_vector_free (some (some internal_vector))).vector = some none
    ∧ (libfdata_vector_free (some (some internal_vector))).effects
      = [.array_free internal_vector.segments_array, .memory_free] := by
  unfold libfdata_vector_free
  simp only [libcdata_array_free]
  rw [if_pos hflag]
  rw [hhandle, hfree]
  exact ⟨rfl, rfl, rfl⟩

/-- Witness of C25 (amended): the vector that owns a data handle without a callback. -/
theorem free_reports_missing_free_data_handle_witness :
    (libfdata_vector_free (some (some managed_handle_vector))).result
      = .error .missing_free_data_handle
    ∧ (libfdata_vector_free (some (some managed_handle_vector))).vector = some none
    ∧ (libfdata_vector_free (some (some managed_handle_vector))).effects
      = [.array_free managed_handle_vector.segments_array, .memory_free] :=
  free_reports_missing_free_data_handle managed_handle_vector () (by decide) rfl rfl

/-- C26: `libfdata_vector_free` invokes the `free_data_handle` callback on the data
handle of the vector exactly once when the flag `LIBFDATA_FLAG_DATA_HANDLE_MANAGED` is
set, the data handle is not NULL and the callback is present, and not at all otherwise
(nor for a NULL argument or a reference holding NULL).  The segment operations, the
accessors and `libfdata_vector_set_element_value_by_index` work on the vector without its
callbacks, and the outcome of `libfdata_vector_get_element_value_by_index` and of
`libfdata_vector_get_element_value_at_offset`, the callback invocations included, does
not depend on the `free_data_handle` callback. -/
theorem free_data_handle_called_once {H V : Type}
    (internal_vector : libfdata_internal_vector H V) :
    (∀ (handle : H) (callback : H → Int),
      internal_vector.flags &&& LIBFDATA_FLAG_DATA_HANDLE_MANAGED ≠ 0 →
      internal_vector.data_handle = some handle →
      internal_vector.free_data_handle = some callback →
      libfdata_vector_free_data_handle_calls
        (libfdata_vector_free (some (some internal_vector))).effects = [handle])
    ∧ (¬ (internal_vector.flags &&& LIBFDATA_FLAG_DATA_HANDLE_MANAGED ≠ 0
          ∧ (∃ handle, internal_vector.data_handle = some handle)
          ∧ (∃ callback, internal_vector.free_data_handle = some callback)) →
      libfdata_vector_free_data_handle_calls
        (libfdata_vector_free (some (some internal_vector))).effects = [])
    ∧ libfdata_vector_free_data_handle_calls
        (libfdata_vector_free (none : Option (Option (libfdata_internal_vector H V)))).effects
        = []
    ∧ libfdata_vector_free_data_handle_calls
        (libfdata_vector_free (some none : Option (Option (libfdata_internal_vector H V)))).effects
        = []
    ∧ (∀ (callback : Option (H → Int)) (file_io_handle : Option H) (cache : libfcache_cache V)
        (element_index : Int) (read_flags : Nat),
      libfdata_vector_get_element_value_by_index
          { internal_vector with free_data_handle := callback } file_io_handle cache
          element_index read_flags
        = libfdata_vector_get_element_value_by_index internal_vector file_io_handle cache
          element_index read_flags)
    ∧ (∀ (callback : Option (H → Int)) (file_io_handle : Option H) (cache : libfcache_cache V)
        (element_value_offset : Int) (read_flags : Nat),
      libfdata_vector_get_element_value_at_offset
          { internal_vector with free_data_handle := callback } file_io_handle cache
          element_value_offset read_flags
        = libfdata_vector_get_element_value_at_offset internal_vector file_io_handle cache
          element_value_offset read_flags) := by
  refine ⟨?_, ?_, rfl, rfl, fun _ _ _ _ _ => rfl, fun _ _ _ _ _ => rfl⟩
  · intro handle callback hflag hhandle hfree
    unfold libfdata_vector_free
    simp only [libcdata_array_free]
    rw [if_pos hflag]
    rw [hhandle, hfree]
    simp only []
    by_cases hcall : callback handle ≠ 1
    · rw [if_pos hcall]; rfl
    · rw [if_neg hcall]; rfl
  · intro h
    unfold libfdata_vector_free
    simp only [libcdata_array_free]
    by_cases hflag : internal_vector.flags &&& LIBFDATA_FLAG_DATA_HANDLE_MANAGED ≠ 0
    · rw [if_pos hflag]
      cases hhandle : internal_vector.data_handle with
      | none => rfl
      | some handle =>
        cases hfree : internal_vector.free_data_handle with
        | none => rfl
        | some callback => exact absurd ⟨hflag, ⟨handle, hhandle⟩, ⟨callback, hfree⟩⟩ h
    · rw [if_neg hflag]; rfl

/-- Witness of C26: freeing the vector that owns data handle 5 invokes the callback on
that handle once; freeing the vector without a callback does not invoke it. -/
theorem free_data_handle_called_once_witness :
    libfdata_vector_free_data_handle_calls
        (libfdata_vector_free (some (some managed_handle_free_vector))).effects = [5]
    ∧ libfdata_vector_free_data_handle_calls
        (libfdata_vector_free (some (some managed_handle_vector))).effects = [] :=
  ⟨(free_data_handle_called_once managed_handle_free_vector).1 5 (fun _ => 1) (by decide)
      rfl rfl,
    (free_data_handle_called_once managed_handle_vector).2.1
      (fun h => absurd h.2.2 (by simp [managed_handle_vector]))⟩

/-- Initializing an unset reference with an element size other than zero succeeds. -/
theorem libfdata_vector_initialize_unset {H V : Type}
    (element_size : Nat) (data_handle : Option H) (free_data_handle : Option (H → Int))
    (clone_data_handle : Option (H → Int × Option H))
    (read_element_data write_element_data : Option (libfdata_vector_element_data_function H V))
    (flags : Nat) (timestamp : Int) (hsize : element_size ≠ 0) :
    libfdata_vector_initialize (some none) element_size data_handle free_data_handle
        clone_data_handle read_element_data write_element_data flags timestamp
      = .ok ⟨⟨element_size, 0, timestamp, flags, data_handle, []⟩, free_data_handle,
          clone_data_handle, read_element_data, write_element_data⟩ := by
  unfold libfdata_vector_initialize
  simp only []
  rw [if_neg hsize, Nat.zero_or]

/-- The successful calls of `libfdata_vector_clone` on a source vector. -/
theorem libfdata_vector_clone_ok {H V : Type}
    (destination_vector : Option (Option (libfdata_internal_vector H V)))
    (source : libfdata_internal_vector H V) (timestamp : Int)
    (hresult : (libfdata_vector_clone destination_vector (some source) timestamp).result
      = .ok ()) :
    destination_vector = some none ∧ source.element_size ≠ 0
    ∧ ((source.data_handle = none
        ∧ libfdata_vector_clone destination_vector (some source) timestamp
          = ⟨.ok (), some (some ⟨⟨source.element_size, 0, timestamp,
              LIBFDATA_FLAG_DATA_HANDLE_MANAGED, none, []⟩, source.free_data_handle,
              source.clone_data_handle, source.read_element_data,
              source.write_element_data⟩), []⟩)
      ∨ ∃ (handle : H) (callback : H → Int × Option H),
        source.data_handle = some handle ∧ source.clone_data_handle = some callback
        ∧ (callback handle).1 = 1
        ∧ libfdata_vector_clone destination_vector (some source) timestamp
          = ⟨.ok (), some (some ⟨⟨source.element_size, 0, timestamp,
              LIBFDATA_FLAG_DATA_HANDLE_MANAGED, (callback handle).2, []⟩,
              source.free_data_handle, source.clone_data_handle, source.read_element_data,
              source.write_element_data⟩), [.clone_data_handle handle]⟩) := by
  cases destination_vector with
  | none => exact absurd hresult (by simp [libfdata_vector_clone])
  | some reference =>
    cases reference with
    | some existing => exact absurd hresult (by simp [libfdata_vector_clone])
    | none =>
      by_cases hsize : source.element_size = 0
      · exfalso
        revert hresult
        unfold libfdata_vector_clone libfdata_vector_initialize
        simp only [hsize, if_true]
        cases source.data_handle with
        | none => simp
        | some handle =>
          cases source.free_data_handle with
          | none => simp
          | some free_callback =>
            cases source.clone_data_handle with
            | none => simp
            | some callback =>
              simp only []
              split <;> simp
      · refine ⟨rfl, hsize, ?_⟩
        revert hresult
        unfold libfdata_vector_clone
        simp only []
        cases hhandle : source.data_handle with
        | none =>
          intro _
          left
          simp only [libfdata_vector_initialize_unset _ _ _ _ _ _ _ _ hsize, true_and]
        | some handle =>
          cases hfree : source.free_data_handle with
          | none => simp
          | some free_callback =>
            cases hclone : source.clone_data_handle with
            | none => simp
            | some callback =>
              simp only []
              by_cases hcall : (callback handle).1 ≠ 1
              · rw [if_pos hcall]
                simp
              · rw [if_neg hcall]
                intro _
                right
                refine ⟨handle, callback, rfl, rfl, not_not.mp hcall, ?_⟩
                simp only [libfdata_vector_initialize_unset _ _ _ _ _ _ _ _ hsize]

/-- C27: for every source vector whose data handle is NULL, whatever its flags and
callbacks (its element size is not zero, as in every vector `libfdata_vector_initialize`
creates), `libfdata_vector_clone` into an unset destination succeeds, sets the
destination, and invokes neither the `clone_data_handle` nor the `free_data_handle`
callback. -/
theorem clone_without_data_handle {H V : Type} (source : libfdata_internal_vector H V)
    (timestamp : Int) (hsize : source.element_size ≠ 0)
    (hhandle : source.data_handle = none) :
    (libfdata_vector_clone (some none) (some source) timestamp).result = .ok ()
    ∧ (∃ destination,
      (libfdata_vector_clone (some none) (some source) timestamp).vector
        = some (some destination))
    ∧ (libfdata_vector_clone (some none) (some source) timestamp).effects = []
    ∧ libfdata_vector_clone_data_handle_calls
        (libfdata_vector_clone (some none) (some source) timestamp).effects = []
    ∧ libfdata_vector_free_data_handle_calls
        (libfdata_vector_clone (some none) (some source) timestamp).effects = [] := by
  have h : libfdata_vector_clone (some none) (some source) timestamp
      = ⟨.ok (), some (some ⟨⟨source.element_size, 0, timestamp,
          LIBFDATA_FLAG_DATA_HANDLE_MANAGED, none, []⟩, source.free_data_handle,
          source.clone_data_handle, source.read_element_data,
          source.write_element_data⟩), []⟩ := by
    unfold libfdata_vector_clone
    simp only []
    rw [hhandle]
    simp only [libfdata_vector_initialize_unset _ _ _ _ _ _ _ _ hsize]
  rw [h]
  exact ⟨rfl, ⟨_, rfl⟩, rfl, rfl, rfl⟩

/-- Witness of C27: cloning the vector with the ownership flag and no data handle. -/
theorem clone_without_data_handle_witness :
    (libfdata_vector_clone (some none) (some managed_null_handle_vector) 9).result = .ok ()
    ∧ (libfdata_vector_clone (some none) (some managed_null_handle_vector) 9).effects = [] :=
  ⟨(clone_without_data_handle managed_null_handle_vector 9 (by decide) rfl).1,
    (clone_without_data_handle managed_null_handle_vector 9 (by decide) rfl).2.2.1⟩

/-- C28: for every source vector with a data handle that is not NULL and no
`clone_data_handle` callback, `libfdata_vector_clone` fails, leaves the destination
reference as it was (NULL for an unset destination) and invokes no callback; the source
vector is an argument the call does not write. -/
theorem clone_without_clone_callback_fails {H V : Type}
    (destination_vector : Option (Option (libfdata_internal_vector H V)))
    (source : libfdata_internal_vector H V) (timestamp : Int) (handle : H)
    (hhandle : source.data_handle = some handle)
    (hclone : source.clone_data_handle = none) :
    (∃ e, (libfdata_vector_clone destination_vector (some source) timestamp).result
      = .error e)
    ∧ (libfdata_vector_clone destination_vector (some source) timestamp).vector
      = destination_vector
    ∧ (libfdata_vector_clone (some none) (some source) timestamp).vector = some none
    ∧ (libfdata_vector_clone destination_vector (some source) timestamp).effects = [] := by
  have hunset : ∃ e, libfdata_vector_clone (some none) (some source) timestamp
      = ⟨.error e, some none, []⟩ := by
    unfold libfdata_vector_clone
    simp only []
    rw [hhandle]
    simp only []
    cases source.free_data_handle with
    | none => exact ⟨_, rfl⟩
    | some free_callback =>
      simp only []
      rw [hclone]
      exact ⟨_, rfl⟩
  obtain ⟨e, he⟩ := hunset
  cases destination_vector with
  | none => exact ⟨⟨_, rfl⟩, rfl, by rw [he], rfl⟩
  | some reference =>
    cases reference with
    | some existing => exact ⟨⟨_, rfl⟩, rfl, by rw [he], rfl⟩
    | none =>
      rw [he]
      exact ⟨⟨_, rfl⟩, rfl, rfl, rfl⟩

/-- Witness of C28: the vector that owns data handle 5 has no `clone_data_handle`
callback. -/
theorem clone_without_clone_callback_fails_witness :
    (∃ e, (libfdata_vector_clone (some none) (some managed_handle_free_vector) 9).result
      = .error e)
    ∧ (libfdata_vector_clone (some none) (some managed_handle_free_vector) 9).vector
      = some none
    ∧ (libfdata_vector_clone (some none) (some managed_handle_free_vector) 9).vector
      = some none
    ∧ (libfdata_vector_clone (some none) (some managed_handle_free_vector) 9).effects = [] :=
  clone_without_clone_callback_fails (some none) managed_handle_free_vector 9 5 rfl rfl

/-- C29: for every source vector, with any segments and any data size, a successful
`libfdata_vector_clone` sets the destination to a vector with the element size and the
four callbacks of the source, the data handle the `clone_data_handle` callback returned
(NULL for a source without a data handle), the flag `LIBFDATA_FLAG_DATA_HANDLE_MANAGED`
set and no segments, so that its data size, number of elements and number of segments are
0; the source vector is an argument the call does not write. -/
theorem clone_creates_empty_vector {H V : Type}
    (destination_vector : Option (Option (libfdata_internal_vector H V)))
    (source : libfdata_internal_vector H V) (timestamp : Int)
    (hresult : (libfdata_vector_clone destination_vector (some source) timestamp).result
      = .ok ()) :
    ∃ destination,
      (libfdata_vector_clone destination_vector (some source) timestamp).vector
        = some (some destination)
      ∧ destination.element_size = source.element_size
      ∧ destination.free_data_handle = source.free_data_handle
      ∧ destination.clone_data_handle = source.clone_data_handle
      ∧ destination.read_element_data = source.read_element_data
      ∧ destination.write_element_data = source.write_element_data
      ∧ (source.data_handle = none → destination.data_handle = none)
      ∧ (∀ (handle : H) (callback : H → Int × Option H),
        source.data_handle = some handle → source.clone_data_handle = some callback →
        destination.data_handle = (callback handle).2
        ∧ libfdata_vector_clone_data_handle_calls
          (libfdata_vector_clone destination_vector (some source) timestamp).effects
          = [handle])
      ∧ destination.flags &&& LIBFDATA_FLAG_DATA_HANDLE_MANAGED ≠ 0
      ∧ destination.segments_array = []
      ∧ libfdata_vector_get_number_of_segments destination.tolibfdata_vector = .ok 0
      ∧ libfdata_vector_get_data_size destination.tolibfdata_vector = .ok 0
      ∧ libfdata_vector_get_number_of_elements destination.tolibfdata_vector = .ok 0 := by
  obtain ⟨_, hsize, hcases⟩ := libfdata_vector_clone_ok destination_vector source timestamp
    hresult
  have hcount : ∀ (data_handle : Option H),
      libfdata_vector_get_number_of_elements
        (⟨source.element_size, 0, timestamp, LIBFDATA_FLAG_DATA_HANDLE_MANAGED, data_handle,
          []⟩ : libfdata_vector H) = .ok 0 := by
    intro data_handle
    simp [libfdata_vector_get_number_of_elements, hsize, INT_MAX]
  have hflag : LIBFDATA_FLAG_DATA_HANDLE_MANAGED &&& LIBFDATA_FLAG_DATA_HANDLE_MANAGED ≠ 0 := by
    decide
  rcases hcases with ⟨hhandle, hclone⟩ | ⟨handle, callback, hhandle, hcallback, _, hclone⟩
  · rw [hclone]
    refine ⟨_, rfl, rfl, rfl, rfl, rfl, rfl, fun _ => rfl, ?_, hflag, rfl, rfl, rfl,
      hcount none⟩
    intro handle callback h
    rw [hhandle] at h
    exact absurd h (by simp)
  · rw [hclone]
    refine ⟨_, rfl, rfl, rfl, rfl, rfl, rfl, ?_, ?_, hflag, rfl, rfl, rfl, hcount _⟩
    · intro h
      rw [hhandle] at h
      exact absurd h (by simp)
    · intro handle1 callback1 h1 h2
      rw [hhandle] at h1
      rw [hcallback] at h2
      simp only [Option.some.injEq] at h1 h2
      subst h1
      subst h2
      exact ⟨rfl, rfl⟩

/-- Witness of C29: the clone of the vector of two elements with data handle 5 has data
handle 6, no segments and no elements. -/
theorem clone_creates_empty_vector_witness :
    (libfdata_vector_clone (some none) (some cloneable_vector) 9).result = .ok ()
    ∧ ∃ destination,
      (libfdata_vector_clone (some none) (some cloneable_vector) 9).vector
        = some (some destination)
      ∧ destination.element_size = cloneable_vector.element_size
      ∧ destination.free_data_handle = cloneable_vector.free_data_handle
      ∧ destination.clone_data_handle = cloneable_vector.clone_data_handle
      ∧ destination.read_element_data = cloneable_vector.read_element_data
      ∧ destination.write_element_data = cloneable_vector.write_element_data
      ∧ (cloneable_vector.data_handle = none → destination.data_handle = none)
      ∧ (∀ (handle : Int) (callback : Int → Int × Option Int),
        cloneable_vector.data_handle = some handle →
        cloneable_vector.clone_data_handle = some callback →
        destination.data_handle = (callback handle).2
        ∧ libfdata_vector_clone_data_handle_calls
          (libfdata_vector_clone (some none) (some cloneable_vector) 9).effects = [handle])
      ∧ destination.flags &&& LIBFDATA_FLAG_DATA_HANDLE_MANAGED ≠ 0
      ∧ destination.segments_array = []
      ∧ libfdata_vector_get_number_of_segments destination.tolibfdata_vector = .ok 0
      ∧ libfdata_vector_get_data_size destination.tolibfdata_vector = .ok 0
      ∧ libfdata_vector_get_number_of_elements destination.tolibfdata_vector = .ok 0 :=
  ⟨rfl, clone_creates_empty_vector (some none) cloneable_vector 9 rfl⟩

/-! ## Round trip of the segments -/

/-- A successful `libfdata_vector_set_segment_by_index` replaces the entry of an index
inside the segments array. -/
theorem libfdata_vector_set_segment_by_index_ok {H : Type} (vector vector1 : libfdata_vector H)
    (segment_index segment_file_index segment_offset : Int)
    (segment_size segment_flags : Nat)
    (h : libfdata_vector_set_segment_by_index vector segment_index segment_file_index
      segment_offset segment_size segment_flags = (.ok (), vector1)) :
    0 ≤ segment_index ∧ segment_index.toNat < vector.segments_array.length
    ∧ vector1.segments_array = vector.segments_array.set segment_index.toNat
        (some ⟨segment_file_index, segment_offset, segment_size, segment_flags⟩) := by
  unfold libfdata_vector_set_segment_by_index libcdata_array_get_entry_by_index at h
  by_cases hneg : segment_index < 0
  · rw [if_pos hneg] at h
    simp at h
  · rw [if_neg hneg] at h
    cases hentry : vector.segments_array[segment_index.toNat]? with
    | none =>
      rw [hentry] at h
      simp at h
    | some entry =>
      have hlt : segment_index.toNat < vector.segments_array.length := by
        by_contra hge
        rw [List.getElem?_eq_none (not_lt.mp hge)] at hentry
        exact absurd hentry (by simp)
      refine ⟨not_lt.mp hneg, hlt, ?_⟩
      rw [hentry] at h
      cases entry with
      | none =>
        have hin : ¬ (segment_index < 0
            ∨ (vector.segments_array.length : Int) ≤ segment_index) := by omega
        simp only [libcdata_array_set_entry_by_index] at h
        rw [if_neg hin] at h
        simp only [libfdata_range_set] at h
        by_cases hsize : (segment_size : Int) > INT64_MAX
        · rw [if_pos hsize] at h
          simp at h
        · rw [if_neg hsize] at h
          simp only [Prod.mk.injEq, true_and] at h
          rw [← h]
          simp only [List.set_set]
      | some previous =>
        simp only [libfdata_range_set] at h
        by_cases hsize : (segment_size : Int) > INT64_MAX
        · rw [if_pos hsize] at h
          simp at h
        · rw [if_neg hsize] at h
          simp only [Prod.mk.injEq, true_and] at h
          rw [← h]

/-- The segment read back from an entry of the segments array. -/
theorem libfdata_vector_get_segment_by_index_of_entry {H : Type} (vector : libfdata_vector H)
    (segment_index : Int) (hindex : 0 ≤ segment_index) :
    libfdata_vector_get_segment_by_index vector segment_index
      = match vector.segments_array[segment_index.toNat]? with
        | none => .error .get_entry_failed
        | some none => .error .range_get_failed
        | some (some r) => .ok (r.file_index, r.offset, r.size, r.flags) := by
  unfold libfdata_vector_get_segment_by_index libcdata_array_get_entry_by_index
  rw [if_neg (not_lt.mpr hindex)]
  cases vector.segments_array[segment_index.toNat]? with
  | none => rfl
  | some entry =>
    cases entry with
    | none => rfl
    | some r => rfl

/-- A negative segment index is outside every segments array. -/
theorem libfdata_vector_get_segment_by_index_negative {H : Type} (vector : libfdata_vector H)
    (segment_index : Int) (hindex : segment_index < 0) :
    libfdata_vector_get_segment_by_index vector segment_index = .error .get_entry_failed := by
  unfold libfdata_vector_get_segment_by_index libcdata_array_get_entry_by_index
  rw [if_pos hindex]

/-- C30 (as stated): appending a segment of 2 bytes to the vector with two segments of
2^63 - 1 bytes (reached by two successful appends, data size 2^64 - 2) succeeds with
segment index 2 and leaves a data size of 0, which is not the data size plus 2; and
appending a segment of 2^63 bytes fails. -/
theorem append_segment_round_trip_counterexample :
    libfdata_vector_segment_calls_succeed (libfdata_vector_fresh 1 7 0 (none : Option Unit))
        [.append_segment 0 0 9223372036854775807 0,
          .append_segment 0 0 9223372036854775807 0] = true
    ∧ libfdata_vector_run_segment_calls (libfdata_vector_fresh 1 7 0 (none : Option Unit))
        [.append_segment 0 0 9223372036854775807 0,
          .append_segment 0 0 9223372036854775807 0] = full_data_size_vector
    ∧ libfdata_vector_get_data_size full_data_size_vector = .ok 18446744073709551614
    ∧ libfdata_vector_append_segment full_data_size_vector 0 0 2 0
      = .ok (2, ⟨1, 0, 7, 0, none,
          [some ⟨0, 0, 9223372036854775807, 0⟩, some ⟨0, 0, 9223372036854775807, 0⟩,
            some ⟨0, 0, 2, 0⟩]⟩)
    ∧ (0 : Nat) ≠ 18446744073709551614 + 2
    ∧ libfdata_vector_append_segment full_data_size_vector 0 0 9223372036854775808 0
      = .error .range_set_failed :=
  ⟨rfl, rfl, rfl, rfl, by decide, rfl⟩

/-- C30 (amended): for every vector with `n` segments, `libfdata_vector_append_segment`
with a size of at most `INT64_MAX` succeeds, returns segment index `n`, raises the number
of segments to `n + 1` and makes the data size `(data_size + size) mod 2^64` (the data
size plus the size when that sum is below 2^64); afterwards
`libfdata_vector_get_segment_by_index` returns exactly the appended values for `n` and
what it returned before for every other index.  After a successful
`libfdata_vector_set_segment_by_index` of index `j`, `libfdata_vector_get_segment_by_index`
returns exactly the values set for `j` and what it returned before for every other
index, and the number of segments is the same. -/
theorem append_segment_round_trip {H : Type} (vector : libfdata_vector H) :
    (∀ (segment_file_index segment_offset : Int) (segment_size segment_flags : Nat),
      (segment_size : Int) ≤ INT64_MAX →
      ∃ vector1,
        libfdata_vector_append_segment vector segment_file_index segment_offset segment_size
            segment_flags = .ok ((vector.segments_array.length : Int), vector1)
        ∧ libfdata_vector_get_number_of_segments vector
          = .ok (vector.segments_array.length : Int)
        ∧ libfdata_vector_get_number_of_segments vector1
          = .ok ((vector.segments_array.length : Int) + 1)
        ∧ vector1.data_size = (vector.data_size + segment_size) % 18446744073709551616
        ∧ (vector.data_size + segment_size < 18446744073709551616 →
          libfdata_vector_get_data_size vector1 = .ok (vector.data_size + segment_size))
        ∧ libfdata_vector_get_segment_by_index vector1 (vector.segments_array.length : Int)
          = .ok (segment_file_index, segment_offset, segment_size, segment_flags)
        ∧ ∀ (j : Int), j ≠ (vector.segments_array.length : Int) →
          libfdata_vector_get_segment_by_index vector1 j
            = libfdata_vector_get_segment_by_index vector j)
    ∧ (∀ (segment_index segment_file_index segment_offset : Int)
        (segment_size segment_flags : Nat) (vector1 : libfdata_vector H),
      libfdata_vector_set_segment_by_index vector segment_index segment_file_index
          segment_offset segment_size segment_flags = (.ok (), vector1) →
      libfdata_vector_get_segment_by_index vector1 segment_index
          = .ok (segment_file_index, segment_offset, segment_size, segment_flags)
        ∧ libfdata_vector_get_number_of_segments vector1
          = libfdata_vector_get_number_of_segments vector
        ∧ ∀ (j : Int), j ≠ segment_index →
          libfdata_vector_get_segment_by_index vector1 j
            = libfdata_vector_get_segment_by_index vector j) := by
  constructor
  · intro segment_file_index segment_offset segment_size segment_flags hsize
    refine ⟨{ vector with
        segments_array := vector.segments_array
          ++ [some ⟨segment_file_index, segment_offset, segment_size, segment_flags⟩]
        data_size := (vector.data_size + segment_size) % 18446744073709551616 },
      ?_, rfl, ?_, rfl, ?_, ?_, ?_⟩
    · rw [libfdata_vector_append_segment_eq, if_neg (not_lt.mpr hsize)]
    · simp [libfdata_vector_get_number_of_segments, libcdata_array_get_number_of_entries]
    · intro hsum
      simp only [libfdata_vector_get_data_size, Nat.mod_eq_of_lt hsum]
    · rw [libfdata_vector_get_segment_by_index_of_entry _ _ (Int.ofNat_nonneg _)]
      simp
    · intro j hj
      by_cases hneg : j < 0
      · rw [libfdata_vector_get_segment_by_index_negative _ _ hneg,
          libfdata_vector_get_segment_by_index_negative _ _ hneg]
      · rw [libfdata_vector_get_segment_by_index_of_entry _ _ (not_lt.mp hneg),
          libfdata_vector_get_segment_by_index_of_entry _ _ (not_lt.mp hneg)]
        have hne : j.toNat ≠ vector.segments_array.length := by omega
        have hentry : (vector.segments_array
            ++ [some ⟨segment_file_index, segment_offset, segment_size, segment_flags⟩])[j.toNat]?
            = vector.segments_array[j.toNat]? := by
          rcases Nat.lt_or_gt_of_ne hne with hlt | hgt
          · exact List.getElem?_append_left hlt
          · rw [List.getElem?_eq_none (by simp; omega), List.getElem?_eq_none (by omega)]
        simp only [hentry]
  · intro segment_index segment_file_index segment_offset segment_size segment_flags vector1
      hset
    obtain ⟨hindex, hlt, hsegments⟩ := libfdata_vector_set_segment_by_index_ok vector vector1
      segment_index segment_file_index segment_offset segment_size segment_flags hset
    refine ⟨?_, ?_, ?_⟩
    · rw [libfdata_vector_get_segment_by_index_of_entry _ _ hindex, hsegments]
      simp [List.getElem?_set, hlt]
    · simp [libfdata_vector_get_number_of_segments, libcdata_array_get_number_of_entries,
        hsegments]
    · intro j hj
      by_cases hneg : j < 0
      · rw [libfdata_vector_get_segment_by_index_negative _ _ hneg,
          libfdata_vector_get_segment_by_index_negative _ _ hneg]
      · rw [libfdata_vector_get_segment_by_index_of_entry _ _ (not_lt.mp hneg),
          libfdata_vector_get_segment_by_index_of_entry _ _ (not_lt.mp hneg), hsegments]
        have hne : segment_index.toNat ≠ j.toNat := by omega
        rw [List.getElem?_set_ne hne]

/-- Witness of C30 (amended): appending a segment of 512 bytes to the vector of two
elements gives segment 1, which is read back. -/
theorem append_segment_round_trip_witness :
    ∃ vector1,
      libfdata_vector_append_segment two_segment_vector 3 4096 512 1
          = .ok ((two_segment_vector.segments_array.length : Int), vector1)
      ∧ libfdata_vector_get_segment_by_index vector1
          (two_segment_vector.segments_array.length : Int) = .ok (3, 4096, 512, 1) := by
  obtain ⟨vector1, h1, _, _, _, _, h2, _⟩ :=
    (append_segment_round_trip two_segment_vector).1 3 4096 512 1 (by decide)
  exact ⟨vector1, h1, h2⟩

/-! ## Segment indexes outside the segments array -/

/-- C31: for every vector with `n` segments and every segment index `j` with `j < 0` or
`j >= n`, `libfdata_vector_get_segment_by_index` and
`libfdata_vector_set_segment_by_index` both fail, and the failed set leaves the vector as
it was: the segments array, the number of segments and the data size are unchanged. -/
theorem segment_index_out_of_range_fails {H : Type} (vector : libfdata_vector H)
    (segment_index : Int)
    (hindex : segment_index < 0 ∨ (vector.segments_array.length : Int) ≤ segment_index) :
    libfdata_vector_get_number_of_segments vector = .ok (vector.segments_array.length : Int)
    ∧ (∃ e, libfdata_vector_get_segment_by_index vector segment_index = .error e)
    ∧ ∀ (segment_file_index segment_offset : Int) (segment_size segment_flags : Nat),
      (∃ e, (libfdata_vector_set_segment_by_index vector segment_index segment_file_index
          segment_offset segment_size segment_flags).1 = .error e)
      ∧ (libfdata_vector_set_segment_by_index vector segment_index segment_file_index
          segment_offset segment_size segment_flags).2 = vector
      ∧ (libfdata_vector_set_segment_by_index vector segment_index segment_file_index
          segment_offset segment_size segment_flags).2.segments_array
        = vector.segments_array
      ∧ libfdata_vector_get_number_of_segments
          (libfdata_vector_set_segment_by_index vector segment_index segment_file_index
            segment_offset segment_size segment_flags).2
        = libfdata_vector_get_number_of_segments vector
      ∧ libfdata_vector_get_data_size
          (libfdata_vector_set_segment_by_index vector segment_index segment_file_index
            segment_offset segment_size segment_flags).2
        = libfdata_vector_get_data_size vector := by
  have hentry : libcdata_array_get_entry_by_index vector.segments_array segment_index
      = none := by
    unfold libcdata_array_get_entry_by_index
    by_cases hneg : segment_index < 0
    · rw [if_pos hneg]
    · rw [if_neg hneg]
      exact List.getElem?_eq_none (by omega)
  refine ⟨rfl, ?_, ?_⟩
  · unfold libfdata_vector_get_segment_by_index
    rw [hentry]
    exact ⟨_, rfl⟩
  · intro segment_file_index segment_offset segment_size segment_flags
    have hset : libfdata_vector_set_segment_by_index vector segment_index segment_file_index
        segment_offset segment_size segment_flags = (.error .get_entry_failed, vector) := by
      unfold libfdata_vector_set_segment_by_index
      rw [hentry]
    rw [hset]
    exact ⟨⟨_, rfl⟩, rfl, rfl, rfl, rfl⟩

/-- Witness of C31: segment index 2 of the vector of two segments. -/
theorem segment_index_out_of_range_fails_witness :
    ∃ e, libfdata_vector_get_segment_by_index two_segment_vector 2 = .error e :=
  (segment_index_out_of_range_fails two_segment_vector 2 (Or.inr (by decide))).2.1

/-! ## The element size and the timestamp of a vector -/

/-- A segment call changes neither the element size nor the timestamp of the vector,
whether it is successful or not. -/
theorem libfdata_vector_segment_call_run_element_size {H : Type} (vector : libfdata_vector H)
    (call : libfdata_vector_segment_call) :
    (libfdata_vector_segment_call.run vector call).2.element_size = vector.element_size
    ∧ (libfdata_vector_segment_call.run vector call).2.timestamp = vector.timestamp := by
  cases call with
  | append_segment segment_file_index segment_offset segment_size segment_flags =>
    simp only [libfdata_vector_segment_call.run, libfdata_vector_append_segment_eq]
    by_cases hsize : (segment_size : Int) > INT64_MAX
    · rw [if_pos hsize]
      exact ⟨rfl, rfl⟩
    · rw [if_neg hsize]
      exact ⟨rfl, rfl⟩
  | set_segment_by_index segment_index segment_file_index segment_offset segment_size
      segment_flags =>
    simp only [libfdata_vector_segment_call.run, libfdata_vector_set_segment_by_index]
    split
    · exact ⟨rfl, rfl⟩
    · split
      · exact ⟨rfl, rfl⟩
      · split
        · exact ⟨rfl, rfl⟩
        · exact ⟨rfl, rfl⟩
    · split
      · exact ⟨rfl, rfl⟩
      · exact ⟨rfl, rfl⟩
  | empty_segments =>
    exact ⟨rfl, rfl⟩
  | resize_segments number_of_segments =>
    simp only [libfdata_vector_segment_call.run, libfdata_vector_resize_segments,
      libcdata_array_resize]
    by_cases hneg : number_of_segments < 0
    · rw [if_pos hneg]
      exact ⟨rfl, rfl⟩
    · rw [if_neg hneg]
      exact ⟨rfl, rfl⟩

/-- A sequence of segment calls changes neither the element size nor the timestamp. -/
theorem libfdata_vector_run_segment_calls_element_size {H : Type}
    (calls : List libfdata_vector_segment_call) :
    ∀ (vector : libfdata_vector H),
      (libfdata_vector_run_segment_calls vector calls).element_size = vector.element_size
      ∧ (libfdata_vector_run_segment_calls vector calls).timestamp = vector.timestamp := by
  induction calls with
  | nil => intro vector; exact ⟨rfl, rfl⟩
  | cons call calls ih =>
    intro vector
    have h1 := libfdata_vector_segment_call_run_element_size vector call
    have h2 := ih (libfdata_vector_segment_call.run vector call).2
    unfold libfdata_vector_run_segment_calls
    exact ⟨h2.1.trans h1.1, h2.2.trans h1.2⟩

/-- The loop of `libfdata_vector_get_element_index_at_offset` has no element size
error. -/
theorem get_element_index_at_offset_loop_no_element_size_error (value_offset : Int)
    (segments : List (Option libfdata_range)) :
    ∀ (segment_index segment_data_offset : Int),
      libfdata_vector_get_element_index_at_offset_loop value_offset segments segment_index
        segment_data_offset ≠ .error .element_size_out_of_bounds := by
  induction segments with
  | nil =>
    intro segment_index segment_data_offset
    simp [libfdata_vector_get_element_index_at_offset_loop]
  | cons entry rest ih =>
    intro segment_index segment_data_offset
    cases entry with
    | none => simp [libfdata_vector_get_element_index_at_offset_loop]
    | some segment_data_range =>
      unfold libfdata_vector_get_element_index_at_offset_loop
      split
      · simp
      · exact ih _ _

/-- The loop of `libfdata_vector_get_element_value_by_index` has no element size
error. -/
theorem get_element_value_by_index_loop_no_element_size_error
    (segments : List (Option libfdata_range)) :
    ∀ (segment_index element_data_offset : Int),
      libfdata_vector_get_element_value_by_index_loop segments segment_index
        element_data_offset ≠ .error .element_size_out_of_bounds := by
  induction segments with
  | nil =>
    intro segment_index element_data_offset
    simp [libfdata_vector_get_element_value_by_index_loop]
  | cons entry rest ih =>
    intro segment_index element_data_offset
    cases entry with
    | none => simp [libfdata_vector_get_element_value_by_index_loop]
    | some segment_data_range =>
      rw [libfdata_vector_get_element_value_by_index_loop]
      split
      · simp
      · exact ih _ _

/-- With an element size other than zero the resolution of an element index has no
element size error. -/
theorem get_element_value_by_index_offset_no_element_size_error {H : Type}
    (vector : libfdata_vector H) (element_index : Int) (hsize : vector.element_size ≠ 0) :
    libfdata_vector_get_element_value_by_index_offset vector element_index
      ≠ .error .element_size_out_of_bounds := by
  unfold libfdata_vector_get_element_value_by_index_offset
  rw [if_neg hsize]
  split
  · simp
  · split
    · simp
    · split
      · simp
      · split
        · simp
        · have hloop := get_element_value_by_index_loop_no_element_size_error
            vector.segments_array 0
            (to_off64 (to_size64 (to_size64 element_index * (vector.element_size : Int))))
          split
          · rename_i e he
            intro h
            simp only [Except.error.injEq] at h
            rw [h] at he
            exact hloop he
          · simp

/-- With an element size other than zero `libfdata_vector_get_element_index_at_offset`
has no element size error. -/
theorem get_element_index_at_offset_no_element_size_error {H : Type}
    (vector : libfdata_vector H) (value_offset : Int) (hsize : vector.element_size ≠ 0) :
    libfdata_vector_get_element_index_at_offset vector value_offset
      ≠ .error .element_size_out_of_bounds := by
  unfold libfdata_vector_get_element_index_at_offset
  rw [if_neg hsize]
  split
  · simp
  · split
    · simp
    · have hloop := get_element_index_at_offset_loop_no_element_size_error value_offset
        vector.segments_array 0 0
      split
      · rename_i e he
        intro h
        simp only [Except.error.injEq] at h
        rw [h] at he
        exact hloop he
      · simp only []
        split
        · simp
        · split
          · simp
          · simp

/-- With an element size other than zero `libfdata_vector_get_element_value_by_index`
has no element size error. -/
theorem get_element_value_by_index_no_element_size_error {H V : Type}
    (vector : libfdata_internal_vector H V) (file_io_handle : Option H)
    (cache : libfcache_cache V) (element_index : Int) (read_flags : Nat)
    (hsize : vector.element_size ≠ 0) :
    (libfdata_vector_get_element_value_by_index vector file_io_handle cache element_index
      read_flags).result ≠ .error .element_size_out_of_bounds := by
  have hoffset := get_element_value_by_index_offset_no_element_size_error
    vector.tolibfdata_vector element_index hsize
  unfold libfdata_vector_get_element_value_by_index
  split
  · simp
  · split
    · rename_i e he
      intro h
      simp only [Except.error.injEq] at h
      rw [h] at he
      exact hoffset he
    · split
      · simp
      · split
        · rename_i e he
          intro h
          simp only [Except.error.injEq] at h
          rw [h] at he
          unfold libfdata_vector_get_element_value_by_index_lookup at he
          split at he
          · split at he
            · simp at he
            · simp only [] at he
              split at he <;> simp at he
          · simp at he
        · split
          · simp only []
            split
            · simp
            · split
              · simp
              · split
                · simp
                · split <;> simp
          · split <;> simp

/-- C33: in every state reached from a successful `libfdata_vector_initialize` by
segment calls (append, set, empty and resize, successful or not), the element size is
greater than zero and the element size and the timestamp are the values fixed at the
initialization; the element functions and the accessors do not yield a vector, so they
change neither.  No function then takes an element size error branch:
`libfdata_vector_get_number_of_elements`, `libfdata_vector_get_element_index_at_offset`,
`libfdata_vector_get_element_value_by_index`, `libfdata_vector_get_element_value_at_offset`
and `libfdata_vector_set_element_value_by_index` never fail with "element size value out
of bounds". -/
theorem element_size_and_timestamp_fixed {H V : Type} (element_size : Nat)
    (data_handle : Option H) (free_data_handle : Option (H → Int))
    (clone_data_handle : Option (H → Int × Option H))
    (read_element_data write_element_data : Option (libfdata_vector_element_data_function H V))
    (flags : Nat) (timestamp : Int) (vector0 vector : libfdata_internal_vector H V)
    (calls : List libfdata_vector_segment_call)
    (hinit : libfdata_vector_initialize (some none) element_size data_handle
      free_data_handle clone_data_handle read_element_data write_element_data flags
      timestamp = .ok vector0)
    (hbuilt : vector.tolibfdata_vector
      = libfdata_vector_run_segment_calls vector0.tolibfdata_vector calls) :
    0 < vector.element_size
    ∧ vector.element_size = element_size
    ∧ vector.element_size = vector0.element_size
    ∧ vector.timestamp = timestamp
    ∧ vector.timestamp = vector0.timestamp
    ∧ libfdata_vector_get_element_size vector.tolibfdata_vector = .ok element_size
    ∧ libfdata_vector_get_number_of_elements vector.tolibfdata_vector
      ≠ .error .element_size_out_of_bounds
    ∧ (∀ (value_offset : Int),
      libfdata_vector_get_element_index_at_offset vector.tolibfdata_vector value_offset
        ≠ .error .element_size_out_of_bounds)
    ∧ (∀ (file_io_handle : Option H) (cache : libfcache_cache V) (element_index : Int)
        (read_flags : Nat),
      (libfdata_vector_get_element_value_by_index vector file_io_handle cache element_index
        read_flags).result ≠ .error .element_size_out_of_bounds)
    ∧ (∀ (file_io_handle : Option H) (cache : libfcache_cache V) (value_offset : Int)
        (read_flags : Nat),
      (libfdata_vector_get_element_value_at_offset vector file_io_handle cache value_offset
        read_flags).result ≠ .error .element_size_out_of_bounds)
    ∧ (∀ (cache : libfcache_cache V) (element_index : Int) (element_value : V)
        (free_element_value : Option (V → Int)) (value_flags : Nat),
      libfdata_vector_set_element_value_by_index vector.tolibfdata_vector cache
        element_index element_value free_element_value value_flags
        ≠ .error .element_size_out_of_bounds) := by
  obtain ⟨hne, hcreated⟩ := libfdata_vector_initialize_created (some none) element_size
    data_handle free_data_handle clone_data_handle read_element_data write_element_data
    flags timestamp vector0 hinit
  have hrun := libfdata_vector_run_segment_calls_element_size calls
    vector0.tolibfdata_vector
  rw [← hbuilt] at hrun
  have hsize0 : vector0.element_size = element_size := by rw [hcreated]
  have htime0 : vector0.timestamp = timestamp := by rw [hcreated]
  have hsize : vector.element_size = element_size := hrun.1.trans hsize0
  have htime : vector.timestamp = timestamp := hrun.2.trans htime0
  have hnonzero : vector.element_size ≠ 0 := by rw [hsize]; exact hne
  refine ⟨Nat.pos_of_ne_zero hnonzero, hsize, hrun.1, htime, hrun.2, ?_, ?_, ?_, ?_, ?_, ?_⟩
  · unfold libfdata_vector_get_element_size
    rw [hsize]
  · unfold libfdata_vector_get_number_of_elements
    rw [if_neg hnonzero]
    simp only []
    split <;> simp
  · intro value_offset
    exact get_element_index_at_offset_no_element_size_error _ _ hnonzero
  · intro file_io_handle cache element_index read_flags
    exact get_element_value_by_index_no_element_size_error _ _ _ _ _ hnonzero
  · intro file_io_handle cache value_offset read_flags
    unfold libfdata_vector_get_element_value_at_offset
    split
    · rename_i e he
      intro h
      simp only [Except.error.injEq] at h
      rw [h] at he
      exact get_element_index_at_offset_no_element_size_error _ _ hnonzero he
    · exact get_element_value_by_index_no_element_size_error _ _ _ _ _ hnonzero
  · intro cache element_index element_value free_element_value value_flags
    unfold libfdata_vector_set_element_value_by_index
    rw [set_element_value_by_index_offset_eq]
    split
    · rename_i e he
      intro h
      simp only [Except.error.injEq] at h
      rw [h] at he
      exact get_element_value_by_index_offset_no_element_size_error _ _ hnonzero he
    · split
      · simp
      · split <;> simp

/-- Witness of C33: the vector of the read test after an append, an emptying and a
resize of the segments. -/
theorem element_size_and_timestamp_fixed_witness :
    0 < (libfdata_vector_run_segment_calls example_vector0.tolibfdata_vector
        [.append_segment 0 0 512 0, .empty_segments, .resize_segments 3]).element_size
    ∧ (libfdata_vector_run_segment_calls example_vector0.tolibfdata_vector
        [.append_segment 0 0 512 0, .empty_segments, .resize_segments 3]).element_size = 512
    ∧ (libfdata_vector_run_segment_calls example_vector0.tolibfdata_vector
        [.append_segment 0 0 512 0, .empty_segments, .resize_segments 3]).timestamp = 7 :=
  ⟨(element_size_and_timestamp_fixed 512 none none none none none 0 7 example_vector0
      ⟨libfdata_vector_run_segment_calls example_vector0.tolibfdata_vector
        [.append_segment 0 0 512 0, .empty_segments, .resize_segments 3],
        none, none, none, none⟩
      [.append_segment 0 0 512 0, .empty_segments, .resize_segments 3] rfl rfl).1,
    (element_size_and_timestamp_fixed 512 none none none none none 0 7 example_vector0
      ⟨libfdata_vector_run_segment_calls example_vector0.tolibfdata_vector
        [.append_segment 0 0 512 0, .empty_segments, .resize_segments 3],
        none, none, none, none⟩
      [.append_segment 0 0 512 0, .empty_segments, .resize_segments 3] rfl rfl).2.1,
    (element_size_and_timestamp_fixed 512 none none none none none 0 7 example_vector0
      ⟨libfdata_vector_run_segment_calls example_vector0.tolibfdata_vector
        [.append_segment 0 0 512 0, .empty_segments, .resize_segments 3],
        none, none, none, none⟩
      [.append_segment 0 0 512 0, .empty_segments, .resize_segments 3] rfl rfl).2.2.2.1⟩

/-! ## Totality of the segment walk -/

/-- The cumulative size of the first `n + 1` segments is the cumulative size of the first
`n` segments plus the size of segment `n`. -/
theorem libfdata_segments_size_take_succ (segments : List (Option libfdata_range)) :
    ∀ (n : Nat), libfdata_segments_size (segments.take (n + 1))
      = libfdata_segments_size (segments.take n)
        + (match segments[n]? with
          | some (some r) => r.size
          | _ => 0) := by
  induction segments with
  | nil => intro n; simp [libfdata_segments_size]
  | cons entry rest ih =>
    intro n
    cases n with
    | zero =>
      cases entry with
      | none => simp [libfdata_segments_size]
      | some r => simp [libfdata_segments_size]
    | succ n =>
      have h := ih n
      cases entry with
      | none =>
        simp only [List.take_succ_cons, libfdata_segments_size, List.getElem?_cons_succ]
        exact h
      | some r =>
        simp only [List.take_succ_cons, libfdata_segments_size, List.getElem?_cons_succ]
        rw [h]
        omega

/-- The cumulative sizes of the segments do not decrease. -/
theorem libfdata_segments_size_take_mono (segments : List (Option libfdata_range))
    (k : Nat) :
    ∀ (d : Nat), libfdata_segments_size (segments.take k)
      ≤ libfdata_segments_size (segments.take (k + d)) := by
  intro d
  induction d with
  | zero => exact Nat.le_refl _
  | succ d ih =>
    have h := libfdata_segments_size_take_succ segments (k + d)
    rw [← Nat.add_assoc, h]
    omega

/-- Every offset below the sum of the sizes of the segments lies in a segment. -/
theorem libfdata_segments_size_cover (segments : List (Option libfdata_range)) :
    ∀ (x : Int), (∀ entry ∈ segments, entry ≠ none) → 0 ≤ x →
      x < (libfdata_segments_size segments : Int) →
      ∃ (k : Nat) (r : libfdata_range), segments[k]? = some (some r)
        ∧ (libfdata_segments_size (segments.take k) : Int) ≤ x
        ∧ x < (libfdata_segments_size (segments.take k) : Int) + r.size := by
  induction segments with
  | nil =>
    intro x _ h0 hlt
    simp only [libfdata_segments_size] at hlt
    omega
  | cons entry rest ih =>
    intro x hnonnull h0 hlt
    cases entry with
    | none => exact absurd rfl (hnonnull none (List.mem_cons_self _ _))
    | some r =>
      simp only [libfdata_segments_size, Nat.cast_add] at hlt
      by_cases hfirst : x < (r.size : Int)
      · refine ⟨0, r, List.getElem?_cons_zero, ?_, ?_⟩
        · simp [libfdata_segments_size]; exact h0
        · simp [libfdata_segments_size]; exact hfirst
      · obtain ⟨k, r1, hk, hstart, hend⟩ := ih (x - (r.size : Int))
          (fun entry hmem => hnonnull entry (List.mem_cons_of_mem _ hmem)) (by omega)
          (by omega)
        refine ⟨k + 1, r1, ?_, ?_, ?_⟩
        · simpa using hk
        · simp only [List.take_succ_cons, libfdata_segments_size, Nat.cast_add]
          omega
        · simp only [List.take_succ_cons, libfdata_segments_size, Nat.cast_add]
          omega

/-- At most one segment contains an offset. -/
theorem libfdata_segments_size_unique (segments : List (Option libfdata_range))
    (x : Int) (k k1 : Nat) (r r1 : libfdata_range)
    (hk : segments[k]? = some (some r)) (hk1 : segments[k1]? = some (some r1))
    (hstart : (libfdata_segments_size (segments.take k) : Int) ≤ x)
    (hend : x < (libfdata_segments_size (segments.take k) : Int) + r.size)
    (hstart1 : (libfdata_segments_size (segments.take k1) : Int) ≤ x)
    (hend1 : x < (libfdata_segments_size (segments.take k1) : Int) + r1.size) :
    k1 = k := by
  have hsucc := libfdata_segments_size_take_succ segments k
  have hsucc1 := libfdata_segments_size_take_succ segments k1
  rw [hk] at hsucc
  rw [hk1] at hsucc1
  simp only [] at hsucc hsucc1
  rcases Nat.lt_trichotomy k1 k with hlt | heq | hgt
  · exfalso
    have hmono := libfdata_segments_size_take_mono segments (k1 + 1) (k - (k1 + 1))
    rw [show k1 + 1 + (k - (k1 + 1)) = k by omega] at hmono
    omega
  · exact heq
  · exfalso
    have hmono := libfdata_segments_size_take_mono segments (k + 1) (k1 - (k + 1))
    rw [show k + 1 + (k1 - (k + 1)) = k1 by omega] at hmono
    omega

/-- C32: for a vector built from `libfdata_vector_initialize` by successful
append_segment and set_segment_by_index calls whose segment sizes sum to at most
`INT64_MAX`, and every index `i >= 0` with `i * element_size < data_size`, exactly one
segment contains the logical offset `i * element_size`; the walks of
`libfdata_vector_get_element_value_by_index` and of
`libfdata_vector_set_element_value_by_index` stop at that segment, and the resolution of
the element index is successful (the "segment index out of bounds" branch is not taken). -/
theorem segment_walk_finds_one_segment {H V : Type} (element_size : Nat)
    (data_handle : Option H) (free_data_handle : Option (H → Int))
    (clone_data_handle : Option (H → Int × Option H))
    (read_element_data write_element_data : Option (libfdata_vector_element_data_function H V))
    (flags : Nat) (timestamp : Int) (vector0 vector : libfdata_internal_vector H V)
    (calls : List libfdata_vector_segment_call) (element_index : Int)
    (hinit : libfdata_vector_initialize (some none) element_size data_handle
      free_data_handle clone_data_handle read_element_data write_element_data flags
      timestamp = .ok vector0)
    (hcalls : ∀ call ∈ calls, call.is_append_or_set = true)
    (hsucc : libfdata_vector_segment_calls_succeed vector0.tolibfdata_vector calls = true)
    (hbuilt : vector.tolibfdata_vector
      = libfdata_vector_run_segment_calls vector0.tolibfdata_vector calls)
    (hsum : (libfdata_segments_size vector.segments_array : Int) ≤ INT64_MAX)
    (hindex : 0 ≤ element_index)
    (hinside : element_index * (element_size : Int) < (vector.data_size : Int)) :
    ∃ (k : Nat) (r : libfdata_range),
      vector.segments_array[k]? = some (some r)
      ∧ (libfdata_segments_size (vector.segments_array.take k) : Int)
        ≤ element_index * (element_size : Int)
      ∧ element_index * (element_size : Int)
        < (libfdata_segments_size (vector.segments_array.take k) : Int) + r.size
      ∧ (∀ (k1 : Nat) (r1 : libfdata_range),
        vector.segments_array[k1]? = some (some r1) →
        (libfdata_segments_size (vector.segments_array.take k1) : Int)
          ≤ element_index * (element_size : Int) →
        element_index * (element_size : Int)
          < (libfdata_segments_size (vector.segments_array.take k1) : Int) + r1.size →
        k1 = k)
      ∧ libfdata_vector_get_element_value_by_index_loop vector.segments_array 0
          (element_index * (element_size : Int))
        = .ok ((k : Int), to_off64 (element_index * (element_size : Int)
            - (libfdata_segments_size (vector.segments_array.take k) : Int) + r.offset))
      ∧ libfdata_vector_set_element_value_by_index_loop vector.segments_array 0
          (element_index * (element_size : Int))
        = .ok ((k : Int), to_off64 (element_index * (element_size : Int)
            - (libfdata_segments_size (vector.segments_array.take k) : Int) + r.offset))
      ∧ libfdata_vector_get_element_value_by_index_offset vector.tolibfdata_vector
          element_index
        = .ok (to_off64 (element_index * (element_size : Int)
            - (libfdata_segments_size (vector.segments_array.take k) : Int) + r.offset))
      ∧ libfdata_vector_set_element_value_by_index_offset vector.tolibfdata_vector
          element_index
        = .ok (to_off64 (element_index * (element_size : Int)
            - (libfdata_segments_size (vector.segments_array.take k) : Int) + r.offset)) := by
  obtain ⟨hnonnull, hdata, hsize, _, hne⟩ := libfdata_vector_built_invariant element_size
    data_handle free_data_handle clone_data_handle read_element_data write_element_data
    flags timestamp vector0 calls hinit hcalls hsucc
  rw [← hbuilt] at hnonnull hdata hsize
  have hsum1 : (libfdata_segments_size vector.segments_array : Int)
      ≤ 9223372036854775807 := hsum
  have hdata1 : vector.data_size = libfdata_segments_size vector.segments_array := by
    rw [hdata]
    exact Nat.mod_eq_of_lt (by omega)
  have hes : vector.element_size ≠ 0 := by rw [hsize]; exact hne
  have hp0 : 0 ≤ element_index * (element_size : Int) :=
    mul_nonneg hindex (Int.ofNat_nonneg _)
  have hlt : element_index * (element_size : Int)
      < (libfdata_segments_size vector.segments_array : Int) := by
    rw [← hdata1]; exact hinside
  obtain ⟨k, r, hk, hstart, hend⟩ := libfdata_segments_size_cover vector.segments_array
    (element_index * (element_size : Int)) hnonnull hp0 hlt
  have hnonnull1 : ∀ j, j < k → vector.segments_array[j]? ≠ some none := by
    intro j _ hj
    exact hnonnull none (List.getElem?_mem hj) rfl
  have htake := libfdata_segments_size_take_le vector.segments_array k r hk
  have hloop := get_element_value_by_index_loop_select vector.segments_array k r 0
    (element_index * (element_size : Int)) hk hnonnull1 hstart hend
    (by unfold INT64_MAX; omega) (by unfold INT64_MAX; omega)
  rw [zero_add] at hloop
  have hresolve := get_element_value_by_index_offset_resolve vector.tolibfdata_vector
    element_index k r hes hdata1 (by rw [hdata1]; exact hsum) hindex hk hnonnull1
    (by rw [hsize]; exact hstart) (by rw [hsize]; exact hend)
  rw [hsize] at hresolve
  refine ⟨k, r, hk, hstart, hend, ?_, hloop, ?_, hresolve, ?_⟩
  · intro k1 r1 hk1 hstart1 hend1
    exact libfdata_segments_size_unique vector.segments_array _ k k1 r r1 hk hk1 hstart hend
      hstart1 hend1
  · rw [set_element_value_by_index_loop_eq]
    exact hloop
  · rw [set_element_value_by_index_offset_eq]
    exact hresolve

/-- Witness of C32: element 1 of the vector with a segment of 512 bytes and a segment
of 1024 bytes lies in one segment. -/
theorem segment_walk_finds_one_segment_witness :
    ∃ (k : Nat) (r : libfdata_range),
      example_vector.segments_array[k]? = some (some r)
      ∧ (libfdata_segments_size (example_vector.segments_array.take k) : Int)
        ≤ 1 * ((512 : Nat) : Int)
      ∧ 1 * ((512 : Nat) : Int)
        < (libfdata_segments_size (example_vector.segments_array.take k) : Int) + r.size := by
  obtain ⟨k, r, h1, h2, h3, _⟩ := segment_walk_finds_one_segment 512 none none none none none
    0 7 example_vector0 example_vector
    [.append_segment 0 0 512 0, .append_segment 0 4096 1024 0] 1 rfl (by decide) rfl rfl
    (by decide) (by decide) (by decide)
  exact ⟨k, r, h1, h2, h3⟩

/-! ## Boundaries of the segments -/

/-- Segments of size zero do not move the cumulative size. -/
theorem libfdata_segments_size_take_zero (segments : List (Option libfdata_range))
    (a : Nat) :
    ∀ (d : Nat),
      (∀ (j : Nat) (rj : libfdata_range), a ≤ j → j < a + d →
        segments[j]? = some (some rj) → rj.size = 0) →
      libfdata_segments_size (segments.take (a + d))
        = libfdata_segments_size (segments.take a) := by
  intro d
  induction d with
  | zero => intro _; rfl
  | succ d ih =>
    intro hzero
    have h := libfdata_segments_size_take_succ segments (a + d)
    have hprev := ih (fun j rj h1 h2 h3 => hzero j rj h1 (by omega) h3)
    rw [← Nat.add_assoc, h, hprev]
    cases hentry : segments[a + d]? with
    | none => rfl
    | some entry =>
      cases entry with
      | none => rfl
      | some rj =>
        have := hzero (a + d) rj (by omega) (by omega) hentry
        simp only []
        omega

/-- C34 (as stated): on the vector with elements of 2^62 bytes and three segments of
2^62 bytes (reached by three successful appends), the logical offset of element 1 is the
cumulative end of segment 0, but `libfdata_vector_get_element_value_by_index` fails for
index 1 without resolving a location (the data size exceeds `INT64_MAX`), and the loop
of `libfdata_vector_get_element_index_at_offset` selects no segment for that offset. -/
theorem boundary_not_resolved_counterexample :
    libfdata_vector_segment_calls_succeed
        (libfdata_vector_fresh 4611686018427387904 7 0 (none : Option Unit))
        [.append_segment 0 0 4611686018427387904 0,
          .append_segment 0 4096 4611686018427387904 0,
          .append_segment 0 8192 4611686018427387904 0] = true
    ∧ libfdata_vector_run_segment_calls
        (libfdata_vector_fresh 4611686018427387904 7 0 (none : Option Unit))
        [.append_segment 0 0 4611686018427387904 0,
          .append_segment 0 4096 4611686018427387904 0,
          .append_segment 0 8192 4611686018427387904 0] = oversized_vector.tolibfdata_vector
    ∧ (1 : Int) * (oversized_vector.element_size : Int)
      = (libfdata_segments_size (oversized_vector.segments_array.take 1) : Int)
    ∧ (libfdata_vector_get_element_value_by_index oversized_vector none [none] 1 0).result
      = .error .data_size_out_of_bounds
    ∧ (libfdata_vector_get_element_value_by_index oversized_vector none [none] 1
        0).read_calls.map (fun call => call.element_data_offset) = []
    ∧ libfdata_vector_get_element_index_at_offset_loop 4611686018427387904
        oversized_vector.segments_array 0 0 = .error .segment_index_out_of_bounds :=
  ⟨rfl, rfl, by decide, rfl, rfl, rfl⟩

/-- C34 (amended): for a vector without NULL segments whose element size is not zero
and whose data size is the sum of the sizes of its segments, at most `INT64_MAX` (as
after successful append_segment and set_segment_by_index calls), a segment `k` and the
next segment `m` of non-zero size (the segments between `k` and `m` have size zero):
an element index whose logical offset is the cumulative end of segment `k` is resolved
to segment `m`, with the physical offset of segment `m` as the resolved location, by
the walks of `libfdata_vector_get_element_value_by_index` and
`libfdata_vector_set_element_value_by_index` (it is the offset of every invocation of the
read callback, and the offset of the one invocation when the cache is ignored); the
loop of `libfdata_vector_get_element_index_at_offset` selects the same segment `m` for
that offset. -/
theorem boundary_resolves_to_next_segment {H V : Type}
    (vector : libfdata_internal_vector H V) (element_index : Int) (k m : Nat)
    (r : libfdata_range)
    (hes : vector.element_size ≠ 0)
    (hnonnull : ∀ entry ∈ vector.segments_array, entry ≠ none)
    (hdata : vector.data_size = libfdata_segments_size vector.segments_array)
    (hsum : (libfdata_segments_size vector.segments_array : Int) ≤ INT64_MAX)
    (hkm : k < m)
    (hm : vector.segments_array[m]? = some (some r))
    (hpos : 0 < r.size)
    (hzero : ∀ (j : Nat) (rj : libfdata_range), k < j → j < m →
      vector.segments_array[j]? = some (some rj) → rj.size = 0)
    (hindex : 0 ≤ element_index)
    (hboundary : element_index * (vector.element_size : Int)
      = (libfdata_segments_size (vector.segments_array.take (k + 1)) : Int))
    (hlow : -9223372036854775808 ≤ r.offset)
    (hhigh : r.offset ≤ INT64_MAX) :
    libfdata_vector_get_element_value_by_index_loop vector.segments_array 0
        (element_index * (vector.element_size : Int)) = .ok ((m : Int), r.offset)
    ∧ libfdata_vector_set_element_value_by_index_loop vector.segments_array 0
        (element_index * (vector.element_size : Int)) = .ok ((m : Int), r.offset)
    ∧ libfdata_vector_get_element_value_by_index_offset vector.tolibfdata_vector
        element_index = .ok r.offset
    ∧ libfdata_vector_set_element_value_by_index_offset vector.tolibfdata_vector
        element_index = .ok r.offset
    ∧ (∀ (file_io_handle : Option H) (cache : libfcache_cache V) (read_flags : Nat),
        ∀ call ∈ (libfdata_vector_get_element_value_by_index vector file_io_handle cache
            element_index read_flags).read_calls,
          call.element_data_offset = r.offset)
    ∧ (∀ (file_io_handle : Option H) (cache : libfcache_cache V) (read_flags : Nat),
        vector.read_element_data ≠ none → 0 < cache.length →
        read_flags &&& LIBFDATA_READ_FLAG_IGNORE_CACHE ≠ 0 →
        (libfdata_vector_get_element_value_by_index vector file_io_handle cache
            element_index read_flags).read_calls.map (fun call => call.element_data_offset)
          = [r.offset])
    ∧ libfdata_vector_get_element_index_at_offset_loop
        (element_index * (vector.element_size : Int)) vector.segments_array 0 0
      = .ok ((m : Int), element_index * (vector.element_size : Int)) := by
  have hsum1 : (libfdata_segments_size vector.segments_array : Int)
      ≤ 9223372036854775807 := hsum
  have hhigh1 : r.offset ≤ 9223372036854775807 := hhigh
  have hstartm : libfdata_segments_size (vector.segments_array.take m)
      = libfdata_segments_size (vector.segments_array.take (k + 1)) := by
    have h := libfdata_segments_size_take_zero vector.segments_array (k + 1) (m - (k + 1))
      (fun j rj h1 h2 h3 => hzero j rj (by omega) (by omega) h3)
    rw [show k + 1 + (m - (k + 1)) = m by omega] at h
    exact h
  have htake := libfdata_segments_size_take_le vector.segments_array m r hm
  have hstart : (libfdata_segments_size (vector.segments_array.take m) : Int)
      ≤ element_index * (vector.element_size : Int) := by
    rw [hboundary, hstartm]
  have hend : element_index * (vector.element_size : Int)
      < (libfdata_segments_size (vector.segments_array.take m) : Int) + r.size := by
    rw [hboundary, hstartm]
    omega
  have hnonnull1 : ∀ j, j < m → vector.segments_array[j]? ≠ some none := by
    intro j _ hj
    exact hnonnull none (List.getElem?_mem hj) rfl
  have hoffset : to_off64 (element_index * (vector.element_size : Int)
      - (libfdata_segments_size (vector.segments_array.take m) : Int) + r.offset)
      = r.offset := by
    rw [hboundary, hstartm, sub_self, zero_add]
    exact to_off64_of_range _ hlow hhigh1
  have hloop := get_element_value_by_index_loop_select vector.segments_array m r 0
    (element_index * (vector.element_size : Int)) hm hnonnull1 hstart hend
    (by unfold INT64_MAX; omega) (by unfold INT64_MAX; omega)
  rw [zero_add, hoffset] at hloop
  have hresolve := get_element_value_by_index_offset_resolve vector.tolibfdata_vector
    element_index m r hes hdata (by rw [hdata]; exact hsum) hindex hm hnonnull1 hstart hend
  rw [hoffset] at hresolve
  have hindexloop := get_element_index_at_offset_loop_select
    (element_index * (vector.element_size : Int)) vector.segments_array m r 0 0 hm
    hnonnull1 (le_refl 0) (by rw [zero_add]; exact hstart) (by rw [zero_add]; exact hend)
    (by unfold INT64_MAX; omega)
  rw [zero_add, zero_add, hstartm, ← hboundary] at hindexloop
  refine ⟨hloop, ?_, hresolve, ?_, ?_, ?_, hindexloop⟩
  · rw [set_element_value_by_index_loop_eq]
    exact hloop
  · rw [set_element_value_by_index_offset_eq]
    exact hresolve
  · intro file_io_handle cache read_flags call hcall
    rcases get_element_value_by_index_read_calls vector file_io_handle cache element_index
      read_flags with hnone | ⟨element_data_offset, hoff, hcalls⟩
    · rw [hnone] at hcall
      exact absurd hcall (by simp)
    · rw [hcalls] at hcall
      rw [hresolve] at hoff
      simp only [Except.ok.injEq] at hoff
      simp only [List.mem_singleton] at hcall
      rw [hcall, ← hoff]
  · intro file_io_handle cache read_flags hread hcache hflags
    rw [get_element_value_by_index_ignore_cache_reads vector file_io_handle cache
      element_index read_flags r.offset hread hresolve hcache hflags]
    rfl

/-- Witness of C34 (amended): with segments of 512, 0 and 512 bytes and elements of 512
bytes, element 1 starts at the end of segment 0 and is resolved to segment 2, at the
physical offset 4096. -/
theorem boundary_resolves_to_next_segment_witness :
    libfdata_vector_get_element_value_by_index_loop zero_sized_segment_vector.segments_array
        0 (1 * (zero_sized_segment_vector.element_size : Int)) = .ok (((2 : Nat) : Int), 4096)
    ∧ libfdata_vector_get_element_index_at_offset_loop
        (1 * (zero_sized_segment_vector.element_size : Int))
        zero_sized_segment_vector.segments_array 0 0
      = .ok (((2 : Nat) : Int), 1 * (zero_sized_segment_vector.element_size : Int)) :=
  ⟨(boundary_resolves_to_next_segment zero_sized_segment_vector 1 0 2 ⟨0, 4096, 512, 0⟩
      (by decide) (by decide) rfl (by decide) (by decide) rfl (by decide)
      (by
        intro j rj h1 h2 h3
        have hj : j = 1 := by omega
        subst hj
        simp only [zero_sized_segment_vector, List.getElem?_cons_succ,
          List.getElem?_cons_zero, Option.some.injEq] at h3
        rw [← h3])
      (by decide) (by decide) (by decide) (by decide)).1,
    (boundary_resolves_to_next_segment zero_sized_segment_vector 1 0 2 ⟨0, 4096, 512, 0⟩
      (by decide) (by decide) rfl (by decide) (by decide) rfl (by decide)
      (by
        intro j rj h1 h2 h3
        have hj : j = 1 := by omega
        subst hj
        simp only [zero_sized_segment_vector, List.getElem?_cons_succ,
          List.getElem?_cons_zero, Option.some.injEq] at h3
        rw [← h3])
      (by decide) (by decide) (by decide) (by decide)).2.2.2.2.2.2⟩

/-! ## The element index of a byte offset -/

theorem to_size64_to_off64 (x : Int) (h1 : 0 ≤ x) (h2 : x < 18446744073709551616) :
    to_size64 (to_off64 x) = x := by
  unfold to_size64 to_off64; omega

theorem to_off64_sub_to_off64 (x y : Int) :
    to_off64 (x - to_off64 y) = to_off64 (x - y) := by
  unfold to_off64; omega

/-- When the cumulative sizes do not exceed `INT64_MAX`, the loop of
`libfdata_vector_get_element_index_at_offset` stops at a cumulative start inside the
cumulative sizes, and only for an offset below the cumulative end. -/
theorem get_element_index_at_offset_loop_ok_bounds (value_offset : Int)
    (segments : List (Option libfdata_range)) :
    ∀ (segment_index segment_data_offset : Int) (selected : Int × Int),
      0 ≤ segment_data_offset →
      segment_data_offset + (libfdata_segments_size segments : Int) ≤ 9223372036854775807 →
      libfdata_vector_get_element_index_at_offset_loop value_offset segments segment_index
        segment_data_offset = .ok selected →
      segment_data_offset ≤ selected.2
      ∧ selected.2 ≤ segment_data_offset + (libfdata_segments_size segments : Int)
      ∧ value_offset < segment_data_offset + (libfdata_segments_size segments : Int) := by
  induction segments with
  | nil =>
    intro segment_index segment_data_offset selected _ _ h
    simp [libfdata_vector_get_element_index_at_offset_loop] at h
  | cons entry rest ih =>
    intro segment_index segment_data_offset selected h0 hsum h
    cases entry with
    | none => simp [libfdata_vector_get_element_index_at_offset_loop] at h
    | some r =>
      simp only [libfdata_segments_size, Nat.cast_add] at hsum ⊢
      have hrest : (0 : Int) ≤ (libfdata_segments_size rest : Int) := Int.ofNat_nonneg _
      have hr : (0 : Int) ≤ (r.size : Int) := Int.ofNat_nonneg _
      have h1 : to_off64 (segment_data_offset + (r.size : Int))
          = segment_data_offset + (r.size : Int) :=
        to_off64_of_range _ (by omega) (by omega)
      have h2 : to_off64 (r.size : Int) = (r.size : Int) :=
        to_off64_of_range _ (by omega) (by omega)
      rw [libfdata_vector_get_element_index_at_offset_loop, h1, h2, h1] at h
      by_cases hlt : value_offset < segment_data_offset + (r.size : Int)
      · rw [if_pos hlt] at h
        simp only [Except.ok.injEq] at h
        rw [← h]
        simp only []
        omega
      · rw [if_neg hlt] at h
        have := ih (segment_index + 1) (segment_data_offset + (r.size : Int)) selected
          (by omega) (by omega) h
        omega

/-- C35 (as stated): on the vector with elements of 2^62 bytes and segments of 2^62,
2^62, 2^63 - 1 and 2^63 - 1 bytes (reached by four successful appends),
`libfdata_vector_get_element_index_at_offset` succeeds for the byte offset 2^62 with
element index 0 and element offset 2^62, which is not below the element size; the offset
divided by the element size is 1. -/
theorem get_element_index_at_offset_wraps :
    libfdata_vector_segment_calls_succeed
        (libfdata_vector_fresh 4611686018427387904 7 0 (none : Option Unit))
        [.append_segment 0 0 4611686018427387904 0,
          .append_segment 0 0 4611686018427387904 0,
          .append_segment 0 0 9223372036854775807 0,
          .append_segment 0 0 9223372036854775807 0] = true
    ∧ libfdata_vector_run_segment_calls
        (libfdata_vector_fresh 4611686018427387904 7 0 (none : Option Unit))
        [.append_segment 0 0 4611686018427387904 0,
          .append_segment 0 0 4611686018427387904 0,
          .append_segment 0 0 9223372036854775807 0,
          .append_segment 0 0 9223372036854775807 0] = wrapping_segments_vector
    ∧ libfdata_vector_get_element_index_at_offset_loop 4611686018427387904
        wrapping_segments_vector.segments_array 0 0 = .ok (3, -1)
    ∧ libfdata_vector_get_element_index_at_offset wrapping_segments_vector
        4611686018427387904 = .ok (0, 4611686018427387904)
    ∧ ¬ ((4611686018427387904 : Int) < (wrapping_segments_vector.element_size : Int))
    ∧ (4611686018427387904 : Int) / (wrapping_segments_vector.element_size : Int) = 1 :=
  ⟨rfl, rfl, rfl, rfl, by decide, by decide⟩

/-- C35 (amended): for every vector whose segment sizes sum to at most `INT64_MAX` and
every byte offset, whenever `libfdata_vector_get_element_index_at_offset` succeeds, the
element index and element offset it returns satisfy
`element_index * element_size + element_offset = offset` and
`0 <= element_offset < element_size`: the element index is `offset / element_size` and the
element offset is `offset % element_size`. -/
theorem get_element_index_at_offset_div_mod {H : Type} (vector : libfdata_vector H)
    (value_offset element_index element_offset : Int)
    (hsum : (libfdata_segments_size vector.segments_array : Int) ≤ INT64_MAX)
    (hok : libfdata_vector_get_element_index_at_offset vector value_offset
      = .ok (element_index, element_offset)) :
    element_index * (vector.element_size : Int) + element_offset = value_offset
    ∧ 0 ≤ element_offset
    ∧ element_offset < (vector.element_size : Int)
    ∧ element_index = value_offset / (vector.element_size : Int)
    ∧ element_offset = value_offset % (vector.element_size : Int) := by
  have hsum1 : (libfdata_segments_size vector.segments_array : Int)
      ≤ 9223372036854775807 := hsum
  unfold libfdata_vector_get_element_index_at_offset at hok
  by_cases hes : vector.element_size = 0
  · rw [if_pos hes] at hok
    exact absurd hok (by simp)
  rw [if_neg hes] at hok
  by_cases hneg : value_offset < 0
  · rw [if_pos hneg] at hok
    exact absurd hok (by simp)
  rw [if_neg hneg] at hok
  by_cases hlen : libcdata_array_get_number_of_entries vector.segments_array ≤ 0
  · rw [if_pos hlen] at hok
    exact absurd hok (by simp)
  rw [if_neg hlen] at hok
  cases hloop : libfdata_vector_get_element_index_at_offset_loop value_offset
      vector.segments_array 0 0 with
  | error e =>
    rw [hloop] at hok
    exact absurd hok (by simp)
  | ok selected =>
    obtain ⟨hs0, hs1, hv⟩ := get_element_index_at_offset_loop_ok_bounds value_offset
      vector.segments_array 0 0 selected (le_refl 0) (by omega) hloop
    rw [hloop] at hok
    simp only [] at hok
    have hespos : (0 : Int) < (vector.element_size : Int) := by omega
    have hcast : to_size64 (to_off64 (selected.2 + value_offset))
        = selected.2 + value_offset :=
      to_size64_to_off64 _ (by omega) (by omega)
    rw [hcast] at hok
    have hq0 : 0 ≤ (selected.2 + value_offset) / (vector.element_size : Int) :=
      Int.ediv_nonneg (by omega) (le_of_lt hespos)
    have hqle : (selected.2 + value_offset) / (vector.element_size : Int)
        * (vector.element_size : Int) ≤ selected.2 + value_offset :=
      Int.ediv_mul_le _ (by omega)
    have hqlt : selected.2 + value_offset
        < ((selected.2 + value_offset) / (vector.element_size : Int) + 1)
          * (vector.element_size : Int) :=
      Int.lt_ediv_add_one_mul_self _ hespos
    have hp0 : 0 ≤ (selected.2 + value_offset) / (vector.element_size : Int)
        * (vector.element_size : Int) := mul_nonneg hq0 (le_of_lt hespos)
    rw [add_mul, one_mul] at hqlt
    generalize hq : (selected.2 + value_offset) / (vector.element_size : Int) = q
      at hok hq0 hqle hqlt hp0
    generalize hp : q * (vector.element_size : Int) = p at hok hqle hqlt hp0
    have hprod : to_size64 p = p := to_size64_of_range _ hp0 (by omega)
    have hoff : to_off64 (value_offset - to_off64 p) = value_offset - p := by
      rw [to_off64_sub_to_off64]
      exact to_off64_of_range _ (by omega) (by omega)
    rw [hprod, hoff] at hok
    by_cases hmax : q > INT_MAX
    · rw [if_pos hmax] at hok
      exact absurd hok (by simp)
    rw [if_neg hmax] at hok
    by_cases hrange : value_offset - p < 0 ∨ value_offset - p > SSIZE_MAX
    · rw [if_pos hrange] at hok
      exact absurd hok (by simp)
    rw [if_neg hrange] at hok
    simp only [Except.ok.injEq, Prod.mk.injEq] at hok
    obtain ⟨hindex, helement⟩ := hok
    have hnonneg : 0 ≤ value_offset - p := by
      by_contra hcon
      exact hrange (Or.inl (by omega))
    have hunique := (Int.ediv_emod_unique (a := value_offset) (r := value_offset - p)
      (q := q) hespos).mpr ⟨by rw [mul_comm, hp]; omega, hnonneg, by omega⟩
    rw [← hindex, ← helement, hp]
    exact ⟨by omega, hnonneg, by omega, hunique.1.symm, hunique.2.symm⟩

/-- Witness of C35 (amended): the byte offset 50 of the vector with elements of 100 bytes
and segments of 10 and 200 bytes. -/
theorem get_element_index_at_offset_div_mod_witness :
    (0 : Int) * (short_first_segment_vector.element_size : Int) + 50 = 50
    ∧ (0 : Int) ≤ 50
    ∧ (50 : Int) < (short_first_segment_vector.element_size : Int)
    ∧ (0 : Int) = 50 / (short_first_segment_vector.element_size : Int)
    ∧ (50 : Int) = 50 % (short_first_segment_vector.element_size : Int) :=
  get_element_index_at_offset_div_mod short_first_segment_vector 50 0 50 (by decide) rfl

/-! ## Element indexes and the number of elements -/

/-- When the sizes of the segments sum to at most `INT64_MAX`, the walk of
`libfdata_vector_get_element_value_by_index` only stops for an offset below that sum. -/
theorem get_element_value_by_index_loop_ok_lt (segments : List (Option libfdata_range)) :
    ∀ (segment_index element_data_offset : Int) (selected : Int × Int),
      0 ≤ element_data_offset →
      element_data_offset ≤ 9223372036854775807 →
      (libfdata_segments_size segments : Int) ≤ 9223372036854775807 →
      libfdata_vector_get_element_value_by_index_loop segments segment_index
        element_data_offset = .ok selected →
      element_data_offset < (libfdata_segments_size segments : Int) := by
  induction segments with
  | nil =>
    intro segment_index element_data_offset selected _ _ _ h
    simp [libfdata_vector_get_element_value_by_index_loop] at h
  | cons entry rest ih =>
    intro segment_index element_data_offset selected h0 hmax hsum h
    cases entry with
    | none => simp [libfdata_vector_get_element_value_by_index_loop] at h
    | some r =>
      simp only [libfdata_segments_size, Nat.cast_add] at hsum ⊢
      have hrest : (0 : Int) ≤ (libfdata_segments_size rest : Int) := Int.ofNat_nonneg _
      have hr : (0 : Int) ≤ (r.size : Int) := Int.ofNat_nonneg _
      have h1 : to_off64 (r.size : Int) = (r.size : Int) :=
        to_off64_of_range _ (by omega) (by omega)
      rw [libfdata_vector_get_element_value_by_index_loop, h1] at h
      by_cases hlt : element_data_offset < (r.size : Int)
      · omega
      · rw [if_neg hlt] at h
        have h2 : to_off64 (element_data_offset - (r.size : Int))
            = element_data_offset - (r.size : Int) :=
          to_off64_of_range _ (by omega) (by omega)
        rw [h2] at h
        have := ih (segment_index + 1) (element_data_offset - (r.size : Int)) selected
          (by omega) (by omega) (by omega) h
        omega

/-- A resolved element index starts inside the data, when the data size is the sum of
the sizes of the segments and the logical offset is at most `INT64_MAX`. -/
theorem get_element_value_by_index_offset_inside {H : Type} (vector : libfdata_vector H)
    (element_index element_data_offset : Int)
    (hdata : vector.data_size = libfdata_segments_size vector.segments_array)
    (hproduct : element_index * (vector.element_size : Int) ≤ INT64_MAX)
    (hok : libfdata_vector_get_element_value_by_index_offset vector element_index
      = .ok element_data_offset) :
    0 ≤ element_index
    ∧ element_index * (vector.element_size : Int) < (vector.data_size : Int) := by
  have hproduct1 : element_index * (vector.element_size : Int) ≤ 9223372036854775807 :=
    hproduct
  obtain ⟨hindex, hes⟩ := get_element_value_by_index_offset_ok vector element_index
    element_data_offset hok
  refine ⟨hindex, ?_⟩
  have hespos : (0 : Int) < (vector.element_size : Int) := by omega
  have hp0 : 0 ≤ element_index * (vector.element_size : Int) :=
    mul_nonneg hindex (le_of_lt hespos)
  have hile : element_index ≤ element_index * (vector.element_size : Int) :=
    le_mul_of_one_le_right hindex (by omega)
  have h1 : to_size64 element_index = element_index :=
    to_size64_of_range _ hindex (by omega)
  have h2 : to_off64 (to_size64 (element_index * (vector.element_size : Int)))
      = element_index * (vector.element_size : Int) := by
    rw [to_size64_of_range _ hp0 (by omega), to_off64_of_range _ (by omega) (by omega)]
  unfold libfdata_vector_get_element_value_by_index_offset at hok
  rw [if_neg hes] at hok
  by_cases hc2 : vector.data_size = 0 ∨ (vector.data_size : Int) > INT64_MAX
  · rw [if_pos hc2] at hok
    exact absurd hok (by simp)
  rw [if_neg hc2, if_neg (not_lt.mpr hindex), h1, h2] at hok
  have hmax : (vector.data_size : Int) ≤ 9223372036854775807 := by
    by_contra hcon
    exact hc2 (Or.inr (by unfold INT64_MAX; omega))
  split at hok
  · exact absurd hok (by simp)
  · split at hok
    · exact absurd hok (by simp)
    · cases hloop : libfdata_vector_get_element_value_by_index_loop vector.segments_array 0
          (element_index * (vector.element_size : Int)) with
      | error e =>
        rw [hloop] at hok
        exact absurd hok (by simp)
      | ok selected =>
        have := get_element_value_by_index_loop_ok_lt vector.segments_array 0
          (element_index * (vector.element_size : Int)) selected hp0 hproduct1
          (by rw [← hdata]; exact hmax) hloop
        rw [hdata]
        exact this

/-- C36 (as stated): on the vector with elements of 512 bytes and one segment of 1000
bytes (reached by one successful append), `libfdata_vector_get_number_of_elements`
returns 1, but `libfdata_vector_get_element_value_by_index` and
`libfdata_vector_set_element_value_by_index` both succeed for element index 1, whose
end `(1 + 1) * 512` is past the data size. -/
theorem element_value_of_partial_element :
    libfdata_vector_segment_calls_succeed (libfdata_vector_fresh 512 7 0 (none : Option Unit))
        [.append_segment 0 0 1000 0] = true
    ∧ libfdata_vector_run_segment_calls (libfdata_vector_fresh 512 7 0 (none : Option Unit))
        [.append_segment 0 0 1000 0] = partial_element_vector.tolibfdata_vector
    ∧ libfdata_vector_get_number_of_elements partial_element_vector.tolibfdata_vector
      = .ok 1
    ∧ (libfdata_vector_get_element_value_by_index partial_element_vector none [none] 1
        0).result = .ok 1
    ∧ (libfdata_vector_get_element_value_by_index partial_element_vector none [none] 1
        0).read_calls.map (fun call => call.element_data_offset) = [512]
    ∧ libfdata_vector_set_element_value_by_index partial_element_vector.tolibfdata_vector
        [none] 1 5 none 0 = .ok [some ⟨0, 512, 7, 5, none, 0⟩]
    ∧ ¬ ((1 + 1) * (partial_element_vector.element_size : Int)
      ≤ (partial_element_vector.data_size : Int)) :=
  ⟨rfl, rfl, rfl, rfl, rfl, rfl, by decide⟩

/-- C36 (amended): for every vector whose data size is the sum of the sizes of its
segments (as after successful append_segment and set_segment_by_index calls without
overflow), every cache and read callback and every index `i` with
`i * element_size <= INT64_MAX`: whenever `libfdata_vector_get_element_value_by_index`
or `libfdata_vector_set_element_value_by_index` succeeds for `i`, the element starts
inside the data, `0 <= i` and `i * element_size < data_size`, so `i` is at most the number
returned by `libfdata_vector_get_number_of_elements`; when the data size is a multiple of
the element size, `i` is below that number and `(i + 1) * element_size <= data_size`. -/
theorem element_value_index_inside_data {H V : Type}
    (vector : libfdata_internal_vector H V) (element_index : Int)
    (hdata : vector.data_size = libfdata_segments_size vector.segments_array)
    (hproduct : element_index * (vector.element_size : Int) ≤ INT64_MAX)
    (hok : (∃ (file_io_handle : Option H) (cache : libfcache_cache V) (read_flags : Nat)
        (element_value : V),
        (libfdata_vector_get_element_value_by_index vector file_io_handle cache
          element_index read_flags).result = .ok element_value)
      ∨ ∃ (cache : libfcache_cache V) (element_value : V)
        (free_element_value : Option (V → Int)) (value_flags : Nat)
        (cache1 : libfcache_cache V),
        libfdata_vector_set_element_value_by_index vector.tolibfdata_vector cache
          element_index element_value free_element_value value_flags = .ok cache1) :
    0 ≤ element_index
    ∧ element_index * (vector.element_size : Int) < (vector.data_size : Int)
    ∧ ∀ (number_of_elements : Int),
      libfdata_vector_get_number_of_elements vector.tolibfdata_vector
        = .ok number_of_elements →
      element_index ≤ number_of_elements
      ∧ (vector.element_size ∣ vector.data_size →
        element_index < number_of_elements
        ∧ (element_index + 1) * (vector.element_size : Int) ≤ (vector.data_size : Int)) := by
  have hoffset : ∃ element_data_offset,
      libfdata_vector_get_element_value_by_index_offset vector.tolibfdata_vector
        element_index = .ok element_data_offset := by
    rcases hok with ⟨file_io_handle, cache, read_flags, element_value, hget⟩
      | ⟨cache, element_value, free_element_value, value_flags, cache1, hset⟩
    · cases hoff : libfdata_vector_get_element_value_by_index_offset
          vector.tolibfdata_vector element_index with
      | ok element_data_offset => exact ⟨_, rfl⟩
      | error e =>
        obtain ⟨⟨e1, he1⟩, _⟩ := get_element_value_by_index_offset_error vector file_io_handle
          cache element_index read_flags e hoff
        rw [he1] at hget
        exact absurd hget (by simp)
    · obtain ⟨element_data_offset, hoff, _⟩ :=
        (set_element_value_by_index_ok_iff vector.tolibfdata_vector cache element_index
          element_value free_element_value value_flags cache1).mp hset
      rw [set_element_value_by_index_offset_eq] at hoff
      exact ⟨_, hoff⟩
  obtain ⟨element_data_offset, hoff⟩ := hoffset
  obtain ⟨hindex, hinside⟩ := get_element_value_by_index_offset_inside
    vector.tolibfdata_vector element_index element_data_offset hdata hproduct hoff
  obtain ⟨_, hes⟩ := get_element_value_by_index_offset_ok vector.tolibfdata_vector
    element_index element_data_offset hoff
  have hespos : (0 : Int) < (vector.element_size : Int) := by
    have : vector.element_size ≠ 0 := hes
    omega
  refine ⟨hindex, hinside, ?_⟩
  intro number_of_elements hnumber
  unfold libfdata_vector_get_number_of_elements at hnumber
  rw [if_neg hes] at hnumber
  simp only [] at hnumber
  split at hnumber
  · exact absurd hnumber (by simp)
  · simp only [Except.ok.injEq] at hnumber
    rw [← hnumber]
    have hcast : ((vector.data_size / vector.element_size : Nat) : Int)
        = (vector.data_size : Int) / (vector.element_size : Int) := Int.natCast_div _ _
    refine ⟨?_, ?_⟩
    · rw [hcast]
      exact Int.le_ediv_of_mul_le hespos (le_of_lt hinside)
    · intro hdvd
      have hmul : (vector.data_size / vector.element_size) * vector.element_size
          = vector.data_size := Nat.div_mul_cancel hdvd
      have hmul1 : ((vector.data_size / vector.element_size : Nat) : Int)
          * (vector.element_size : Int) = (vector.data_size : Int) := by
        rw [← Nat.cast_mul, hmul]
      have hlt : element_index < ((vector.data_size / vector.element_size : Nat) : Int) := by
        have h : element_index * (vector.element_size : Int)
            < ((vector.data_size / vector.element_size : Nat) : Int)
              * (vector.element_size : Int) := by
          rw [hmul1]; exact hinside
        exact lt_of_mul_lt_mul_right h (le_of_lt hespos)
      refine ⟨hlt, ?_⟩
      rw [← hmul1]
      exact mul_le_mul_of_nonneg_right (by omega) (le_of_lt hespos)

/-- Witness of C36 (amended): element 1 of the vector with one segment of two elements of
512 bytes. -/
theorem element_value_index_inside_data_witness :
    (0 : Int) ≤ 1
    ∧ 1 * (one_segment_vector.element_size : Int) < (one_segment_vector.data_size : Int)
    ∧ ∀ (number_of_elements : Int),
      libfdata_vector_get_number_of_elements one_segment_vector.tolibfdata_vector
        = .ok number_of_elements →
      1 ≤ number_of_elements
      ∧ (one_segment_vector.element_size ∣ one_segment_vector.data_size →
        1 < number_of_elements
        ∧ ((1 : Int) + 1) * (one_segment_vector.element_size : Int)
          ≤ (one_segment_vector.data_size : Int)) :=
  element_value_index_inside_data one_segment_vector 1 rfl (by decide)
    (Or.inl ⟨none, [none], 0, 1, rfl⟩)

/-! ## Setting and then getting an element value -/

/-- C37 (as stated): on the vector with segments of 512 and 1024 bytes and no read
callback, `libfdata_vector_set_element_value_by_index` succeeds for element 0 on a cache
of one slot, and the immediately following `libfdata_vector_get_element_value_by_index`
of element 0 on the resulting cache fails (the vector has no read callback). -/
theorem set_then_get_without_read_callback :
    example_vector.read_element_data = none
    ∧ libfdata_vector_set_element_value_by_index example_vector.tolibfdata_vector [none] 0 5
        none 0 = .ok [some ⟨0, 0, 7, 5, none, 0⟩]
    ∧ (libfdata_vector_get_element_value_by_index example_vector none
        [some ⟨0, 0, 7, 5, none, 0⟩] 0 0).result = .error .missing_read_element_data :=
  ⟨rfl, rfl, rfl⟩

/-- C37 (amended): for every vector with a read callback, every cache and every index
`i`, if `libfdata_vector_set_element_value_by_index` succeeds for `i` and a value `v`
(the cache then has at least one slot), an immediately following
`libfdata_vector_get_element_value_by_index` of `i` on the resulting cache without the
flag `LIBFDATA_READ_FLAG_IGNORE_CACHE` succeeds, returns `v`, does not invoke the read
callback and leaves the cache unchanged. -/
theorem set_then_get_returns_value {H V : Type} (vector : libfdata_internal_vector H V)
    (file_io_handle : Option H) (cache cache1 : libfcache_cache V) (element_index : Int)
    (element_value : V) (free_element_value : Option (V → Int)) (value_flags : Nat)
    (read_flags : Nat)
    (hread : vector.read_element_data ≠ none)
    (hflags : read_flags &&& LIBFDATA_READ_FLAG_IGNORE_CACHE = 0)
    (hset : libfdata_vector_set_element_value_by_index vector.tolibfdata_vector cache
      element_index element_value free_element_value value_flags = .ok cache1) :
    0 < libfcache_cache_get_number_of_entries cache
    ∧ (libfdata_vector_get_element_value_by_index vector file_io_handle cache1 element_index
        read_flags).result = .ok element_value
    ∧ (libfdata_vector_get_element_value_by_index vector file_io_handle cache1 element_index
        read_flags).read_calls = []
    ∧ (libfdata_vector_get_element_value_by_index vector file_io_handle cache1 element_index
        read_flags).cache = cache1 := by
  obtain ⟨element_data_offset, hoffset, hcache, hcache1⟩ :=
    (set_element_value_by_index_ok_iff vector.tolibfdata_vector cache element_index
      element_value free_element_value value_flags cache1).mp hset
  rw [set_element_value_by_index_offset_eq] at hoffset
  obtain ⟨hindex, _⟩ := get_element_value_by_index_offset_ok vector.tolibfdata_vector
    element_index element_data_offset hoffset
  have hlength : cache1.length = cache.length := by
    rw [hcache1, List.length_set]
  have hrange := libfdata_vector_calculate_cache_entry_index_range element_index
    (cache.length : Int) hindex (by omega)
  have hslot : cache1[(libfdata_vector_calculate_cache_entry_index element_index
      (cache1.length : Int)).toNat]?
      = some (some ⟨0, element_data_offset, vector.timestamp, element_value,
          free_element_value, value_flags⟩) := by
    rw [hlength, hcache1]
    rw [List.getElem?_set_self (by omega)]
  have hhit := get_element_value_by_index_hit vector file_io_handle cache1 element_index
    read_flags element_data_offset
    ⟨0, element_data_offset, vector.timestamp, element_value, free_element_value,
      value_flags⟩ hread hoffset hflags hslot ⟨rfl, rfl⟩
  rw [hhit]
  refine ⟨?_, rfl, rfl, rfl⟩
  unfold libfcache_cache_get_number_of_entries
  omega

/-- Witness of C37 (amended): setting the value 5 for element 1 of the vector with one
segment of two elements and getting element 1 again. -/
theorem set_then_get_returns_value_witness :
    0 < libfcache_cache_get_number_of_entries ([none, none] : libfcache_cache Int)
    ∧ (libfdata_vector_get_element_value_by_index one_segment_vector none
        [none, some ⟨0, 512, 7, 5, none, 0⟩] 1 0).result = .ok 5
    ∧ (libfdata_vector_get_element_value_by_index one_segment_vector none
        [none, some ⟨0, 512, 7, 5, none, 0⟩] 1 0).read_calls = []
    ∧ (libfdata_vector_get_element_value_by_index one_segment_vector none
        [none, some ⟨0, 512, 7, 5, none, 0⟩] 1 0).cache
      = [none, some ⟨0, 512, 7, 5, none, 0⟩] :=
  set_then_get_returns_value one_segment_vector none [none, none]
    [none, some ⟨0, 512, 7, 5, none, 0⟩] 1 5 none 0 0 (by simp [one_segment_vector])
    (by decide) rfl

/-! ## An empty cache slot -/

